import Mathlib

/-!
# Verification of the Sapiens MVP orchestration core

Shallow embedding of the Python source under `src/backend/` (state machine,
structured-extraction parsers, worker agents, orchestrator) together with
proofs and refutations of the specification claims.

Conventions used throughout the embedding:
* Python `float` values are modelled as exact rationals (`ℚ`); every float
  appearing in the source is a decimal literal or a clamped parse result, and
  no claim hinges on binary rounding.
* `uuid.uuid4()` is modelled as drawing from an explicit fresh-name supply
  (a natural-number counter), and `date.today()` as an explicit `today`
  parameter, so that the nondeterminism of the source is explicit state.
* `datetime.utcnow()` audit timestamps (`created_at`, `last_activity_at`,
  `state_entered_at`, …) are omitted from the records: no claim mentions
  them, and they would only add an extra clock parameter.
* A Python exception is an `Except` error; pydantic construction of a model
  with a required field missing is the error `PyErr.validationError`.
-/

namespace Sapiens

/-! ## Phase type (src/backend/schemas/state.py, `StateType`) -/

/-- The 7 enumerated phases of the user journey (`StateType` in
`src/backend/schemas/state.py`). -/
inductive StateType where
  | onboarding
  | project_generation
  | problem_definition
  | solution_design
  | execution
  | review
  | completed
deriving DecidableEq, Repr, Fintype

/-- The enum's string value, as stored in the pydantic models. -/
def StateType.value : StateType → String
  | .onboarding => "onboarding"
  | .project_generation => "project_generation"
  | .problem_definition => "problem_definition"
  | .solution_design => "solution_design"
  | .execution => "execution"
  | .review => "review"
  | .completed => "completed"

/-- All members of the fixed phase set. -/
def allStates : List StateType :=
  [.onboarding, .project_generation, .problem_definition, .solution_design,
   .execution, .review, .completed]

/-! ## State machine (src/backend/orchestration/state_machine.py) -/

/-- `StateMachine.transitions`: the fixed transition table built in
`StateMachine.__init__`.  A `Set[StateType]` is modelled as a list. -/
def transitions : StateType → List StateType
  | .onboarding => [.project_generation]
  | .project_generation => [.problem_definition, .onboarding]
  | .problem_definition => [.solution_design, .project_generation]
  | .solution_design => [.execution, .problem_definition]
  | .execution => [.review, .solution_design]
  | .review => [.completed, .execution]
  | .completed => []

/-- `StateMachine.is_valid_transition`.  The Python `from_state not in
self.transitions` guard can never fire (the table has a key for every
member), so the function is membership in the table row. -/
def is_valid_transition (from_state to_state : StateType) : Bool :=
  (transitions from_state).contains to_state

/-- `StateMachine.get_valid_next_states`. -/
def get_valid_next_states (current_state : StateType) : List StateType :=
  transitions current_state

/-- `StateMachine.get_required_data`: the static required-field table keyed
by target phase. -/
def get_required_data : StateType → List String
  | .onboarding => ["target_role", "target_domain"]
  | .project_generation => ["target_role", "target_domain"]
  | .problem_definition => ["project_id", "project_approved"]
  | .solution_design => ["problem_id", "problem_approved"]
  | .execution => ["solution_id", "solution_approved"]
  | .review => ["milestones_completed"]
  | .completed => ["review_id", "resume_generated"]

/-- A state-data snapshot for the guard: each present key maps to the Python
truthiness of its value (`user_state_data` is `UserState.model_dump()` in the
orchestrator, but `can_transition` only tests `field not in data or not
data[field]`, so only presence and truthiness matter). -/
abbrev Snapshot := List (String × Bool)

/-- `field in user_state_data and user_state_data[field]` is truthy. -/
def fieldTruthy (user_state_data : Snapshot) (field : String) : Bool :=
  match user_state_data.lookup field with
  | some b => b
  | none => false

/-- `StateMachine.can_transition`: structural edge check, then the loop over
`get_required_data(to_state)` returning the first missing field. -/
def can_transition (from_state to_state : StateType)
    (user_state_data : Snapshot) : Bool × String :=
  if is_valid_transition from_state to_state = false then
    (false, "Invalid transition from " ++ from_state.value ++ " to " ++ to_state.value)
  else
    match (get_required_data to_state).find?
        (fun field => !(fieldTruthy user_state_data field)) with
    | some field => (false, "Missing required field: " ++ field)
    | none => (true, "Transition allowed")

/-! ## Python string primitives

Small total models of the Python string operations the parsers use.  They
are written by structural recursion over the character list of the string so
that every concrete evaluation reduces inside the kernel (the corresponding
`String` library functions use well-founded recursion and would not). -/

/-- Substring test on character lists. -/
def lcIsInfixOf (needle : List Char) : List Char → Bool
  | [] => needle.isEmpty
  | c :: t => needle.isPrefixOf (c :: t) || lcIsInfixOf needle t

/-- Index of the first occurrence of `needle`. -/
def lcFindSubstrIdx (needle : List Char) : List Char → Option Nat
  | [] => if needle.isEmpty then some 0 else none
  | c :: t =>
    if needle.isPrefixOf (c :: t) then some 0
    else (lcFindSubstrIdx needle t).map (· + 1)

/-- Split on a single separator character (keeping empty pieces, as Python
`str.split(sep)` with an explicit separator does). -/
def lcSplitOnChar (sep : Char) : List Char → List Char → List (List Char)
  | cur, [] => [cur.reverse]
  | cur, c :: t =>
    if c = sep then cur.reverse :: lcSplitOnChar sep [] t
    else lcSplitOnChar sep (c :: cur) t

/-- Python `sep.join(parts)`. -/
def lcJoin (sep : List Char) : List (List Char) → List Char
  | [] => []
  | [p] => p
  | p :: rest => p ++ sep ++ lcJoin sep rest

/-- Python whitespace strip from both ends. -/
def lcStrip (cs : List Char) : List Char :=
  ((cs.dropWhile Char.isWhitespace).reverse.dropWhile Char.isWhitespace).reverse

/-- Python `s.strip(chars)`: strip any of the given characters from both
ends. -/
def lcStripChars (chars cs : List Char) : List Char :=
  ((cs.dropWhile (chars.contains ·)).reverse.dropWhile (chars.contains ·)).reverse

def pyStripChars (chars : String) (s : String) : String :=
  String.mk (lcStripChars chars.data s.data)

/-- Python `needle in hay` (substring containment). -/
def pyContains (needle hay : String) : Bool :=
  lcIsInfixOf needle.data hay.data

/-- Python `s.startswith(p)`. -/
def pyStartsWith (s p : String) : Bool :=
  p.data.isPrefixOf s.data

/-- Python `s.strip()`. -/
def pyStrip (s : String) : String :=
  String.mk (lcStrip s.data)

/-- Python `s.lower()`. -/
def pyLower (s : String) : String :=
  String.mk (s.data.map Char.toLower)

/-- Python `s.upper()`. -/
def pyUpper (s : String) : String :=
  String.mk (s.data.map Char.toUpper)

/-- Python `s[n:]`. -/
def pyDrop (s : String) (n : Nat) : String :=
  String.mk (s.data.drop n)

/-- Python `s[:n]`. -/
def pyTake (s : String) (n : Nat) : String :=
  String.mk (s.data.take n)

/-- Python `sep.join(parts)`. -/
def pyJoin (sep : String) (parts : List String) : String :=
  String.mk (lcJoin sep.data (parts.map String.data))

/-- Python `s.split('\n')`. -/
def pyLines (s : String) : List String :=
  (lcSplitOnChar '\n' [] s.data).map String.mk

/-- Python `s.split(sep)` for a one-character separator. -/
def pySplitChar (sep : Char) (s : String) : List String :=
  (lcSplitOnChar sep [] s.data).map String.mk

/-- Python `s.split(sep, 1)`: the part before the first occurrence of `sep`
and the remainder.  When `sep` does not occur the second component is `""`
(callers only read it after a containment check). -/
def pySplit1 (s sep : String) : String × String :=
  match lcFindSubstrIdx sep.data s.data with
  | none => (s, "")
  | some i => (String.mk (s.data.take i), String.mk (s.data.drop (i + sep.length)))

/-- Python `''.join(filter(lambda x: x.isdigit() or x == '.', s))`. -/
def filterDigitsDots (s : String) : List Char :=
  s.toList.filter (fun c => c.isDigit || c == '.')

/-- Digit string to number (most significant first). -/
def digitsToNat (cs : List Char) : Nat :=
  cs.foldl (fun n c => n * 10 + (c.toNat - 48)) 0

/-- Python `float(s)` applied to a string of digits and dots only: succeeds
iff there is at most one dot and at least one digit, otherwise it raises
(always caught by the callers' `try`/`except`).  Floats are modelled as
exact rationals; the value `intpart.fracpart` is the integer read off all
digits divided by `10 ^ (number of fraction digits)`. -/
def pyFloat? (cs : List Char) : Option ℚ :=
  if cs.count '.' ≤ 1 && cs.any Char.isDigit then
    let intPart := cs.takeWhile (fun c => c ≠ '.')
    let fracPart := (cs.dropWhile (fun c => c ≠ '.')).drop 1
    some (mkRat (digitsToNat (intPart ++ fracPart)) (10 ^ fracPart.length))
  else none

/-- Python `max(a, b)` on floats. -/
def pyMax (a b : ℚ) : ℚ := if a ≤ b then b else a

/-- Python `min(a, b)` on floats. -/
def pyMin (a b : ℚ) : ℚ := if a ≤ b then a else b

/-- `max(0.0, min(10.0, value))`. -/
def clamp010 (v : ℚ) : ℚ := pyMax 0 (pyMin 10 v)

/-- Python dict insertion `d[k] = v` on an insertion-ordered dict. -/
def pyDictInsert (d : List (String × ℚ)) (k : String) (v : ℚ) :
    List (String × ℚ) :=
  if d.any (fun p => p.1 = k) then
    d.map (fun p => if p.1 = k then (k, v) else p)
  else d ++ [(k, v)]

/-- Python `d.setdefault(k, v)`. -/
def pyDictSetdefault (d : List (String × ℚ)) (k : String) (v : ℚ) :
    List (String × ℚ) :=
  if d.any (fun p => p.1 = k) then d else d ++ [(k, v)]

/-- Python truthiness of an optional string field (`None` and `""` are
falsy). -/
def optStrTruthy : Option String → Bool
  | none => false
  | some s => !(s == "")

/-! ## Python exceptions -/

/-- The exceptions the embedded code can raise.  `validationError` is
pydantic's `ValidationError` for a model constructed with a required field
missing. -/
inductive PyErr where
  | valueError (msg : String)
  | validationError (msg : String)
  | runtimeError (msg : String)
  | indexError (msg : String)
deriving Repr, DecidableEq

/-- Python `str(e)` (for `ValidationError` the real text is longer; only the
fact that some message is produced matters). -/
def PyErr.str : PyErr → String
  | .valueError m => m
  | .validationError m => m
  | .runtimeError m => m
  | .indexError m => m

/-! ## The oracle (`BaseAgent.call_llm`, src/backend/agents/base.py)

The generative oracle is an opaque collaborator: a function from
`(system_prompt, user_prompt, temperature)` to either a text or a transport
error.  `call_llm` wraps any failure in a `RuntimeError`. -/

abbrev OracleFn := String → String → ℚ → Except String String

/-- `BaseAgent.call_llm` (and its alias `call_claude`): one oracle round
trip; a transport failure is re-raised as
`RuntimeError("OpenAI API call failed: …")`. -/
def call_llm (oracle : OracleFn) (system_prompt user_prompt : String)
    (temperature : ℚ) : Except PyErr String :=
  match oracle system_prompt user_prompt temperature with
  | .ok t => .ok t
  | .error e => .error (.runtimeError ("OpenAI API call failed: " ++ e))

/-! ### Claim C1 -/

/-- The 11 edges as enumerated by the specification (forward chain plus the
five backward revision edges).  This definition follows the spec's words and
is compared against the table built from the source. -/
def specEdges : List (StateType × StateType) :=
  [(.onboarding, .project_generation),
   (.project_generation, .problem_definition),
   (.problem_definition, .solution_design),
   (.solution_design, .execution),
   (.execution, .review),
   (.review, .completed),
   (.project_generation, .onboarding),
   (.problem_definition, .project_generation),
   (.solution_design, .problem_definition),
   (.execution, .solution_design),
   (.review, .execution)]

/-- C1: over all 49 ordered pairs of phases, `is_valid_transition` is true
iff the pair is one of the 11 edges of the fixed graph; in particular
`completed` has no outgoing edge. -/
theorem c1_is_valid_transition_iff_spec_edge :
    (∀ a b : StateType, is_valid_transition a b = true ↔ (a, b) ∈ specEdges) ∧
    (∀ b : StateType, is_valid_transition .completed b = false) := by
  decide

/-! ### Claim C2 -/

/-- C2: the guard permits a transition iff the edge exists and every field in
the target phase's declared required-field list is present and truthy in the
snapshot; consequently a transition into a phase requiring a field is
rejected whenever that field is absent or falsy. -/
theorem c2_can_transition_iff_guard :
    ∀ (a b : StateType) (d : Snapshot),
      ((can_transition a b d).1 = true ↔
        (is_valid_transition a b = true ∧
          ∀ f ∈ get_required_data b, fieldTruthy d f = true)) ∧
      (∀ f ∈ get_required_data b, fieldTruthy d f = false →
        (can_transition a b d).1 = false) := by
  intro a b d
  have hiff : (can_transition a b d).1 = true ↔
      (is_valid_transition a b = true ∧
        ∀ f ∈ get_required_data b, fieldTruthy d f = true) := by
    constructor
    · intro h
      unfold can_transition at h
      by_cases hv : is_valid_transition a b = false
      · simp [hv] at h
      · refine ⟨by simpa using hv, ?_⟩
        intro f hf
        simp only [hv, if_neg] at h
        rcases hfind : (get_required_data b).find?
            (fun field => !(fieldTruthy d field)) with _ | g
        · have := List.find?_eq_none.mp hfind f hf
          simpa using this
        · rw [hfind] at h
          simp at h
    · rintro ⟨hv, hall⟩
      unfold can_transition
      simp only [hv]
      rcases hfind : (get_required_data b).find?
          (fun field => !(fieldTruthy d field)) with _ | g
      · simp
      · have hg := List.find?_some hfind
        have hmem := List.mem_of_find?_eq_some hfind
        have := hall g hmem
        simp [this] at hg
  refine ⟨hiff, ?_⟩
  intro f hf hfalse
  by_contra hne
  have htrue : (can_transition a b d).1 = true := by
    cases h : (can_transition a b d).1
    · exact absurd h hne
    · rfl
  have := (hiff.mp htrue).2 f hf
  rw [this] at hfalse
  exact Bool.noConfusion hfalse

/-- Witness for C1 at a concrete edge: the backward revision edge
review→execution is valid. -/
theorem c1_is_valid_transition_iff_spec_edge_witness :
    is_valid_transition .review .execution = true :=
  (c1_is_valid_transition_iff_spec_edge.1 .review .execution).mpr (by decide)

/-- Witness for C2 at a concrete snapshot: onboarding→project_generation is
allowed once both required fields are truthy. -/
theorem c2_can_transition_iff_guard_witness :
    (can_transition .onboarding .project_generation
      [("target_role", true), ("target_domain", true)]).1 = true :=
  (c2_can_transition_iff_guard .onboarding .project_generation
      [("target_role", true), ("target_domain", true)]).1.mpr
    ⟨by decide, by decide⟩

/-! ## Problem-Solution Tutor (src/backend/agents/problem_solution_tutor.py) -/

/-- `ProblemDefinition` (src/backend/schemas/problem_solution.py); audit
timestamps and metadata omitted. -/
structure ProblemDefinition where
  problem_id : String
  project_id : String
  user_id : String
  problem_statement : String
  target_audience : String
  problem_context : String
  success_metrics : List String
  evaluation_passed : Bool := false
  evaluation_feedback : Option String := none
  market_relevance_score : Option ℚ := none
  feasibility_score : Option ℚ := none
  clarity_score : Option ℚ := none
  improvement_suggestions : List String := []
deriving Repr, DecidableEq

/-- `SolutionDesign` (src/backend/schemas/problem_solution.py). -/
structure SolutionDesign where
  solution_id : String
  problem_id : String
  project_id : String
  user_id : String
  solution_approach : String
  key_components : List String
  methodology : String
  expected_outcomes : List String
  resource_requirements : Option String := none
  evaluation_passed : Bool := false
  evaluation_feedback : Option String := none
  logical_coherence_score : Option ℚ := none
  innovation_score : Option ℚ := none
  implementation_feasibility_score : Option ℚ := none
  impact_potential_score : Option ℚ := none
  improvement_suggestions : List String := []
deriving Repr, DecidableEq

/-- `ProblemSolutionTutorInput` (src/backend/schemas/agent_io.py). -/
structure ProblemSolutionTutorInput where
  user_id : String
  request_id : String
  project_id : String
  mode : String
  problem_definition : Option ProblemDefinition := none
  solution_design : Option SolutionDesign := none
  problem_context : Option ProblemDefinition := none
deriving Repr, DecidableEq

/-- `ProblemSolutionTutorOutput` (src/backend/schemas/agent_io.py); `scores`
is the insertion-ordered dict. -/
structure ProblemSolutionTutorOutput where
  request_id : String
  success : Bool
  message : Option String := none
  mode : String
  evaluation_passed : Bool
  scores : List (String × ℚ) := []
  overall_feedback : String
  strengths : List String := []
  improvement_suggestions : List String := []
  next_steps : String
  example_improvements : Option String := none
deriving Repr, DecidableEq

/-- One iteration of the `_parse_scores` line loop: a line with a colon is
split into key and value; the value is digit/dot-filtered and converted
(`except: pass` skips the line on failure), clamped to `[0, 10]`, and stored
under the canonical key whose display name occurs in the line's key. -/
def parse_scores_line (mode : String) (scores : List (String × ℚ))
    (line : String) : List (String × ℚ) :=
  if pyContains ":" line then
    let parts := pySplit1 line ":"
    let key := pyStrip parts.1
    let value_str := pyStrip parts.2
    match pyFloat? (filterDigitsDots value_str) with
    | none => scores
    | some v =>
      let value := clamp010 v
      if mode = "problem" then
        if pyContains "Market Relevance" key then pyDictInsert scores "market_relevance" value
        else if pyContains "Clarity" key then pyDictInsert scores "clarity" value
        else if pyContains "Feasibility" key then pyDictInsert scores "feasibility" value
        else scores
      else if mode = "solution" then
        if pyContains "Logical Coherence" key then pyDictInsert scores "logical_coherence" value
        else if pyContains "Innovation" key then pyDictInsert scores "innovation" value
        else if pyContains "Implementation Feasibility" key then pyDictInsert scores "implementation_feasibility" value
        else if pyContains "Impact Potential" key then pyDictInsert scores "impact_potential" value
        else scores
      else scores
  else scores

/-- `ProblemSolutionTutorAgent._parse_scores`: scan the lines, then
`setdefault` every criterion of the mode to the fixed fallback `5.0`. -/
def parse_scores (response : String) (mode : String) : List (String × ℚ) :=
  let scores := (pyLines response).foldl (parse_scores_line mode) []
  if mode = "problem" then
    pyDictSetdefault (pyDictSetdefault (pyDictSetdefault scores
      "market_relevance" 5) "clarity" 5) "feasibility" 5
  else
    pyDictSetdefault (pyDictSetdefault (pyDictSetdefault (pyDictSetdefault scores
      "logical_coherence" 5) "innovation" 5) "implementation_feasibility" 5)
      "impact_potential" 5

/-- Loop shared by `_parse_feedback`, `_parse_next_steps` and
`_generate_examples`: an `in_section` flag is set by any line containing the
marker; once set, a stripped line starting with `'#'` breaks, and nonblank
lines are accumulated verbatim. -/
def tutorSectionLines (marker : String) : Bool → List String → List String
  | _, [] => []
  | inSec, line :: rest =>
    if pyContains marker line then tutorSectionLines marker true rest
    else if inSec && pyStartsWith (pyStrip line) "#" then []
    else if inSec && !(pyStrip line == "") then
      line :: tutorSectionLines marker true rest
    else tutorSectionLines marker inSec rest

/-- `ProblemSolutionTutorAgent._parse_feedback`. -/
def parse_feedback (response : String) : String :=
  let out := pyStrip (pyJoin "\n"
    (tutorSectionLines "# OVERALL FEEDBACK" false (pyLines response)))
  if out = "" then "Evaluation completed." else out

/-- `ProblemSolutionTutorAgent._parse_next_steps`. -/
def parse_next_steps (response : String) : String :=
  let out := pyStrip (pyJoin "\n"
    (tutorSectionLines "# NEXT STEPS" false (pyLines response)))
  if out = "" then "Revise based on feedback and resubmit." else out

/-- `ProblemSolutionTutorAgent._generate_examples` (the trailing
`or None` makes an empty extraction `None`). -/
def generate_examples (response : String) : Option String :=
  let out := pyStrip (pyJoin "\n"
    (tutorSectionLines "# EXAMPLES OF IMPROVEMENTS" false (pyLines response)))
  if out = "" then none else some out

/-- `ProblemSolutionTutorAgent._parse_list_section`: same section scan, but
only bullet lines (`- `/`* `, content stripped) and decimal-numbered lines
are kept. -/
def tutorListSectionLines (header : String) : Bool → List String → List String
  | _, [] => []
  | inSec, line :: rest =>
    if pyContains header line then tutorListSectionLines header true rest
    else if inSec && pyStartsWith (pyStrip line) "#" then []
    else if inSec then
      let l := pyStrip line
      if pyStartsWith l "- " || pyStartsWith l "* " then
        pyStrip (pyDrop l 2) :: tutorListSectionLines header true rest
      else if !(l == "") && (l.data.headD ' ').isDigit && pyContains "." l then
        pyStrip (pySplit1 l ".").2 :: tutorListSectionLines header true rest
      else tutorListSectionLines header true rest
    else tutorListSectionLines header inSec rest

/-- `ProblemSolutionTutorAgent._parse_strengths`. -/
def parse_strengths (response : String) : List String :=
  tutorListSectionLines "# STRENGTHS" false (pyLines response)

/-- `ProblemSolutionTutorAgent._parse_suggestions`. -/
def parse_suggestions (response : String) : List String :=
  tutorListSectionLines "# IMPROVEMENT SUGGESTIONS" false (pyLines response)

/-- `sum(scores.values())`. -/
def scoresSum (scores : List (String × ℚ)) : ℚ :=
  (scores.map Prod.snd).sum

/-- `avg_score = sum(scores.values()) / len(scores)` followed by
`passed = avg_score >= 7.0 and all(score >= 6.0 …)`. -/
def tutorPassed (scores : List (String × ℚ)) : Bool :=
  let avg_score := scoresSum scores / (scores.length : ℚ)
  decide (avg_score ≥ 7) && scores.all (fun p => decide (p.2 ≥ 6))

/-- The pure tail of `_evaluate_problem`: everything computed from the
oracle's response text. -/
def evaluate_problem_response (request_id response : String) :
    ProblemSolutionTutorOutput :=
  let scores := parse_scores response "problem"
  let passed := tutorPassed scores
  { request_id := request_id
    success := true
    mode := "problem"
    evaluation_passed := passed
    scores := scores
    overall_feedback := parse_feedback response
    strengths := parse_strengths response
    improvement_suggestions := parse_suggestions response
    next_steps := parse_next_steps response
    example_improvements := if !passed then generate_examples response else none }

/-- The pure tail of `_evaluate_solution`. -/
def evaluate_solution_response (request_id response : String) :
    ProblemSolutionTutorOutput :=
  let scores := parse_scores response "solution"
  let passed := tutorPassed scores
  { request_id := request_id
    success := true
    mode := "solution"
    evaluation_passed := passed
    scores := scores
    overall_feedback := parse_feedback response
    strengths := parse_strengths response
    improvement_suggestions := parse_suggestions response
    next_steps := parse_next_steps response
    example_improvements := if !passed then generate_examples response else none }

/-- The system-prompt literals of the agents are long instruction prose that
no claim (and no parser) depends on; each is kept as its opening line. -/
def problem_evaluation_prompt : String :=
  "You are an expert tutor evaluating problem definitions using a market/research lens."

def solution_evaluation_prompt : String :=
  "You are an expert tutor evaluating solution designs using a VC/practitioner lens."

/-- The user prompt of `_evaluate_problem` (field serialization). -/
def problem_user_prompt (problem : ProblemDefinition) : String :=
  "Evaluate this problem definition:\n\nPROJECT CONTEXT:\nProject ID: "
    ++ problem.project_id ++ "\n\nPROBLEM STATEMENT:\n" ++ problem.problem_statement
    ++ "\n\nTARGET AUDIENCE:\n" ++ problem.target_audience
    ++ "\n\nCONTEXT:\n" ++ problem.problem_context
    ++ "\n\nSUCCESS METRICS:\n"
    ++ String.intercalate "\n" (problem.success_metrics.map (fun m => "- " ++ m))
    ++ "\n\nProvide a thorough evaluation following the specified format."

/-- The user prompt of `_evaluate_solution`. -/
def solution_user_prompt (solution : SolutionDesign)
    (problem : Option ProblemDefinition) : String :=
  "Evaluate this solution design:\n\nPROBLEM CONTEXT:\n"
    ++ (match problem with | some p => p.problem_statement | none => "N/A")
    ++ "\n\nSOLUTION APPROACH:\n" ++ solution.solution_approach
    ++ "\n\nKEY COMPONENTS:\n"
    ++ String.intercalate "\n" (solution.key_components.map (fun c => "- " ++ c))
    ++ "\n\nMETHODOLOGY:\n" ++ solution.methodology
    ++ "\n\nEXPECTED OUTCOMES:\n"
    ++ String.intercalate "\n" (solution.expected_outcomes.map (fun o => "- " ++ o))
    ++ "\n\nRESOURCE REQUIREMENTS:\n"
    ++ (match solution.resource_requirements with | some r => r | none => "Not specified")
    ++ "\n\nProvide a thorough evaluation following the specified format."

/-- `ProblemSolutionTutorAgent._evaluate_problem`: raises `ValueError` when
the problem definition is missing, otherwise one oracle call (temperature
0.3) followed by the pure response processing. -/
def evaluate_problem (oracle : OracleFn) (inp : ProblemSolutionTutorInput) :
    Except PyErr ProblemSolutionTutorOutput :=
  match inp.problem_definition with
  | none => .error (.valueError "Problem definition is required for problem evaluation")
  | some problem => do
    let response ← call_llm oracle problem_evaluation_prompt
      (problem_user_prompt problem) (3 / 10)
    pure (evaluate_problem_response inp.request_id response)

/-- `ProblemSolutionTutorAgent._evaluate_solution`. -/
def evaluate_solution (oracle : OracleFn) (inp : ProblemSolutionTutorInput) :
    Except PyErr ProblemSolutionTutorOutput :=
  match inp.solution_design with
  | none => .error (.valueError "Solution design is required for solution evaluation")
  | some solution => do
    let response ← call_llm oracle solution_evaluation_prompt
      (solution_user_prompt solution inp.problem_context) (3 / 10)
    pure (evaluate_solution_response inp.request_id response)

/-- The `try` body of `ProblemSolutionTutorAgent.process`. -/
def tutorProcessBody (oracle : OracleFn) (inp : ProblemSolutionTutorInput) :
    Except PyErr ProblemSolutionTutorOutput :=
  if inp.mode = "problem" then evaluate_problem oracle inp
  else if inp.mode = "solution" then evaluate_solution oracle inp
  else .error (.valueError ("Invalid mode: " ++ inp.mode))

/-- `ProblemSolutionTutorAgent.process`: any exception is converted into a
`success=False` output (whose required fields are all supplied, so the
construction succeeds). -/
def tutorProcess (oracle : OracleFn) (inp : ProblemSolutionTutorInput) :
    ProblemSolutionTutorOutput :=
  match tutorProcessBody oracle inp with
  | .ok out => out
  | .error e =>
    { request_id := inp.request_id
      success := false
      mode := inp.mode
      evaluation_passed := false
      overall_feedback := "Evaluation failed: " ++ e.str
      next_steps := "Please try again." }

/-! ### Claim C5 -/

/-- `tutorPassed` holds iff the mean is ≥ 7 and every criterion is ≥ 6. -/
theorem tutorPassed_iff (s : List (String × ℚ)) :
    tutorPassed s = true ↔
      (7 ≤ scoresSum s / (s.length : ℚ) ∧ ∀ p ∈ s, 6 ≤ p.2) := by
  simp [tutorPassed, GE.ge]

/-- C5: in both evaluation modes, `evaluation_passed` is true iff every
criterion score is ≥ 6 and the mean of the scores is ≥ 7; the
example-improvements field is `None` whenever the evaluation passed; the
problem scores `{market_relevance: 8, clarity: 8, feasibility: 8}` pass and
`{market_relevance: 5, clarity: 8, feasibility: 8}` do not. -/
theorem c5_evaluator_pass_rule :
    (∀ rid response : String,
      ((evaluate_problem_response rid response).evaluation_passed = true ↔
        ((∀ p ∈ (evaluate_problem_response rid response).scores, 6 ≤ p.2) ∧
          7 ≤ scoresSum (evaluate_problem_response rid response).scores /
            (((evaluate_problem_response rid response).scores.length : ℚ)))) ∧
      ((evaluate_problem_response rid response).evaluation_passed = true →
        (evaluate_problem_response rid response).example_improvements = none)) ∧
    (∀ rid response : String,
      ((evaluate_solution_response rid response).evaluation_passed = true ↔
        ((∀ p ∈ (evaluate_solution_response rid response).scores, 6 ≤ p.2) ∧
          7 ≤ scoresSum (evaluate_solution_response rid response).scores /
            (((evaluate_solution_response rid response).scores.length : ℚ)))) ∧
      ((evaluate_solution_response rid response).evaluation_passed = true →
        (evaluate_solution_response rid response).example_improvements = none)) ∧
    ((evaluate_problem_response "req"
        "Market Relevance: 8\nClarity: 8\nFeasibility: 8").scores =
      [("market_relevance", 8), ("clarity", 8), ("feasibility", 8)] ∧
     (evaluate_problem_response "req"
        "Market Relevance: 8\nClarity: 8\nFeasibility: 8").evaluation_passed = true) ∧
    ((evaluate_problem_response "req"
        "Market Relevance: 5\nClarity: 8\nFeasibility: 8").scores =
      [("market_relevance", 5), ("clarity", 8), ("feasibility", 8)] ∧
     (evaluate_problem_response "req"
        "Market Relevance: 5\nClarity: 8\nFeasibility: 8").evaluation_passed = false) := by
  have h888 : parse_scores "Market Relevance: 8\nClarity: 8\nFeasibility: 8" "problem" =
      [("market_relevance", 8), ("clarity", 8), ("feasibility", 8)] := by decide
  have h588 : parse_scores "Market Relevance: 5\nClarity: 8\nFeasibility: 8" "problem" =
      [("market_relevance", 5), ("clarity", 8), ("feasibility", 8)] := by decide
  refine ⟨?_, ?_, ⟨h888, ?_⟩, ⟨h588, ?_⟩⟩
  · intro rid response
    constructor
    · have := tutorPassed_iff (parse_scores response "problem")
      simpa [evaluate_problem_response, and_comm] using this
    · intro h
      simp only [evaluate_problem_response] at h ⊢
      simp [h]
  · intro rid response
    constructor
    · have := tutorPassed_iff (parse_scores response "solution")
      simpa [evaluate_solution_response, and_comm] using this
    · intro h
      simp only [evaluate_solution_response] at h ⊢
      simp [h]
  · show tutorPassed (parse_scores _ "problem") = true
    rw [h888]
    refine (tutorPassed_iff _).mpr ⟨by norm_num [scoresSum], ?_⟩
    intro p hp
    simp only [List.mem_cons, List.not_mem_nil, or_false] at hp
    rcases hp with h | h | h <;> (rw [h]; norm_num)
  · show tutorPassed (parse_scores _ "problem") = false
    rw [h588]
    by_contra hne
    have htrue : tutorPassed ([("market_relevance", 5), ("clarity", 8), ("feasibility", 8)] :
        List (String × ℚ)) = true := by
      cases h : tutorPassed ([("market_relevance", 5), ("clarity", 8), ("feasibility", 8)] :
          List (String × ℚ))
      · rw [h] at hne; exact absurd rfl hne
      · rfl
    have := ((tutorPassed_iff _).mp htrue).2 ("market_relevance", (5 : ℚ)) (by simp)
    norm_num at this

/-- Witness for C5: at the passing concrete scores the
example-improvements field is omitted. -/
theorem c5_evaluator_pass_rule_witness :
    (evaluate_problem_response "req"
      "Market Relevance: 8\nClarity: 8\nFeasibility: 8").example_improvements = none :=
  (c5_evaluator_pass_rule.1 "req"
      "Market Relevance: 8\nClarity: 8\nFeasibility: 8").2
    c5_evaluator_pass_rule.2.2.1.2

/-! ## Execution Coach (src/backend/agents/execution_coach.py) -/

/-- `MilestoneStatus` (src/backend/schemas/execution.py). -/
inductive MilestoneStatus where
  | not_started
  | in_progress
  | completed
  | blocked
  | skipped
deriving DecidableEq, Repr

/-- `Milestone` (src/backend/schemas/execution.py); `target_date` is a day
number (`date.today() + timedelta(days=k)` becomes `today + k`); the
`created_at`/`updated_at` audit stamps (`default_factory=datetime.utcnow`,
drawn fresh at every construction) are modelled with the same run clock,
coarsening the per-call instants to the run's clock value — enough to make
them run-dependent, which is all the claims observe;
`started_at`/`completed_at`, `depends_on` and metadata omitted (never
touched by the embedded code paths). -/
structure Milestone where
  milestone_id : String
  project_id : String
  user_id : String
  title : String
  description : String
  deliverable : String
  order : Nat
  status : MilestoneStatus := .not_started
  estimated_days : ℚ
  target_date : Option Int := none
  next_action : Option String := none
  created_at : Int := 0
  updated_at : Int := 0
deriving DecidableEq, Repr

/-- `ExecutionCoachInput` (src/backend/schemas/agent_io.py). -/
structure ExecutionCoachInput where
  user_id : String
  request_id : String
  project_id : String
  action : String
  problem_definition : Option ProblemDefinition := none
  solution_design : Option SolutionDesign := none
  current_milestone_id : Option String := none
  progress_update : Option String := none
  blockers : List String := []
  completed_milestones : List String := []
  all_milestones : List Milestone := []
deriving DecidableEq, Repr

/-- `ExecutionCoachOutput` (src/backend/schemas/agent_io.py). -/
structure ExecutionCoachOutput where
  request_id : String
  success : Bool
  message : Option String := none
  action : String
  milestones : List Milestone := []
  total_estimated_days : Option ℚ := none
  progress_acknowledged : Bool := false
  milestone_status_update : Option MilestoneStatus := none
  stagnation_detected : Bool := false
  stagnation_reason : Option String := none
  next_action : String
  feedback : String
  tips : List String := []
deriving DecidableEq, Repr

/-- `uuid.uuid4().hex[:8]` prefixed ids, modelled as a fresh-name supply:
the `n`-th draw yields `"<prefix><n>"`; distinct draws are distinct. -/
def freshId (prefix_ : String) (ctr : Nat) : String :=
  prefix_ ++ toString ctr

/-- Loop state of the `_parse_milestones` line scan. -/
structure MsAcc where
  milestones : List Milestone
  current : Option Milestone
  order : Nat
  ctr : Nat
deriving DecidableEq, Repr

/-- One iteration of the `_parse_milestones` loop. -/
def parse_milestones_line (inp : ExecutionCoachInput) (today : Int)
    (acc : MsAcc) (line : String) : MsAcc :=
  let ls := pyStrip line
  if pyStartsWith ls "### Milestone" then
    let order := acc.order + 1
    let title :=
      if pyContains ":" ls then pyStrip (pySplit1 ls ":").2
      else "Milestone " ++ toString order
    { milestones := acc.milestones ++
        (match acc.current with | some m => [m] | none => [])
      current := some
        { milestone_id := freshId "ms_" acc.ctr
          project_id := inp.project_id
          user_id := inp.user_id
          title := title
          description := ""
          deliverable := ""
          order := order
          estimated_days := 3
          target_date := some (today + (order : Int) * 3)
          created_at := today
          updated_at := today }
      order := order
      ctr := acc.ctr + 1 }
  else
    match acc.current with
    | none => acc
    | some m =>
      if pyStartsWith ls "Description:" then
        { acc with current := some { m with description := pyStrip (pySplit1 ls ":").2 } }
      else if pyStartsWith ls "Deliverable:" then
        { acc with current := some { m with deliverable := pyStrip (pySplit1 ls ":").2 } }
      else if pyStartsWith ls "Estimated Days:" then
        match pyFloat? (filterDigitsDots (pyStrip (pySplit1 ls ":").2)) with
        | none => acc
        | some days =>
          { acc with current := some { m with estimated_days := pyMax 1 (pyMin 7 days) } }
      else if pyStartsWith ls "Next Action:" then
        { acc with current := some { m with next_action := some (pyStrip (pySplit1 ls ":").2) } }
      else acc

/-- The synthesized filler milestones of the `while len(milestones) < 3`
padding loop: `n` fillers starting after `order` with supply `ctr`, stamped
with the run clock `today`. -/
def msFillers (inp : ExecutionCoachInput) (today : Int) : Nat → Nat → Nat → List Milestone
  | 0, _, _ => []
  | n + 1, order, ctr =>
    { milestone_id := freshId "ms_" ctr
      project_id := inp.project_id
      user_id := inp.user_id
      title := "Milestone " ++ toString (order + 1)
      description := "Project work"
      deliverable := "Progress deliverable"
      order := order + 1
      estimated_days := 3
      next_action := some "Continue project work"
      created_at := today
      updated_at := today } ::
        msFillers inp today n (order + 1) (ctr + 1)

/-- `ExecutionCoachAgent._parse_milestones`: scan the lines, flush the last
open milestone, pad to three.  Returns the list and the advanced fresh-name
supply. -/
def parse_milestones (response : String) (inp : ExecutionCoachInput)
    (today : Int) (ctr : Nat) : List Milestone × Nat :=
  let acc := (pyLines response).foldl (parse_milestones_line inp today)
    ⟨[], none, 0, ctr⟩
  let ms := acc.milestones ++ (match acc.current with | some m => [m] | none => [])
  if ms.length < 3 then
    (ms ++ msFillers inp today (3 - ms.length) acc.order acc.ctr,
     acc.ctr + (3 - ms.length))
  else (ms, acc.ctr)

/-- `ExecutionCoachAgent._parse_status_update`. -/
def parse_status_update (response : String) (current_milestone : Milestone) :
    MilestoneStatus :=
  let response_upper := pyUpper response
  if pyContains "COMPLETED" response_upper then .completed
  else if pyContains "BLOCKED" response_upper then .blocked
  else if pyContains "IN_PROGRESS" response_upper || pyContains "IN PROGRESS" response_upper then
    .in_progress
  else current_milestone.status

/-- `ExecutionCoachAgent._extract_next_action`: the line after the first
`"## Next Action"` line that has a successor; empty (after strip) falls back
to the default. -/
def extract_next_action_scan : List String → String
  | line1 :: line2 :: rest =>
    if pyContains "## Next Action" line1 then
      let v := pyStrip line2
      if v = "" then "Continue with your current milestone." else v
    else extract_next_action_scan (line2 :: rest)
  | _ => "Continue with your current milestone."

def extract_next_action (response : String) : String :=
  extract_next_action_scan (pyLines response)

/-- Collector of `_extract_feedback` (three alternative section markers,
lines stripped). -/
def coachFeedbackLines : Bool → List String → List String
  | _, [] => []
  | inSec, line :: rest =>
    if pyContains "## Feedback" line || pyContains "## Acknowledgment" line
        || pyContains "## Motivation" line then
      coachFeedbackLines true rest
    else if inSec && pyStartsWith (pyStrip line) "##" then []
    else if inSec && !(pyStrip line == "") then
      pyStrip line :: coachFeedbackLines true rest
    else coachFeedbackLines inSec rest

/-- `ExecutionCoachAgent._extract_feedback`. -/
def extract_feedback (response : String) : String :=
  let ls := coachFeedbackLines false (pyLines response)
  if ls.isEmpty then "Great work! Keep going." else pyJoin " " ls

/-- Collector of `_extract_tips` (bullet lines only, `[2:]` unstripped). -/
def coachTipsLines : Bool → List String → List String
  | _, [] => []
  | inTips, line :: rest =>
    if pyContains "## Tips" line then coachTipsLines true rest
    else if inTips && pyStartsWith (pyStrip line) "##" then []
    else if inTips then
      let ls := pyStrip line
      if pyStartsWith ls "- " || pyStartsWith ls "* " then
        pyDrop ls 2 :: coachTipsLines true rest
      else coachTipsLines true rest
    else coachTipsLines inTips rest

/-- `ExecutionCoachAgent._extract_tips`. -/
def extract_tips (response : String) : List String :=
  let tips := coachTipsLines false (pyLines response)
  if tips.isEmpty then ["Take it one step at a time", "Set aside focused time daily"]
  else tips

/-- `ExecutionCoachAgent._extract_stagnation_reason`. -/
def extract_stagnation_reason_scan : List String → String
  | line1 :: line2 :: rest =>
    if pyContains "## Stagnation Reason" line1 then pyStrip line2
    else extract_stagnation_reason_scan (line2 :: rest)
  | _ => "Progress appears to have slowed."

def extract_stagnation_reason (response : String) : String :=
  extract_stagnation_reason_scan (pyLines response)

/-- System prompts (prose elided, see `problem_evaluation_prompt`). -/
def plan_creation_prompt : String :=
  "You are an expert execution coach helping users break down projects into achievable milestones."

def progress_evaluation_prompt : String :=
  "You are an execution coach evaluating user progress on a milestone."

/-- The user prompt of `_create_execution_plan` (field serialization). -/
def plan_user_prompt (problem : ProblemDefinition) (solution : SolutionDesign) : String :=
  "Create an execution plan for this project:\n\nPROBLEM:\n" ++ problem.problem_statement
    ++ "\n\nTarget Audience: " ++ problem.target_audience
    ++ "\n\nSUCCESS METRICS:\n"
    ++ String.intercalate "\n" (problem.success_metrics.map (fun m => "- " ++ m))
    ++ "\n\nSOLUTION APPROACH:\n" ++ solution.solution_approach
    ++ "\n\nKEY COMPONENTS:\n"
    ++ String.intercalate "\n" (solution.key_components.map (fun c => "- " ++ c))
    ++ "\n\nMETHODOLOGY:\n" ++ solution.methodology
    ++ "\n\nEXPECTED OUTCOMES:\n"
    ++ String.intercalate "\n" (solution.expected_outcomes.map (fun o => "- " ++ o))
    ++ "\n\nCreate a detailed execution plan with milestones following the specified format."

/-- The user prompt of `_update_progress`. -/
def progress_user_prompt (m : Milestone) (inp : ExecutionCoachInput) : String :=
  "Evaluate this progress update:\n\nCURRENT MILESTONE:\n" ++ m.title
    ++ "\n\nDescription: " ++ m.description
    ++ "\nExpected Deliverable: " ++ m.deliverable
    ++ "\n\nUSER'S PROGRESS UPDATE:\n"
    ++ (match inp.progress_update with | some u => u | none => "None")
    ++ "\n\nBLOCKERS:\n"
    ++ (if inp.blockers.isEmpty then "None reported"
        else String.intercalate "\n" (inp.blockers.map (fun b => "- " ++ b)))
    ++ "\n\nMILESTONE STATUS:\nStarted: Not started\nEstimated days: "
    ++ toString m.estimated_days.num
    ++ "\n\nEvaluate the progress and provide guidance following the specified format."

/-- `ExecutionCoachAgent._create_execution_plan`.  After a successful parse
the output is constructed; its required field `next_action` receives
`milestones[0].next_action`, which is `None` when the first parsed milestone
block had no `Next Action:` line — pydantic then raises a
`ValidationError` inside the `try`. -/
def create_execution_plan (oracle : OracleFn) (inp : ExecutionCoachInput)
    (today : Int) (ctr : Nat) : Except PyErr ExecutionCoachOutput × Nat :=
  match inp.problem_definition, inp.solution_design with
  | some problem, some solution =>
    (match call_llm oracle plan_creation_prompt (plan_user_prompt problem solution) (5 / 10) with
     | .error e => (.error e, ctr)
     | .ok response =>
       let parsed := parse_milestones response inp today ctr
       let milestones := parsed.1
       let total_days := (milestones.map Milestone.estimated_days).sum
       let next_action? :=
         match milestones.head? with
         | some first => first.next_action
         | none => some "Begin working on your first milestone."
       match next_action? with
       | none => (.error (.validationError "ExecutionCoachOutput.next_action"), parsed.2)
       | some next_action =>
         (.ok { request_id := inp.request_id
                success := true
                action := "create_plan"
                milestones := milestones
                total_estimated_days := some total_days
                next_action := next_action
                feedback := extract_feedback response
                tips := extract_tips response },
          parsed.2))
  | _, _ =>
    (.error (.valueError "Problem and solution are required for plan creation"), ctr)

/-- `ExecutionCoachAgent._update_progress`. -/
def update_progress (oracle : OracleFn) (inp : ExecutionCoachInput) :
    Except PyErr ExecutionCoachOutput :=
  match inp.current_milestone_id with
  | none => .error (.valueError "Milestone ID is required for progress update")
  | some mid =>
    match inp.all_milestones.find? (fun m => m.milestone_id = mid) with
    | none => .error (.valueError ("Milestone " ++ mid ++ " not found"))
    | some current_milestone => do
      let response ← call_llm oracle progress_evaluation_prompt
        (progress_user_prompt current_milestone inp) (5 / 10)
      let stagnation_detected := pyContains "STAGNATION DETECTED: YES" (pyUpper response)
      pure { request_id := inp.request_id
             success := true
             action := "update_progress"
             progress_acknowledged := true
             milestone_status_update := some (parse_status_update response current_milestone)
             stagnation_detected := stagnation_detected
             stagnation_reason :=
               if stagnation_detected then some (extract_stagnation_reason response) else none
             next_action := extract_next_action response
             feedback := extract_feedback response
             tips := extract_tips response }

/-- `ExecutionCoachAgent._get_next_action` (pure lookup, no oracle call). -/
def get_next_action (inp : ExecutionCoachInput) : ExecutionCoachOutput :=
  let byId : Option Milestone :=
    match inp.current_milestone_id with
    | some mid => inp.all_milestones.find? (fun m => m.milestone_id = mid)
    | none => none
  let current_milestone : Option Milestone :=
    match byId with
    | some m => some m
    | none => inp.all_milestones.find? (fun m => m.status = .not_started)
  let next_action :=
    match current_milestone with
    | none => "All milestones completed! Ready for review."
    | some m =>
      match m.next_action with
      | some a => if a = "" then "Start working on: " ++ m.title else a
      | none => "Start working on: " ++ m.title
  { request_id := inp.request_id
    success := true
    action := "get_next_action"
    next_action := next_action
    feedback := "Focus on your current milestone: " ++
      (match current_milestone with | some m => m.title | none => "None")
    tips := ["Break down the task into smaller steps",
             "Set a specific time to work on this today"] }

/-- The `try` body of `ExecutionCoachAgent.process`. -/
def coachProcessBody (oracle : OracleFn) (inp : ExecutionCoachInput)
    (today : Int) (ctr : Nat) : Except PyErr ExecutionCoachOutput × Nat :=
  if inp.action = "create_plan" then create_execution_plan oracle inp today ctr
  else if inp.action = "update_progress" then (update_progress oracle inp, ctr)
  else if inp.action = "get_next_action" then (.ok (get_next_action inp), ctr)
  else (.error (.valueError ("Invalid action: " ++ inp.action)), ctr)

/-- `ExecutionCoachAgent.process`: every exception of the body is converted
into a `success=False` output whose required fields are all supplied. -/
def coachProcess (oracle : OracleFn) (inp : ExecutionCoachInput)
    (today : Int) (ctr : Nat) : ExecutionCoachOutput × Nat :=
  match coachProcessBody oracle inp today ctr with
  | (.ok out, ctr') => (out, ctr')
  | (.error e, ctr') =>
    ({ request_id := inp.request_id
       success := false
       action := inp.action
       next_action := "Please try your request again."
       feedback := "An error occurred: " ++ e.str }, ctr')

/-! ## Project schema

Modelled from the spec: `src/backend/schemas/project.py` is imported by the
orchestrator and agents (`Project`, `ProjectProposal`, `ProjectType`,
`DeliverableType`) but is not present under `src/`; the fields below are the
ones the spec describes (a proposal has deliverables with evaluation
criteria, skills, recruiter appeal, a 2–3 week duration) and the ones read
or written by `ProjectGeneratorAgent._parse_response` and the
orchestrator. -/

inductive ProjectType where
  | research
  | product
  | campaign
  | startup
deriving DecidableEq, Repr

structure DeliverableType where
  name : String
  description : String
  format : String
  evaluation_criteria : List String
deriving DecidableEq, Repr

structure ProjectProposal where
  title : String
  project_type : ProjectType
  description : String
  why_relevant : String
  deliverables : List DeliverableType
  estimated_duration_weeks : ℚ
  skills_demonstrated : List String
  recruiter_appeal : String
  evaluation_criteria : List String
deriving DecidableEq, Repr

/-- `Project` record persisted by the orchestrator. -/
structure Project where
  project_id : String
  user_id : String
  proposal : ProjectProposal
  status : String
deriving DecidableEq, Repr

/-! ## Project Generator (src/backend/agents/project_generator.py) -/

/-- `ProjectGeneratorInput` (src/backend/schemas/agent_io.py). -/
structure ProjectGeneratorInput where
  user_id : String
  request_id : String
  target_role : String
  target_domain : String
  background : Option String := none
  interests : Option String := none
  previous_proposals : List String := []
deriving DecidableEq, Repr

/-- `ProjectGeneratorOutput` (src/backend/schemas/agent_io.py).  NOTE:
`reasoning` is declared `Field(...)`, i.e. REQUIRED, with no default. -/
structure ProjectGeneratorOutput where
  request_id : String
  success : Bool
  message : Option String := none
  proposal : Option ProjectProposal := none
  reasoning : String
  alternative_options : List String := []
deriving DecidableEq, Repr

/-- `ProjectGeneratorAgent._extract_section`: collect the raw lines between
the header line and the next `##` line. -/
def pgSectionLines (header : String) : Bool → List String → List String
  | _, [] => []
  | inSec, line :: rest =>
    if pyStartsWith (pyStrip line) header then pgSectionLines header true rest
    else if inSec && pyStartsWith (pyStrip line) "##" then []
    else if inSec then line :: pgSectionLines header true rest
    else pgSectionLines header inSec rest

def extract_section (lines : List String) (header : String) : String :=
  pyStrip (pyJoin "\n" (pgSectionLines header false lines))

/-- `ProjectGeneratorAgent._parse_list`. -/
def pgParseList : List String → List String
  | [] => []
  | line :: rest =>
    let l := pyStrip line
    if l == "" then pgParseList rest
    else if pyStartsWith l "- " || pyStartsWith l "* " then
      pyStrip (pyDrop l 2) :: pgParseList rest
    else if (l.data.headD ' ').isDigit && pyContains "." l then
      pyStrip (pySplit1 l ".").2 :: pgParseList rest
    else l :: pgParseList rest

def parse_list (text : String) : List String :=
  pgParseList (pyLines text)

/-- `ProjectGeneratorAgent._parse_deliverables`.  (The Python object
aliasing after a numbered line without a colon — which can append the same
deliverable object twice and later mutate it in place — is not reproduced;
no claim depends on this function's output.) -/
def delivLoop (dones : List DeliverableType) (cur : Option DeliverableType) :
    List String → List DeliverableType
  | [] => dones ++ (match cur with | some d => [d] | none => [])
  | line :: rest =>
    let l := pyStrip line
    if l == "" then delivLoop dones cur rest
    else if (l.data.headD ' ').isDigit && pyContains "." l then
      let dones1 := dones ++ (match cur with | some d => [d] | none => [])
      if pyContains ":" l then
        let parts := pySplit1 l ":"
        let name := pyStrip (pySplit1 parts.1 ".").2
        let description := pyStrip parts.2
        let format :=
          if pyContains "Format:" description then
            pyStrip (pySplit1 (pySplit1 description "Format:").2 "Evaluation").1
          else "Document"
        delivLoop dones1 (some ⟨name, description, format, []⟩) rest
      else delivLoop dones1 none rest
    else
      match cur with
      | some d =>
        if pyContains "Evaluation criteria:" line then
          let criteria_text := pyStrip (pySplit1 line "Evaluation criteria:").2
          delivLoop dones
            (some { d with evaluation_criteria := (pySplitChar ',' criteria_text).map pyStrip })
            rest
        else delivLoop dones cur rest
      | none => delivLoop dones none rest

def parse_deliverables (text : String) : List DeliverableType :=
  let ds := delivLoop [] none (pyLines text)
  if ds.isEmpty then
    [⟨"Final Report", "Comprehensive project documentation", "PDF document",
      ["Clarity", "Depth", "Professionalism"]⟩]
  else ds

/-- `ProjectGeneratorAgent._parse_response`. -/
def pg_parse_response (response : String) : ProjectProposal :=
  let lines := pyLines response
  let title := extract_section lines "## Title"
  let project_type_str := pyUpper (pyStrip (extract_section lines "## Type"))
  let description := extract_section lines "## Description"
  let why_relevant := extract_section lines "## Why Relevant"
  let deliverables_text := extract_section lines "## Deliverables"
  let skills_text := extract_section lines "## Skills Demonstrated"
  let recruiter_appeal := extract_section lines "## Recruiter Appeal"
  let criteria_text := extract_section lines "## Evaluation Criteria"
  let duration_text := extract_section lines "## Estimated Duration"
  let project_type :=
    if pyContains "RESEARCH" project_type_str then ProjectType.research
    else if pyContains "CAMPAIGN" project_type_str then ProjectType.campaign
    else if pyContains "STARTUP" project_type_str then ProjectType.startup
    else ProjectType.product
  let duration :=
    match pyFloat? (filterDigitsDots duration_text) with
    | some v => pyMax 2 (pyMin 3 v)
    | none => mkRat 5 2
  { title := pyStrip title
    project_type := project_type
    description := pyStrip description
    why_relevant := pyStrip why_relevant
    deliverables := parse_deliverables deliverables_text
    estimated_duration_weeks := duration
    skills_demonstrated := parse_list skills_text
    recruiter_appeal := pyStrip recruiter_appeal
    evaluation_criteria := parse_list criteria_text }

/-- `ProjectGeneratorAgent._extract_reasoning`. -/
def extract_reasoning (response : String) : String :=
  extract_section (pyLines response) "## Reasoning"

/-- `ProjectGeneratorAgent._extract_alternatives`. -/
def extract_alternatives (response : String) : List String :=
  parse_list (extract_section (pyLines response) "## Alternative Options Considered")

/-- System and user prompt of the project generator (prose elided; the
oracle is opaque and no claim depends on prompt text). -/
def pg_system_prompt : String :=
  "You are an expert career coach and project designer specializing in helping job seekers build impressive portfolio projects."

def pg_user_prompt (inp : ProjectGeneratorInput) (domain_context : String) : String :=
  "Generate a project proposal for a job seeker with the following profile:\n\nTarget Role: "
    ++ inp.target_role ++ "\nTarget Domain: " ++ inp.target_domain ++ "\n"
    ++ (match inp.background with | some b => "Background: " ++ b ++ "\n" | none => "")
    ++ (match inp.interests with | some i => "Interests: " ++ i ++ "\n" | none => "")
    ++ domain_context
    ++ "\nGenerate a comprehensive project proposal following the specified format."

/-- The retrieval collaborator: `(domain, query) ↦ context text`; absent
retrieval degrades to the empty context (`BaseAgent.get_domain_context`). -/
abbrev RagFn := Option (String → String → String)

def get_domain_context (rag : RagFn) (domain query : String) : String :=
  match rag with
  | none => ""
  | some retrieve => retrieve domain query

/-- The `try` body of `ProjectGeneratorAgent.process`. -/
def projectGeneratorBody (oracle : OracleFn) (rag : RagFn)
    (inp : ProjectGeneratorInput) : Except PyErr ProjectGeneratorOutput := do
  let domain_context := get_domain_context rag inp.target_domain
    ("project ideas and best practices for " ++ inp.target_role ++ " in " ++ inp.target_domain)
  let response ← call_llm oracle pg_system_prompt
    (pg_user_prompt inp domain_context) (8 / 10)
  let proposal := pg_parse_response response
  pure { request_id := inp.request_id
         success := true
         proposal := some proposal
         reasoning := extract_reasoning response
         alternative_options := extract_alternatives response }

/-- `ProjectGeneratorAgent.process`.  The `except` branch constructs
`ProjectGeneratorOutput(request_id=…, success=False, message=…)` WITHOUT the
required `reasoning` field, so pydantic raises a `ValidationError` inside
the handler, and that exception propagates to the caller. -/
def projectGeneratorProcess (oracle : OracleFn) (rag : RagFn)
    (inp : ProjectGeneratorInput) : Except PyErr ProjectGeneratorOutput :=
  match projectGeneratorBody oracle rag inp with
  | .ok out => .ok out
  | .error _ => .error (.validationError "ProjectGeneratorOutput.reasoning")

/-! ## Reviewer (src/backend/agents/reviewer.py) -/

/-- `ArtifactSubmission` (src/backend/schemas/agent_io.py /
src/backend/schemas/review.py). -/
structure ArtifactSubmission where
  artifact_type : String
  artifact_url : Option String := none
  artifact_description : String
  file_name : Option String := none
deriving DecidableEq, Repr

/-- `ArtifactReview` (src/backend/schemas/review.py); dicts are modelled as
insertion-ordered association lists; the `created_at` stamp
(`default_factory=datetime.utcnow`, drawn fresh at every construction) is
modelled with the run clock; metadata omitted. -/
structure ArtifactReview where
  review_id : String
  project_id : String
  user_id : String
  submitted_artifacts : List ArtifactSubmission
  overall_score : ℚ
  overall_feedback : String
  criterion_scores : List (String × ℚ)
  criterion_feedback : List (String × String)
  strengths : List String
  areas_for_improvement : List String
  recruiter_appeal_assessment : String
  skills_demonstrated : List String
  created_at : Int := 0
deriving DecidableEq, Repr

/-- `ResumeBullet` (src/backend/schemas/review.py). -/
structure ResumeBullet where
  bullet_text : String
  skills_highlighted : List String
  evidence_source : String
  bullet_type : String
deriving DecidableEq, Repr

/-- `ReviewerInput` (src/backend/schemas/agent_io.py). -/
structure ReviewerInput where
  user_id : String
  request_id : String
  project_id : String
  action : String
  submitted_artifacts : List ArtifactSubmission := []
  project_proposal : Option ProjectProposal := none
  problem_definition : Option ProblemDefinition := none
  solution_design : Option SolutionDesign := none
  completed_milestones : List Milestone := []
  artifact_review : Option ArtifactReview := none
deriving DecidableEq, Repr

/-- `ReviewerOutput` (src/backend/schemas/agent_io.py). -/
structure ReviewerOutput where
  request_id : String
  success : Bool
  message : Option String := none
  action : String
  review : Option ArtifactReview := none
  resume_bullets : List ResumeBullet := []
  project_title : Option String := none
  project_one_liner : Option String := none
  project_description : Option String := none
  suggested_skills : List String := []
  interview_talking_points : List String := []
  next_steps : String
deriving DecidableEq, Repr

/-- Generic dict insertion (same semantics as `pyDictInsert`, any value
type). -/
def pyDictInsertStr (d : List (String × String)) (k : String) (v : String) :
    List (String × String) :=
  if d.any (fun p => p.1 = k) then
    d.map (fun p => if p.1 = k then (k, v) else p)
  else d ++ [(k, v)]

/-- First index of an equal element (Python `list.index`). -/
def listIndexOf (x : String) : List String → Nat
  | [] => 0
  | y :: t => if y = x then 0 else listIndexOf x t + 1

/-- `ReviewerAgent._extract_overall_score`: at the first line containing the
marker (located again via `lines.index(line)`, i.e. by first equal text)
with a successor line, try to parse that successor; on parse failure or a
missing successor the scan continues; default 7.0. -/
def extract_overall_score_scan (lines : List String) : List String → ℚ
  | [] => 7
  | line :: rest =>
    if pyContains "## Overall Score" line then
      let idx := listIndexOf line lines
      if idx + 1 < lines.length then
        match pyFloat? (filterDigitsDots (pyStrip (lines.getD (idx + 1) ""))) with
        | some v => clamp010 v
        | none => extract_overall_score_scan lines rest
      else extract_overall_score_scan lines rest
    else extract_overall_score_scan lines rest

def extract_overall_score (response : String) : ℚ :=
  extract_overall_score_scan (pyLines response) (pyLines response)

/-- Stripped-line section collector shared by the reviewer's prose
extractors. -/
def rvSectionLines (marker : String) : Bool → List String → List String
  | _, [] => []
  | inSec, line :: rest =>
    if pyContains marker line then rvSectionLines marker true rest
    else if inSec && pyStartsWith (pyStrip line) "##" then []
    else if inSec && !(pyStrip line == "") then
      pyStrip line :: rvSectionLines marker true rest
    else rvSectionLines marker inSec rest

/-- `ReviewerAgent._extract_overall_feedback`. -/
def extract_overall_feedback (response : String) : String :=
  let ls := rvSectionLines "## Overall Assessment" false (pyLines response)
  if ls.isEmpty then "Artifacts reviewed." else pyJoin " " ls

/-- `ReviewerAgent._extract_criterion_scores`. -/
def criterionScoresLoop (inSec : Bool) (scores : List (String × ℚ)) :
    List String → List (String × ℚ)
  | [] => scores
  | line :: rest =>
    if pyContains "## Criterion Scores" line then criterionScoresLoop true scores rest
    else if inSec && pyStartsWith (pyStrip line) "##" then scores
    else if inSec && pyContains ":" line then
      let parts := pySplit1 line ":"
      let criterion := pyStrip (pyStripChars "- " parts.1)
      match pyFloat? (filterDigitsDots parts.2) with
      | some v => criterionScoresLoop true (pyDictInsert scores criterion (clamp010 v)) rest
      | none => criterionScoresLoop true scores rest
    else criterionScoresLoop inSec scores rest

def extract_criterion_scores (response : String) : List (String × ℚ) :=
  criterionScoresLoop false [] (pyLines response)

/-- `ReviewerAgent._extract_criterion_feedback`.  Note the faithful quirk:
the break condition fires on any `##`-starting stripped line that does not
contain the literal word `Criterion`, including the `###` criterion
headers of real criterion names. -/
def criterionFeedbackLoop (inSec : Bool) (cur : Option String)
    (curFb : List String) (fb : List (String × String)) :
    List String → List (String × String)
  | [] =>
    (match cur with
     | some c => pyDictInsertStr fb c (pyJoin " " curFb)
     | none => fb)
  | line :: rest =>
    if pyContains "## Criterion Feedback" line then
      criterionFeedbackLoop true cur curFb fb rest
    else if inSec && pyStartsWith (pyStrip line) "##" && !(pyContains "Criterion" line) then
      (match cur with
       | some c => pyDictInsertStr fb c (pyJoin " " curFb)
       | none => fb)
    else if inSec then
      if pyStartsWith (pyStrip line) "###" then
        let fb1 :=
          match cur with
          | some c => pyDictInsertStr fb c (pyJoin " " curFb)
          | none => fb
        criterionFeedbackLoop true (some (pyStrip (pyStripChars "#" line))) [] fb1 rest
      else if cur.isSome && !(pyStrip line == "") then
        criterionFeedbackLoop true cur (curFb ++ [pyStrip line]) fb rest
      else criterionFeedbackLoop true cur curFb fb rest
    else criterionFeedbackLoop inSec cur curFb fb rest

def extract_criterion_feedback (response : String) : List (String × String) :=
  criterionFeedbackLoop false none [] [] (pyLines response)

/-- Bullet/numbered list collector (`ReviewerAgent._extract_list_section`).
Bullet content is taken as `line[2:]` without a further strip. -/
def rvListSectionLines (header : String) : Bool → List String → List String
  | _, [] => []
  | inSec, line :: rest =>
    if pyContains header line then rvListSectionLines header true rest
    else if inSec && pyStartsWith (pyStrip line) "##" then []
    else if inSec then
      let ls := pyStrip line
      if pyStartsWith ls "- " || pyStartsWith ls "* " then
        pyDrop ls 2 :: rvListSectionLines header true rest
      else if !(ls == "") && (ls.data.headD ' ').isDigit && pyContains "." ls then
        pyStrip (pySplit1 ls ".").2 :: rvListSectionLines header true rest
      else rvListSectionLines header true rest
    else rvListSectionLines header inSec rest

def extract_strengths (response : String) : List String :=
  rvListSectionLines "## Strengths" false (pyLines response)

def extract_improvements (response : String) : List String :=
  rvListSectionLines "## Areas for Improvement" false (pyLines response)

/-- `ReviewerAgent._extract_recruiter_appeal`. -/
def extract_recruiter_appeal (response : String) : String :=
  let ls := rvSectionLines "## Recruiter Appeal" false (pyLines response)
  if ls.isEmpty then "Work demonstrates relevant skills." else pyJoin " " ls

def extract_skills_demonstrated (response : String) : List String :=
  rvListSectionLines "## Skills Demonstrated" false (pyLines response)

/-- `ReviewerAgent._extract_next_steps`. -/
def rv_extract_next_steps (response : String) : String :=
  let ls := rvSectionLines "## Next Steps" false (pyLines response)
  if ls.isEmpty then "Use this feedback to improve your work." else pyJoin " " ls

/-- `ReviewerAgent._parse_review`: all content fields are pure functions of
the response text; the `review_id` is a fresh `uuid4` draw and `created_at`
a fresh `datetime.utcnow()` stamp (coarsened to the run clock `today`). -/
def parse_review (response : String) (inp : ReviewerInput) (today : Int) (ctr : Nat) :
    ArtifactReview × Nat :=
  ({ review_id := freshId "rev_" ctr
     created_at := today
     project_id := inp.project_id
     user_id := inp.user_id
     submitted_artifacts := inp.submitted_artifacts
     overall_score := extract_overall_score response
     overall_feedback := extract_overall_feedback response
     criterion_scores := extract_criterion_scores response
     criterion_feedback := extract_criterion_feedback response
     strengths := extract_strengths response
     areas_for_improvement := extract_improvements response
     recruiter_appeal_assessment := extract_recruiter_appeal response
     skills_demonstrated := extract_skills_demonstrated response }, ctr + 1)

/-- Draft record of `_parse_resume_bullets`. -/
structure BulletDraft where
  text : String
  skills : List String
  evidence : String
  btype : String
deriving DecidableEq, Repr

/-- `ReviewerAgent._parse_resume_bullets` line loop: a `### Bullet` line
flushes the previous draft unconditionally; the final draft is kept only if
its text is nonempty. -/
def bulletsLoop (cur : Option BulletDraft) (acc : List BulletDraft) :
    List String → List BulletDraft
  | [] =>
    (match cur with
     | some b => if !(b.text == "") then acc ++ [b] else acc
     | none => acc)
  | line :: rest =>
    let ls := pyStrip line
    if pyStartsWith ls "### Bullet" then
      bulletsLoop (some ⟨"", [], "", "execution"⟩)
        (acc ++ (match cur with | some b => [b] | none => [])) rest
    else
      match cur with
      | none => bulletsLoop none acc rest
      | some b =>
        if pyStartsWith ls "Text:" then
          bulletsLoop (some { b with text := pyStrip (pySplit1 ls ":").2 }) acc rest
        else if pyStartsWith ls "Skills:" then
          bulletsLoop (some { b with skills :=
            (pySplitChar ',' (pyStrip (pySplit1 ls ":").2)).map pyStrip }) acc rest
        else if pyStartsWith ls "Evidence:" then
          bulletsLoop (some { b with evidence := pyStrip (pySplit1 ls ":").2 }) acc rest
        else if pyStartsWith ls "Type:" then
          bulletsLoop (some { b with btype := pyStrip (pySplit1 ls ":").2 }) acc rest
        else bulletsLoop cur acc rest

/-- The filler bullet of the `while len < 3` padding loop. -/
def fillerBullet : ResumeBullet :=
  { bullet_text := "Completed project deliverables"
    skills_highlighted := ["Project execution"]
    evidence_source := "Project completion"
    bullet_type := "execution" }

/-- `ReviewerAgent._parse_resume_bullets`: parse, pad to 3, truncate to 5. -/
def parse_resume_bullets (response : String) : List ResumeBullet :=
  let drafts := bulletsLoop none [] (pyLines response)
  let bullets := drafts.map (fun b =>
    ResumeBullet.mk b.text b.skills b.evidence b.btype)
  (bullets ++ List.replicate (3 - bullets.length) fillerBullet).take 5

/-- `ReviewerAgent._extract_project_title` (line after marker). -/
def project_title_scan : List String → String
  | line1 :: line2 :: rest =>
    if pyContains "## Project Title" line1 then pyStrip line2
    else project_title_scan (line2 :: rest)
  | _ => "Project Completed"

def extract_project_title (response : String) : String :=
  project_title_scan (pyLines response)

/-- `ReviewerAgent._extract_project_one_liner`. -/
def project_one_liner_scan : List String → String
  | line1 :: line2 :: rest =>
    if pyContains "## Project One-Liner" line1 then pyStrip line2
    else project_one_liner_scan (line2 :: rest)
  | _ => "Completed a project"

def extract_project_one_liner (response : String) : String :=
  project_one_liner_scan (pyLines response)

/-- `ReviewerAgent._extract_project_description`. -/
def extract_project_description (response : String) : String :=
  let ls := rvSectionLines "## Project Description" false (pyLines response)
  if ls.isEmpty then "Completed a project demonstrating relevant skills."
  else pyJoin " " ls

def extract_suggested_skills (response : String) : List String :=
  rvListSectionLines "## Skills Section" false (pyLines response)

def extract_talking_points (response : String) : List String :=
  rvListSectionLines "## Interview Talking Points" false (pyLines response)

/-- Reviewer prompts (prose elided; the oracle is opaque). -/
def review_system_prompt : String :=
  "You are an objective evaluator reviewing project artifacts."

def resume_system_prompt : String :=
  "You are a resume writer creating content grounded in actual completed work."

/-- `_build_review_user_prompt` / `_build_resume_user_prompt`
(serialization of the request fields, abbreviated to the leading artifact
and context text; no claim depends on prompt text). -/
def review_user_prompt (inp : ReviewerInput) : String :=
  "Review these submitted artifacts:\n\n## SUBMITTED ARTIFACTS\n\n"
    ++ String.intercalate "\n"
        (inp.submitted_artifacts.map (fun a => a.artifact_type ++ ": " ++ a.artifact_description))
    ++ "\n\nProvide a thorough, honest evaluation following the specified format."

def resume_user_prompt (inp : ReviewerInput) : String :=
  "Generate resume content based on this completed project:\n\n"
    ++ (match inp.problem_definition with | some p => p.problem_statement | none => "")
    ++ "\n\nGenerate resume content following the specified format. Only include claims supported by actual work."

/-- `ReviewerAgent._review_artifacts`. -/
def review_artifacts (oracle : OracleFn) (inp : ReviewerInput) (today : Int) (ctr : Nat) :
    Except PyErr ReviewerOutput × Nat :=
  if inp.submitted_artifacts.isEmpty then
    (.error (.valueError "No artifacts submitted for review"), ctr)
  else
    match call_llm oracle review_system_prompt (review_user_prompt inp) (3 / 10) with
    | .error e => (.error e, ctr)
    | .ok response =>
      let parsed := parse_review response inp today ctr
      (.ok { request_id := inp.request_id
             success := true
             action := "review_artifacts"
             review := some parsed.1
             next_steps := rv_extract_next_steps response }, parsed.2)

/-- `ReviewerAgent._generate_resume`. -/
def generate_resume (oracle : OracleFn) (inp : ReviewerInput) :
    Except PyErr ReviewerOutput :=
  match inp.artifact_review with
  | none => .error (.valueError "Artifact review is required for resume generation")
  | some _ => do
    let response ← call_llm oracle resume_system_prompt (resume_user_prompt inp) (5 / 10)
    pure { request_id := inp.request_id
           success := true
           action := "generate_resume"
           resume_bullets := parse_resume_bullets response
           project_title := some (extract_project_title response)
           project_one_liner := some (extract_project_one_liner response)
           project_description := some (extract_project_description response)
           suggested_skills := extract_suggested_skills response
           interview_talking_points := extract_talking_points response
           next_steps := rv_extract_next_steps response }

/-- The `try` body of `ReviewerAgent.process`. -/
def reviewerProcessBody (oracle : OracleFn) (inp : ReviewerInput) (today : Int) (ctr : Nat) :
    Except PyErr ReviewerOutput × Nat :=
  if inp.action = "review_artifacts" then review_artifacts oracle inp today ctr
  else if inp.action = "generate_resume" then (generate_resume oracle inp, ctr)
  else (.error (.valueError ("Invalid action: " ++ inp.action)), ctr)

/-- `ReviewerAgent.process`: exceptions become a `success=False` output
(required fields all supplied). -/
def reviewerProcess (oracle : OracleFn) (inp : ReviewerInput) (today : Int) (ctr : Nat) :
    ReviewerOutput × Nat :=
  match reviewerProcessBody oracle inp today ctr with
  | (.ok out, ctr') => (out, ctr')
  | (.error e, ctr') =>
    ({ request_id := inp.request_id
       success := false
       action := inp.action
       next_steps := "An error occurred: " ++ e.str }, ctr')

/-! ## Main Chat approval classifier (src/backend/agents/main_chat.py) -/

/-- The fixed positive keyword set of `MainChatAgent.parse_user_input`. -/
def positive_keywords : List String :=
  ["yes", "approve", "looks good", "proceed", "confirm"]

/-- The fixed negative keyword set. -/
def negative_keywords : List String :=
  ["no", "reject", "change", "different", "not"]

/-- The `approved` entry of the dict returned by
`MainChatAgent.parse_user_input(message, "approval")`: lowercase the
message, test the positive keywords by substring inclusion, then (only when
none matched) the negative ones; `none` is the `None`/unclear case.  (The
returned dict's other entries, `raw_message` and `type`, echo the
arguments.) -/
def parse_user_input_approval (user_message : String) : Option Bool :=
  let message_lower := pyLower user_message
  if positive_keywords.any (fun w => pyContains w message_lower) then some true
  else if negative_keywords.any (fun w => pyContains w message_lower) then some false
  else none

/-! ### Claim C10 -/

/-- C10: positive keywords take precedence — any message containing a
positive keyword (lowercased, substring inclusion) yields `approved=True`
regardless of negative keywords; negative keywords are only consulted when
no positive keyword occurs; and substring matching makes `"know"` match the
negative keyword `"no"`, yielding `approved=False`. -/
theorem c10_approval_positive_precedence :
    (∀ msg : String,
      positive_keywords.any (fun w => pyContains w (pyLower msg)) = true →
        parse_user_input_approval msg = some true) ∧
    (∀ msg : String,
      positive_keywords.any (fun w => pyContains w (pyLower msg)) = false →
        parse_user_input_approval msg =
          (if negative_keywords.any (fun w => pyContains w (pyLower msg)) then some false
           else none)) ∧
    parse_user_input_approval "know" = some false := by
  refine ⟨?_, ?_, by decide⟩
  · intro msg h
    simp [parse_user_input_approval, h]
  · intro msg h
    simp [parse_user_input_approval, h]

/-- Witness for C10: `"yes but no"` contains both a positive and a negative
keyword and is classified `approved=True`. -/
theorem c10_approval_positive_precedence_witness :
    parse_user_input_approval "yes but no" = some true :=
  c10_approval_positive_precedence.1 "yes but no" (by decide)

/-! ### Claim C4 -/

/-- A request whose oracle faults (the transport error case of §6). -/
def faultingOracle : OracleFn := fun _ _ _ => .error "connection error"

def pgFailInput : ProjectGeneratorInput :=
  { user_id := "u1", request_id := "req_1",
    target_role := "Product Manager", target_domain := "FinTech" }

def coachFailInput : ExecutionCoachInput :=
  { user_id := "u1", request_id := "req_2", project_id := "proj_1",
    action := "create_plan" }

def tutorFailInput : ProblemSolutionTutorInput :=
  { user_id := "u1", request_id := "req_3", project_id := "proj_1",
    mode := "problem" }

/-- C4 fails on the code: when the Project Generator's `try` body faults
(here: oracle transport error), the `except` branch itself raises a pydantic
`ValidationError` (the required `reasoning` field is not supplied), so
`process` raises to its caller instead of returning `success=False`.  The
other workers do convert the same fault into a `success=False` output. -/
theorem c4_project_generator_error_path_raises :
    (projectGeneratorProcess faultingOracle none pgFailInput =
      .error (.validationError "ProjectGeneratorOutput.reasoning")) ∧
    ((coachProcess faultingOracle coachFailInput 0 0).1.success = false ∧
      (coachProcess faultingOracle coachFailInput 0 0).1.message = none ∧
      (coachProcess faultingOracle coachFailInput 0 0).1.feedback =
        "An error occurred: Problem and solution are required for plan creation") ∧
    ((tutorProcess faultingOracle tutorFailInput).success = false) := by
  refine ⟨rfl, ⟨rfl, rfl, rfl⟩, rfl⟩

/-! ### Claims C6, C7, C8: the extraction protocol -/

/-- The content fields of a milestone: everything except the generated
`milestone_id`, the `date.today()`-derived `target_date` and the
`datetime.utcnow()` audit stamps `created_at`/`updated_at`. -/
def msContent (m : Milestone) :
    String × String × String × String × String × Nat × MilestoneStatus × ℚ × Option String :=
  (m.project_id, m.user_id, m.title, m.description, m.deliverable,
   m.order, m.status, m.estimated_days, m.next_action)

/-- The content fields of an artifact review: everything except the
generated `review_id` and the `datetime.utcnow()` stamp `created_at`. -/
def reviewContent (r : ArtifactReview) :
    String × String × List ArtifactSubmission × ℚ × String × List (String × ℚ) ×
      List (String × String) × List String × List String × String × List String :=
  (r.project_id, r.user_id, r.submitted_artifacts, r.overall_score,
   r.overall_feedback, r.criterion_scores, r.criterion_feedback, r.strengths,
   r.areas_for_improvement, r.recruiter_appeal_assessment, r.skills_demonstrated)

/-- A concrete `create_plan` request used by the extraction claims. -/
def coachInp0 : ExecutionCoachInput :=
  { user_id := "user_1", request_id := "req_0", project_id := "proj_1",
    action := "create_plan" }

/-- C6 counterexample: the extraction is NOT deterministic field for field.
Parsing the same milestone text twice (the second run with the fresh-name
supply in the state the first run left it, as consecutive calls observe)
yields records that differ — the generated `milestone_id`s are fresh on
every call (`uuid.uuid4()` in `_parse_milestones`). -/
theorem c6_counterexample_milestone_ids_fresh :
    ((parse_milestones "### Milestone 1: Setup" coachInp0 0 0).1 ≠
      (parse_milestones "### Milestone 1: Setup" coachInp0 0
        (parse_milestones "### Milestone 1: Setup" coachInp0 0 0).2).1) ∧
    ((parse_milestones "### Milestone 1: Setup" coachInp0 0 0).1.map
        Milestone.milestone_id = ["ms_0", "ms_1", "ms_2"]) ∧
    ((parse_milestones "### Milestone 1: Setup" coachInp0 0
        (parse_milestones "### Milestone 1: Setup" coachInp0 0 0).2).1.map
        Milestone.milestone_id = ["ms_3", "ms_4", "ms_5"]) := by
  refine ⟨by decide, by decide, by decide⟩

/-- Two milestone-scan states that agree on everything except the generated
ids and dates. -/
def MsAccRel (a b : MsAcc) : Prop :=
  a.milestones.map msContent = b.milestones.map msContent ∧
  a.current.map msContent = b.current.map msContent ∧
  a.order = b.order

/-- Flushing the open milestone preserves content equality. -/
theorem flush_rel {a b : Option Milestone}
    (h : a.map msContent = b.map msContent) :
    (match a with | some m => [m] | none => ([] : List Milestone)).map msContent =
      (match b with | some m => [m] | none => []).map msContent := by
  cases a <;> cases b <;> simp_all

/-- One line of the milestone scan preserves the content relation (the
`today` parameters may differ). -/
theorem parse_milestones_line_rel (inp : ExecutionCoachInput) (t1 t2 : Int)
    (line : String) {a b : MsAcc} (h : MsAccRel a b) :
    MsAccRel (parse_milestones_line inp t1 a line)
      (parse_milestones_line inp t2 b line) := by
  obtain ⟨ams, acur, aord, actr⟩ := a
  obtain ⟨bms, bcur, bord, bctr⟩ := b
  obtain ⟨hm, hc, ho⟩ := h
  subst ho
  unfold parse_milestones_line
  by_cases h1 : pyStartsWith (pyStrip line) "### Milestone" = true
  · rw [if_pos h1, if_pos h1]
    exact ⟨by simp only [List.map_append, hm, flush_rel hc], by simp [msContent], rfl⟩
  · rw [if_neg h1, if_neg h1]
    rcases acur with _ | m1 <;> rcases bcur with _ | m2
    · exact ⟨hm, hc, rfl⟩
    · simp at hc
    · simp at hc
    · obtain ⟨id1, pid1, uid1, tt1, d1, dv1, o1, s1, ed1, td1, na1, ca1, ua1⟩ := m1
      obtain ⟨id2, pid2, uid2, tt2, d2, dv2, o2, s2, ed2, td2, na2, ca2, ua2⟩ := m2
      simp only [msContent, Option.map_some', Option.some.injEq, Prod.mk.injEq] at hc
      obtain ⟨e1, e2, e3, e4, e5, e6, e7, e8, e9⟩ := hc
      subst e1; subst e2; subst e3; subst e4; subst e5
      subst e6; subst e7; subst e8; subst e9
      dsimp only
      by_cases hd : pyStartsWith (pyStrip line) "Description:" = true
      · rw [if_pos hd, if_pos hd]; exact ⟨hm, by simp [msContent], rfl⟩
      · rw [if_neg hd, if_neg hd]
        by_cases hdl : pyStartsWith (pyStrip line) "Deliverable:" = true
        · rw [if_pos hdl, if_pos hdl]; exact ⟨hm, by simp [msContent], rfl⟩
        · rw [if_neg hdl, if_neg hdl]
          by_cases hed : pyStartsWith (pyStrip line) "Estimated Days:" = true
          · rw [if_pos hed, if_pos hed]
            rcases pyFloat? (filterDigitsDots (pyStrip (pySplit1 (pyStrip line) ":").2)) with _ | d
            · exact ⟨hm, by simp [msContent], rfl⟩
            · exact ⟨hm, by simp [msContent], rfl⟩
          · rw [if_neg hed, if_neg hed]
            by_cases hna : pyStartsWith (pyStrip line) "Next Action:" = true
            · rw [if_pos hna, if_pos hna]; exact ⟨hm, by simp [msContent], rfl⟩
            · rw [if_neg hna, if_neg hna]
              exact ⟨hm, by simp [msContent], rfl⟩

/-- The whole scan preserves the content relation. -/
theorem parse_milestones_foldl_rel (inp : ExecutionCoachInput) (t1 t2 : Int) :
    ∀ (lines : List String) {a b : MsAcc}, MsAccRel a b →
      MsAccRel (lines.foldl (parse_milestones_line inp t1) a)
        (lines.foldl (parse_milestones_line inp t2) b)
  | [], _, _, h => h
  | line :: rest, a, b, h =>
    parse_milestones_foldl_rel inp t1 t2 rest
      (parse_milestones_line_rel inp t1 t2 line h)

/-- Filler milestones depend on the supply and the clock only through their
ids and audit stamps. -/
theorem msFillers_content (inp : ExecutionCoachInput) (t1 t2 : Int) :
    ∀ (n o c1 c2 : Nat),
      (msFillers inp t1 n o c1).map msContent = (msFillers inp t2 n o c2).map msContent
  | 0, _, _, _ => rfl
  | n + 1, o, c1, c2 => by
    simp only [msFillers, List.map_cons]
    exact congrArg _ (msFillers_content inp t1 t2 n (o + 1) (c1 + 1) (c2 + 1))

theorem msFillers_length (inp : ExecutionCoachInput) (t : Int) :
    ∀ (n o c : Nat), (msFillers inp t n o c).length = n
  | 0, _, _ => rfl
  | n + 1, o, c => by
    simp only [msFillers, List.length_cons, msFillers_length inp t n (o + 1) (c + 1)]

/-- C6 amended: the extraction is deterministic in every content field —
for identical input text, repeated runs of `_parse_milestones` agree on all
fields except the freshly generated `milestone_id`s, the
`date.today()`-derived `target_date`s and the `datetime.utcnow()` audit
stamps `created_at`/`updated_at`, and repeated runs of `_parse_review`
agree on all fields except the freshly generated `review_id` and its
`datetime.utcnow()` stamp `created_at`. -/
theorem c6_amended_extraction_content_deterministic :
    (∀ (response : String) (inp : ExecutionCoachInput) (t1 t2 : Int) (c1 c2 : Nat),
      (parse_milestones response inp t1 c1).1.map msContent =
        (parse_milestones response inp t2 c2).1.map msContent) ∧
    (∀ (response : String) (inp : ReviewerInput) (t1 t2 : Int) (c1 c2 : Nat),
      reviewContent (parse_review response inp t1 c1).1 =
        reviewContent (parse_review response inp t2 c2).1) := by
  constructor
  · intro response inp t1 t2 c1 c2
    have hrel := parse_milestones_foldl_rel inp t1 t2 (pyLines response)
      (a := ⟨[], none, 0, c1⟩) (b := ⟨[], none, 0, c2⟩) ⟨rfl, rfl, rfl⟩
    obtain ⟨hm, hc, ho⟩ := hrel
    unfold parse_milestones
    set A := (pyLines response).foldl (parse_milestones_line inp t1) ⟨[], none, 0, c1⟩ with hA
    set B := (pyLines response).foldl (parse_milestones_line inp t2) ⟨[], none, 0, c2⟩ with hB
    have hms : (A.milestones ++ (match A.current with | some m => [m] | none => [])).map msContent =
        (B.milestones ++ (match B.current with | some m => [m] | none => [])).map msContent := by
      simp only [List.map_append, hm, flush_rel hc]
    have hlen : (A.milestones ++ (match A.current with | some m => [m] | none => [])).length =
        (B.milestones ++ (match B.current with | some m => [m] | none => [])).length := by
      have := congrArg List.length hms
      simpa using this
    by_cases h3 : (A.milestones ++ (match A.current with | some m => [m] | none => [])).length < 3
    · simp only [h3, hlen ▸ h3, if_true, List.map_append, hms, hlen, ho,
        msFillers_content inp t1 t2]
      rw [← hlen, ← ho]
      simp [hms, msFillers_content inp t1 t2 _ _ A.ctr B.ctr]
    · simp only [h3, hlen ▸ h3, if_false]
      exact hms
  · intro response inp t1 t2 c1 c2
    rfl

/-! ### Claim C7: totality and range bounds of the extraction -/

theorem clamp010_bounds (v : ℚ) : 0 ≤ clamp010 v ∧ clamp010 v ≤ 10 := by
  unfold clamp010 pyMax pyMin
  split_ifs <;> constructor <;> linarith

theorem clamp17_bounds (v : ℚ) : 1 ≤ pyMax 1 (pyMin 7 v) ∧ pyMax 1 (pyMin 7 v) ≤ 7 := by
  unfold pyMax pyMin
  split_ifs <;> constructor <;> linarith

/-- Members of a dict after insertion: the new pair or an old member. -/
theorem mem_pyDictInsert {d : List (String × ℚ)} {k : String} {v : ℚ}
    {q : String × ℚ} (h : q ∈ pyDictInsert d k v) : q = (k, v) ∨ q ∈ d := by
  unfold pyDictInsert at h
  split at h
  · rcases List.mem_map.mp h with ⟨p, hp, he⟩
    by_cases hk : p.1 = k
    · left; rw [← he]; simp [hk]
    · right; rw [← he]; simpa [hk] using hp
  · rcases List.mem_append.mp h with h1 | h1
    · right; exact h1
    · left; simpa using h1

theorem mem_pyDictSetdefault {d : List (String × ℚ)} {k : String} {v : ℚ}
    {q : String × ℚ} (h : q ∈ pyDictSetdefault d k v) : q = (k, v) ∨ q ∈ d := by
  unfold pyDictSetdefault at h
  split at h
  · right; exact h
  · rcases List.mem_append.mp h with h1 | h1
    · right; exact h1
    · left; simpa using h1

/-- The key just inserted by `setdefault` is present. -/
theorem any_pyDictSetdefault_self (d : List (String × ℚ)) (k : String) (v : ℚ) :
    (pyDictSetdefault d k v).any (fun p => p.1 = k) = true := by
  unfold pyDictSetdefault
  split
  · assumption
  · simp

/-- `setdefault` preserves any existing key. -/
theorem any_pyDictSetdefault_mono {d : List (String × ℚ)} {f : String × ℚ → Bool}
    (h : d.any f = true) (k : String) (v : ℚ) :
    (pyDictSetdefault d k v).any f = true := by
  unfold pyDictSetdefault
  split
  · exact h
  · simp only [List.any_append, h, Bool.true_or]

/-- A present key has a `lookup` value. -/
theorem lookup_isSome_of_any {d : List (String × ℚ)} {k : String}
    (h : d.any (fun p => p.1 = k) = true) : (d.lookup k).isSome = true := by
  induction d with
  | nil => simp at h
  | cons p t ih =>
    simp only [List.any_cons, Bool.or_eq_true, decide_eq_true_eq] at h
    rcases h with h | h
    · simp [List.lookup, h.symm]
    · by_cases hk : k == p.1
      · simp [List.lookup, hk]
      · simp only [List.lookup, hk]
        exact ih h

/-- One scan line preserves the `[0, 10]` score range. -/
theorem parse_scores_line_range {mode : String} {s : List (String × ℚ)}
    (hS : ∀ p ∈ s, 0 ≤ p.2 ∧ p.2 ≤ 10) (line : String) :
    ∀ p ∈ parse_scores_line mode s line, 0 ≤ p.2 ∧ p.2 ≤ 10 := by
  intro p hp
  unfold parse_scores_line at hp
  split at hp
  case isFalse => exact hS p hp
  case isTrue =>
    dsimp only at hp
    rcases hflt : pyFloat? (filterDigitsDots (pyStrip (pySplit1 line ":").2)) with _ | v
    · rw [hflt] at hp
      exact hS p hp
    · rw [hflt] at hp
      dsimp only at hp
      repeat' split at hp
      all_goals
        first
          | exact hS p hp
          | (rcases mem_pyDictInsert hp with h | h
             · rw [h]; exact clamp010_bounds v
             · exact hS p h)

/-- The scan preserves the range. -/
theorem parse_scores_foldl_range (mode : String) :
    ∀ (lines : List String) (s : List (String × ℚ)),
      (∀ p ∈ s, 0 ≤ p.2 ∧ p.2 ≤ 10) →
      ∀ p ∈ lines.foldl (parse_scores_line mode) s, 0 ≤ p.2 ∧ p.2 ≤ 10
  | [], _, hS => hS
  | line :: rest, s, hS =>
    parse_scores_foldl_range mode rest _ (parse_scores_line_range hS line)

/-- Every score produced by `_parse_scores` lies in `[0, 10]`. -/
theorem parse_scores_range (response mode : String) :
    ∀ p ∈ parse_scores response mode, 0 ≤ p.2 ∧ p.2 ≤ 10 := by
  intro p hp
  unfold parse_scores at hp
  have base : ∀ q ∈ (pyLines response).foldl (parse_scores_line mode) [],
      0 ≤ q.2 ∧ q.2 ≤ 10 :=
    parse_scores_foldl_range mode (pyLines response) [] (by simp)
  split at hp
  · rcases mem_pyDictSetdefault hp with h | h
    · rw [h]; norm_num
    rcases mem_pyDictSetdefault h with h | h
    · rw [h]; norm_num
    rcases mem_pyDictSetdefault h with h | h
    · rw [h]; norm_num
    exact base p h
  · rcases mem_pyDictSetdefault hp with h | h
    · rw [h]; norm_num
    rcases mem_pyDictSetdefault h with h | h
    · rw [h]; norm_num
    rcases mem_pyDictSetdefault h with h | h
    · rw [h]; norm_num
    rcases mem_pyDictSetdefault h with h | h
    · rw [h]; norm_num
    exact base p h

/-- `_parse_scores` in problem mode populates every criterion key. -/
theorem parse_scores_problem_keys (response : String) :
    ((parse_scores response "problem").lookup "market_relevance").isSome = true ∧
    ((parse_scores response "problem").lookup "clarity").isSome = true ∧
    ((parse_scores response "problem").lookup "feasibility").isSome = true := by
  unfold parse_scores
  rw [if_pos rfl]
  refine ⟨?_, ?_, ?_⟩ <;> apply lookup_isSome_of_any
  · exact any_pyDictSetdefault_mono
      (any_pyDictSetdefault_mono (any_pyDictSetdefault_self _ _ _) _ _) _ _
  · exact any_pyDictSetdefault_mono (any_pyDictSetdefault_self _ _ _) _ _
  · exact any_pyDictSetdefault_self _ _ _

/-- `_parse_scores` in solution mode populates every criterion key. -/
theorem parse_scores_solution_keys (response : String) :
    ((parse_scores response "solution").lookup "logical_coherence").isSome = true ∧
    ((parse_scores response "solution").lookup "innovation").isSome = true ∧
    ((parse_scores response "solution").lookup "implementation_feasibility").isSome = true ∧
    ((parse_scores response "solution").lookup "impact_potential").isSome = true := by
  unfold parse_scores
  rw [if_neg (by decide)]
  refine ⟨?_, ?_, ?_, ?_⟩ <;> apply lookup_isSome_of_any
  · exact any_pyDictSetdefault_mono (any_pyDictSetdefault_mono
      (any_pyDictSetdefault_mono (any_pyDictSetdefault_self _ _ _) _ _) _ _) _ _
  · exact any_pyDictSetdefault_mono
      (any_pyDictSetdefault_mono (any_pyDictSetdefault_self _ _ _) _ _) _ _
  · exact any_pyDictSetdefault_mono (any_pyDictSetdefault_self _ _ _) _ _
  · exact any_pyDictSetdefault_self _ _ _

/-- Well-formedness of one milestone: estimated days within `[1, 7]` and a
positive order. -/
def MsOK (m : Milestone) : Prop :=
  1 ≤ m.estimated_days ∧ m.estimated_days ≤ 7 ∧ 1 ≤ m.order

/-- Well-formedness of the scan state. -/
def MsAccOK (a : MsAcc) : Prop :=
  (∀ m ∈ a.milestones, MsOK m) ∧ (∀ m, a.current = some m → MsOK m)

theorem parse_milestones_line_ok (inp : ExecutionCoachInput) (t : Int)
    (line : String) {a : MsAcc} (h : MsAccOK a) :
    MsAccOK (parse_milestones_line inp t a line) := by
  obtain ⟨hms, hcur⟩ := h
  unfold parse_milestones_line
  dsimp only
  split
  · constructor
    · intro m hm
      rcases List.mem_append.mp hm with h1 | h1
      · exact hms m h1
      · rcases ha : a.current with _ | c
        · rw [ha] at h1; simp at h1
        · rw [ha] at h1; simp at h1
          rw [h1]; exact hcur c ha
    · intro m hm
      simp only [Option.some.injEq] at hm
      rw [← hm]
      refine ⟨by norm_num, by norm_num, by dsimp only; omega⟩
  · rcases ha : a.current with _ | c
    · exact ⟨hms, hcur⟩
    · have hcok := hcur c ha
      dsimp only
      split
      · exact ⟨hms, fun m hm => by
          simp only [Option.some.injEq] at hm
          rw [← hm]
          exact ⟨hcok.1, hcok.2.1, hcok.2.2⟩⟩
      · split
        · exact ⟨hms, fun m hm => by
            simp only [Option.some.injEq] at hm
            rw [← hm]
            exact ⟨hcok.1, hcok.2.1, hcok.2.2⟩⟩
        · split
          · split
            · exact ⟨hms, hcur⟩
            · rename_i d _
              exact ⟨hms, fun m hm => by
                simp only [Option.some.injEq] at hm
                rw [← hm]
                exact ⟨(clamp17_bounds d).1, (clamp17_bounds d).2, hcok.2.2⟩⟩
          · split
            · exact ⟨hms, fun m hm => by
                simp only [Option.some.injEq] at hm
                rw [← hm]
                exact ⟨hcok.1, hcok.2.1, hcok.2.2⟩⟩
            · exact ⟨hms, hcur⟩

theorem parse_milestones_foldl_ok (inp : ExecutionCoachInput) (t : Int) :
    ∀ (lines : List String) {a : MsAcc}, MsAccOK a →
      MsAccOK (lines.foldl (parse_milestones_line inp t) a)
  | [], _, h => h
  | line :: rest, _, h =>
    parse_milestones_foldl_ok inp t rest (parse_milestones_line_ok inp t line h)

theorem msFillers_ok (inp : ExecutionCoachInput) (t : Int) :
    ∀ (n o c : Nat), ∀ m ∈ msFillers inp t n o c, MsOK m
  | 0, _, _ => by intro m hm; simp [msFillers] at hm
  | n + 1, o, c => by
    intro m hm
    rcases List.mem_cons.mp hm with h | h
    · rw [h]; exact ⟨by norm_num, by norm_num, by dsimp only; omega⟩
    · exact msFillers_ok inp t n (o + 1) (c + 1) m h

/-- Every milestone produced by `_parse_milestones` is well formed. -/
theorem parse_milestones_ok (response : String) (inp : ExecutionCoachInput)
    (today : Int) (ctr : Nat) :
    ∀ m ∈ (parse_milestones response inp today ctr).1, MsOK m := by
  intro m hm
  unfold parse_milestones at hm
  have hacc := parse_milestones_foldl_ok inp today (pyLines response)
    (a := ⟨[], none, 0, ctr⟩) ⟨by simp, by simp⟩
  set A := (pyLines response).foldl (parse_milestones_line inp today)
    ⟨[], none, 0, ctr⟩ with hA
  have hflushed : ∀ x ∈ A.milestones ++
      (match A.current with | some c => [c] | none => []), MsOK x := by
    intro x hx
    rcases List.mem_append.mp hx with h1 | h1
    · exact hacc.1 x h1
    · rcases hc : A.current with _ | c
      · rw [hc] at h1; simp at h1
      · rw [hc] at h1; simp at h1
        rw [h1]; exact hacc.2 c hc
  dsimp only at hm
  split at hm
  · rcases List.mem_append.mp hm with h1 | h1
    · exact hflushed m h1
    · exact msFillers_ok inp _ _ _ _ m h1
  · exact hflushed m hm

/-- C7: the extraction protocol is total and schema-respecting — for every
input text `_parse_scores` populates every criterion of its mode (via the
fixed fallback 5.0) with every value clamped to `[0, 10]`, and
`_parse_milestones` yields only milestones whose estimated days are clamped
to `[1, 7]` and whose order is ≥ 1.  (Totality itself is structural: the
embedded parsers are Lean functions, defined on every input string, exactly
as the Python code never raises on any input text.) -/
theorem c7_extraction_total_and_in_range :
    (∀ response : String,
      (((parse_scores response "problem").lookup "market_relevance").isSome = true ∧
       ((parse_scores response "problem").lookup "clarity").isSome = true ∧
       ((parse_scores response "problem").lookup "feasibility").isSome = true) ∧
      (((parse_scores response "solution").lookup "logical_coherence").isSome = true ∧
       ((parse_scores response "solution").lookup "innovation").isSome = true ∧
       ((parse_scores response "solution").lookup "implementation_feasibility").isSome = true ∧
       ((parse_scores response "solution").lookup "impact_potential").isSome = true) ∧
      (∀ mode : String, ∀ p ∈ parse_scores response mode, 0 ≤ p.2 ∧ p.2 ≤ 10)) ∧
    (∀ (response : String) (inp : ExecutionCoachInput) (today : Int) (ctr : Nat),
      ∀ m ∈ (parse_milestones response inp today ctr).1,
        1 ≤ m.estimated_days ∧ m.estimated_days ≤ 7 ∧ 1 ≤ m.order) :=
  ⟨fun response =>
    ⟨parse_scores_problem_keys response, parse_scores_solution_keys response,
     fun mode => parse_scores_range response mode⟩,
   fun response inp today ctr => parse_milestones_ok response inp today ctr⟩

/-- Witness for C7 at a concrete degenerate input: the empty oracle text
still yields a fully populated, in-range score record and three in-range
milestones. -/
theorem c7_extraction_total_and_in_range_witness :
    (((parse_scores "" "problem").lookup "market_relevance").isSome = true ∧
      (0 : ℚ) ≤ 5 ∧ (5 : ℚ) ≤ 10) ∧
    (1 : ℚ) ≤ 3 ∧ (3 : ℚ) ≤ 7 :=
  ⟨⟨(c7_extraction_total_and_in_range.1 "").1.1,
    (c7_extraction_total_and_in_range.1 "").2.2 "problem" ("market_relevance", 5) (by decide)⟩,
   (c7_extraction_total_and_in_range.2 "" coachInp0 0 0
      ((parse_milestones "" coachInp0 0 0).1.headD
        { milestone_id := "", project_id := "", user_id := "", title := "",
          description := "", deliverable := "", order := 1, estimated_days := 3 })
      (by decide)).1,
   (c7_extraction_total_and_in_range.2 "" coachInp0 0 0
      ((parse_milestones "" coachInp0 0 0).1.headD
        { milestone_id := "", project_id := "", user_id := "", title := "",
          description := "", deliverable := "", order := 1, estimated_days := 3 })
      (by decide)).2.1⟩

/-! ### Claim C8 -/

/-- A concrete well-formed problem record. -/
def prob0 : ProblemDefinition :=
  { problem_id := "prob_1", project_id := "proj_1", user_id := "user_1",
    problem_statement := "ps", target_audience := "ta", problem_context := "pc",
    success_metrics := ["m1"] }

/-- A concrete well-formed solution record. -/
def sol0 : SolutionDesign :=
  { solution_id := "sol_1", problem_id := "prob_1", project_id := "proj_1",
    user_id := "user_1", solution_approach := "sa", key_components := ["k"],
    methodology := "me", expected_outcomes := ["o"] }

/-- A fully populated `create_plan` request. -/
def coachPlanInp : ExecutionCoachInput :=
  { coachInp0 with problem_definition := some prob0, solution_design := some sol0 }

/-- C8 counterexample: an oracle text with one milestone block and no
`Next Action:` line.  `_parse_milestones` pads to three milestones, but the
first parsed milestone's `next_action` is `None`, so constructing the
response (whose `next_action` field is required) raises inside the `try`
and `create_plan` returns `success=False` with an EMPTY milestone list —
fewer than 3. -/
theorem c8_counterexample_create_plan_without_next_action :
    ((coachProcess (fun _ _ _ => .ok "### Milestone 1: Build")
        coachPlanInp 0 0).1.milestones.length = 0) ∧
    ((coachProcess (fun _ _ _ => .ok "### Milestone 1: Build")
        coachPlanInp 0 0).1.success = false) ∧
    3 ≤ (parse_milestones "### Milestone 1: Build" coachPlanInp 0 0).1.length := by
  refine ⟨by decide, by decide, by decide⟩

/-- `_parse_milestones` always yields at least 3 milestones. -/
theorem parse_milestones_min3 (response : String) (inp : ExecutionCoachInput)
    (today : Int) (ctr : Nat) :
    3 ≤ (parse_milestones response inp today ctr).1.length := by
  unfold parse_milestones
  dsimp only
  split
  · rename_i hlt
    dsimp only
    simp only [List.length_append, msFillers_length]
    omega
  · rename_i hge
    dsimp only
    omega

/-- A successful `_create_execution_plan` carries the parsed (≥ 3-element)
milestone list. -/
theorem create_execution_plan_ok {oracle : OracleFn} {inp : ExecutionCoachInput}
    {today : Int} {ctr c2 : Nat} {out : ExecutionCoachOutput}
    (h : create_execution_plan oracle inp today ctr = (.ok out, c2)) :
    out.milestones = (parse_milestones (match call_llm oracle plan_creation_prompt
        (plan_user_prompt (inp.problem_definition.getD prob0)
          (inp.solution_design.getD sol0)) (5 / 10) with
      | .ok r => r | .error _ => "") inp today ctr).1 ∧
    3 ≤ out.milestones.length := by
  unfold create_execution_plan at h
  split at h
  · rename_i problem solution hpd hsd
    split at h
    · simp at h
    · rename_i response hor
      dsimp only at h
      split at h
      · simp at h
      · simp only [Prod.mk.injEq, Except.ok.injEq] at h
        obtain ⟨hout, _⟩ := h
        rw [← hout]
        dsimp only
        rw [hpd, hsd]
        dsimp only [Option.getD]
        rw [hor]
        exact ⟨rfl, parse_milestones_min3 _ inp today ctr⟩
  · simp at h

/-- C8 amended: `_parse_milestones` always returns at least 3 milestones
(padding with synthesized fillers), and consequently every SUCCESSFUL
`create_plan` response carries at least 3 milestones; but when the first
parsed milestone lacks a next action the response construction fails and
`create_plan` returns `success=False` with an empty list. -/
theorem c8_amended_three_milestones :
    (∀ (response : String) (inp : ExecutionCoachInput) (today : Int) (ctr : Nat),
      3 ≤ (parse_milestones response inp today ctr).1.length) ∧
    (∀ (oracle : OracleFn) (inp : ExecutionCoachInput) (today : Int) (ctr : Nat),
      inp.action = "create_plan" →
      (coachProcess oracle inp today ctr).1.success = true →
      3 ≤ (coachProcess oracle inp today ctr).1.milestones.length) := by
  refine ⟨parse_milestones_min3, ?_⟩
  intro oracle inp today ctr hact hsucc
  rcases hbody : coachProcessBody oracle inp today ctr with ⟨bres, bctr⟩
  unfold coachProcess at hsucc ⊢
  rw [hbody] at hsucc ⊢
  rcases bres with e | out
  · simp at hsucc
  · dsimp only at hsucc ⊢
    have hplan : create_execution_plan oracle inp today ctr = (.ok out, bctr) := by
      rw [← hbody]
      unfold coachProcessBody
      rw [if_pos hact]
    exact (create_execution_plan_ok hplan).2

/-- Witness for C8 amended: the empty oracle text yields a successful plan
with (exactly) three synthesized milestones. -/
theorem c8_amended_three_milestones_witness :
    3 ≤ (coachProcess (fun _ _ _ => .ok "") coachPlanInp 0 0).1.milestones.length :=
  c8_amended_three_milestones.2 (fun _ _ _ => .ok "") coachPlanInp 0 0 rfl (by decide)

/-! ## Durable State (src/backend/schemas/state.py) -/

/-- `UserState.context`: a string-keyed dict that the orchestrator reads and
writes only at these literal keys (`.get` of an absent key is falsy, matching
the defaults). -/
structure Ctx where
  onboarding_step : Option String := none
  problem_submitted : Bool := false
  awaiting_problem : Bool := false
  solution_submitted : Bool := false
  awaiting_solution : Bool := false
  execution_plan_created : Bool := false
  artifacts_submitted : Bool := false
  awaiting_artifacts : Bool := false
deriving DecidableEq, Repr

/-- `UserState` (src/backend/schemas/state.py); `room_id`, the datetime
audit fields and `metadata` omitted (no claim mentions them). -/
structure UserState where
  user_id : String
  current_state : StateType
  previous_state : Option StateType := none
  target_role : Option String := none
  target_domain : Option String := none
  background : Option String := none
  interests : Option String := none
  project_id : Option String := none
  project_approved : Bool := false
  problem_id : Option String := none
  problem_approved : Bool := false
  solution_id : Option String := none
  solution_approved : Bool := false
  current_milestone_id : Option String := none
  milestones_completed : Nat := 0
  total_milestones : Nat := 0
  review_id : Option String := none
  resume_generated : Bool := false
  context : Ctx := {}
deriving DecidableEq, Repr

/-- `user_state.model_dump()` as consumed by the guard: `can_transition`
tests only presence and truthiness of the keys in the `get_required_data`
table, so the snapshot lists exactly those keys with the Python truthiness
of their values (`None` and `""` falsy for strings, `0` falsy for the
milestone counter). -/
def UserState.model_dump (us : UserState) : Snapshot :=
  [("target_role", optStrTruthy us.target_role),
   ("target_domain", optStrTruthy us.target_domain),
   ("project_id", optStrTruthy us.project_id),
   ("project_approved", us.project_approved),
   ("problem_id", optStrTruthy us.problem_id),
   ("problem_approved", us.problem_approved),
   ("solution_id", optStrTruthy us.solution_id),
   ("solution_approved", us.solution_approved),
   ("milestones_completed", decide (us.milestones_completed ≠ 0)),
   ("review_id", optStrTruthy us.review_id),
   ("resume_generated", us.resume_generated)]

/-- `StateTransition` (src/backend/schemas/state.py); timestamp and data
omitted. -/
structure StateTransition where
  from_state : StateType
  to_state : StateType
  reason : String
deriving DecidableEq, Repr

/-! ## Persistence (src/backend/modules/logging.py)

One record per key; record saves are upserts of per-user files, transition
and conversation logs are append-only. -/

/-- Keyed-store update. -/
def upd {κ β : Type} [DecidableEq κ] (f : κ → Option β) (k : κ) (v : β) :
    κ → Option β :=
  fun q => if q = k then some v else f q

/-- The persistent store of `LoggingModule` (`./data/logs/<user>/…`):
`state.json` per user, one file per record keyed by `(user_id, record id)`,
and the append-only `transitions.jsonl` / `conversation.jsonl` logs. -/
structure Store where
  userStates : String → Option UserState
  projects : String × String → Option Project
  problems : String × String → Option ProblemDefinition
  solutions : String × String → Option SolutionDesign
  milestones : String × String → Option Milestone
  reviews : String × String → Option ArtifactReview
  transitions : List (String × StateTransition)
  conversation : List (String × String × String)

/-- The mutable world the orchestrator runs in: the store, the fresh-uuid
supply and the current date. -/
structure World where
  store : Store
  uuidCounter : Nat
  today : Int

/-- The effect monad of the embedded orchestrator: state passing over
`World` with Python exception semantics — store writes made before a raise
persist. -/
def OrchM (α : Type) : Type := World → Except PyErr α × World

instance : Monad OrchM where
  pure a := fun w => (.ok a, w)
  bind m f := fun w =>
    match m w with
    | (.ok a, w') => f a w'
    | (.error e, w') => (.error e, w')

/-- `raise e`. -/
def OrchM.throw {α : Type} (e : PyErr) : OrchM α := fun w => (.error e, w)

/-- `uuid.uuid4().hex[:8]` with a prefix (fresh-name supply). -/
def freshUuid (prefix_ : String) : OrchM String := fun w =>
  (.ok (freshId prefix_ w.uuidCounter), { w with uuidCounter := w.uuidCounter + 1 })

def modifyStore (f : Store → Store) : OrchM Unit := fun w =>
  (.ok (), { w with store := f w.store })

/-- `LoggingModule.save_user_state`. -/
def saveUserStore (s : Store) (us : UserState) : Store :=
  { s with userStates := upd s.userStates us.user_id us }

def save_user_state (us : UserState) : OrchM Unit :=
  modifyStore (fun s => saveUserStore s us)

/-- `LoggingModule.load_user_state`. -/
def load_user_state (user_id : String) : OrchM (Option UserState) := fun w =>
  (.ok (w.store.userStates user_id), w)

/-- `LoggingModule.save_project` (keyed by user and project id). -/
def save_project (p : Project) : OrchM Unit :=
  modifyStore (fun s => { s with projects := upd s.projects (p.user_id, p.project_id) p })

/-- `LoggingModule.load_project`; a `None` id loads a nonexistent file. -/
def load_project (user_id : String) (project_id : Option String) :
    OrchM (Option Project) := fun w =>
  (.ok (match project_id with
        | some pid => w.store.projects (user_id, pid)
        | none => none), w)

def save_problem_definition (p : ProblemDefinition) : OrchM Unit :=
  modifyStore (fun s => { s with problems := upd s.problems (p.user_id, p.problem_id) p })

def load_problem_definition (user_id : String) (problem_id : Option String) :
    OrchM (Option ProblemDefinition) := fun w =>
  (.ok (match problem_id with
        | some pid => w.store.problems (user_id, pid)
        | none => none), w)

def save_solution_design (p : SolutionDesign) : OrchM Unit :=
  modifyStore (fun s => { s with solutions := upd s.solutions (p.user_id, p.solution_id) p })

def load_solution_design (user_id : String) (solution_id : Option String) :
    OrchM (Option SolutionDesign) := fun w =>
  (.ok (match solution_id with
        | some sid => w.store.solutions (user_id, sid)
        | none => none), w)

def save_milestone (m : Milestone) : OrchM Unit :=
  modifyStore (fun s => { s with milestones := upd s.milestones (m.user_id, m.milestone_id) m })

def load_milestone (user_id : String) (milestone_id : Option String) :
    OrchM (Option Milestone) := fun w =>
  (.ok (match milestone_id with
        | some mid => w.store.milestones (user_id, mid)
        | none => none), w)

def save_artifact_review (r : ArtifactReview) : OrchM Unit :=
  modifyStore (fun s => { s with reviews := upd s.reviews (r.user_id, r.review_id) r })

def load_artifact_review (user_id : String) (review_id : Option String) :
    OrchM (Option ArtifactReview) := fun w =>
  (.ok (match review_id with
        | some rid => w.store.reviews (user_id, rid)
        | none => none), w)

/-- `LoggingModule.log_state_transition` (append-only). -/
def log_state_transition (tr : StateTransition) (user_id : String) : OrchM Unit :=
  modifyStore (fun s => { s with transitions := (user_id, tr) :: s.transitions })

/-- `LoggingModule.log_user_message` / `log_agent_response` (append-only
conversation log). -/
def log_user_message (user_id message : String) : OrchM Unit :=
  modifyStore (fun s => { s with conversation := (user_id, "user", message) :: s.conversation })

def log_agent_response (user_id agent response : String) : OrchM Unit :=
  modifyStore (fun s => { s with conversation := (user_id, agent, response) :: s.conversation })

/-! ## Orchestrator (src/backend/orchestration/orchestrator.py) -/

/-- The orchestrator's collaborators: the oracle behind every agent and the
optional retrieval module. -/
structure Agents where
  oracle : OracleFn
  rag : RagFn

/-- Running a worker from the orchestrator.  The project generator may raise
(see `projectGeneratorProcess`); the others are total. -/
def runProjectGenerator (ag : Agents) (inp : ProjectGeneratorInput) :
    OrchM ProjectGeneratorOutput := fun w =>
  (projectGeneratorProcess ag.oracle ag.rag inp, w)

def runTutor (ag : Agents) (inp : ProblemSolutionTutorInput) :
    OrchM ProblemSolutionTutorOutput := fun w =>
  (.ok (tutorProcess ag.oracle inp), w)

def runCoach (ag : Agents) (inp : ExecutionCoachInput) :
    OrchM ExecutionCoachOutput := fun w =>
  let r := coachProcess ag.oracle inp w.today w.uuidCounter
  (.ok r.1, { w with uuidCounter := r.2 })

def runReviewer (ag : Agents) (inp : ReviewerInput) : OrchM ReviewerOutput := fun w =>
  let r := reviewerProcess ag.oracle inp w.today w.uuidCounter
  (.ok r.1, { w with uuidCounter := r.2 })

/-- `MainChatAgent.generate_message`: a pure template dispatcher building
the user-facing prose from its context argument (main_chat.py); it performs
no persistence and no oracle call, and no claim depends on the reply text,
so the template prose is elided to a tag. -/
def generate_message (message_type : String) : String :=
  "[" ++ message_type ++ "]"

/-- pydantic validation of a required `str` field receiving an
`Optional[str]` value: `None` raises a `ValidationError` at model
construction. -/
def requireStr (field : String) : Option String → OrchM String
  | some v => pure v
  | none => OrchM.throw (.validationError field)

/-- `Orchestrator._handle_completed`. -/
def handle_completed (us : UserState) (_message : String) :
    OrchM (UserState × String) :=
  pure (us, generate_message "completion")

/-- `Orchestrator._transition_to`: validate with the state machine against
`model_dump()`; on guard failure log a warning and return with the state
unchanged; otherwise append the Transition Record, set previous/current
phase and persist. -/
def transition_to (us : UserState) (to_state : StateType) (reason : String) :
    OrchM UserState := do
  let c := can_transition us.current_state to_state us.model_dump
  if c.1 = false then
    pure us
  else do
    let tr : StateTransition := ⟨us.current_state, to_state, reason⟩
    log_state_transition tr us.user_id
    let us' := { us with previous_state := some us.current_state,
                         current_state := to_state }
    save_user_state us'
    pure us'

/-- `Orchestrator._transition_to_completed` (the reply was already produced
by the resume delivery). -/
def transition_to_completed (us : UserState) : OrchM (UserState × String) := do
  let us' ← transition_to us .completed "Resume generated"
  pure (us', "")

/-- `Orchestrator._review_artifacts`. -/
def orch_review_artifacts (ag : Agents) (us : UserState) (message : String) :
    OrchM (UserState × String) := do
  let artifacts := [ArtifactSubmission.mk "Project Deliverable" none message none]
  let project ← load_project us.user_id us.project_id
  let request_id ← freshUuid "req_"
  let project_id ← requireStr "ReviewerInput.project_id" us.project_id
  let reviewer_output ← runReviewer ag
    { user_id := us.user_id, request_id := request_id, project_id := project_id,
      action := "review_artifacts", submitted_artifacts := artifacts,
      project_proposal := project.map Project.proposal }
  if reviewer_output.success = false then
    pure (us, "I had trouble reviewing your artifacts. Please try again.")
  else
    match reviewer_output.review with
    | none => pure (us, "I had trouble reviewing your artifacts. Please try again.")
    | some review => do
      save_artifact_review review
      let us' := { us with review_id := some review.review_id,
                           context := { us.context with artifacts_submitted := true } }
      save_user_state us'
      pure (us', generate_message "review_feedback")

/-- `Orchestrator._generate_resume`. -/
def orch_generate_resume (ag : Agents) (us : UserState) :
    OrchM (UserState × String) := do
  let review ← load_artifact_review us.user_id us.review_id
  let problem ← load_problem_definition us.user_id us.problem_id
  let solution ← load_solution_design us.user_id us.solution_id
  let request_id ← freshUuid "req_"
  let project_id ← requireStr "ReviewerInput.project_id" us.project_id
  let reviewer_output ← runReviewer ag
    { user_id := us.user_id, request_id := request_id, project_id := project_id,
      action := "generate_resume", problem_definition := problem,
      solution_design := solution, artifact_review := review }
  if reviewer_output.success = false then
    pure (us, "I had trouble generating your resume content. Please try again.")
  else do
    let us' := { us with resume_generated := true }
    save_user_state us'
    let response := generate_message "resume_delivery"
    let r ← transition_to_completed us'
    pure (r.1, response ++ "\n\n" ++ r.2)

/-- `Orchestrator._handle_review`. -/
def handle_review (ag : Agents) (us : UserState) (message : String) :
    OrchM (UserState × String) := do
  if us.context.artifacts_submitted = false then
    if us.context.awaiting_artifacts then
      orch_review_artifacts ag us message
    else do
      let us' := { us with context := { us.context with awaiting_artifacts := true } }
      save_user_state us'
      pure (us', generate_message "review_request")
  else if us.resume_generated = false then
    match parse_user_input_approval message with
    | some true => orch_generate_resume ag us
    | _ => pure (us, "Take your time reviewing the feedback. Let me know when you're ready for resume content! (Yes)")
  else
    pure (us, "Your resume content has been generated! Is there anything else I can help with?")

/-- `Orchestrator._transition_to_review`. -/
def transition_to_review (ag : Agents) (us : UserState) :
    OrchM (UserState × String) := do
  let us' ← transition_to us .review "All milestones completed"
  handle_review ag us' ""

/-- `Orchestrator._process_progress_update`. -/
def process_progress_update (ag : Agents) (us : UserState) (message : String) :
    OrchM (UserState × String) := do
  let current_milestone? ← load_milestone us.user_id us.current_milestone_id
  match current_milestone? with
  | none => pure (us, "I couldn't find your current milestone. Let me help you get back on track.")
  | some current_milestone => do
    let request_id ← freshUuid "req_"
    let project_id ← requireStr "ExecutionCoachInput.project_id" us.project_id
    let coach_output ← runCoach ag
      { user_id := us.user_id, request_id := request_id, project_id := project_id,
        action := "update_progress",
        current_milestone_id := us.current_milestone_id,
        progress_update := some message, blockers := [],
        all_milestones := [current_milestone] }
    match coach_output.milestone_status_update with
    | some st => do
      save_milestone { current_milestone with status := st }
      if st = .completed then do
        let us1 := { us with milestones_completed := us.milestones_completed + 1 }
        if us1.total_milestones ≤ us1.milestones_completed then do
          save_user_state us1
          let r ← transition_to_review ag us1
          pure (r.1, coach_output.feedback ++ "\n\n" ++ r.2)
        else do
          save_user_state us1
          pure (us1, generate_message "milestone_update")
      else do
        save_user_state us
        pure (us, generate_message "milestone_update")
    | none => do
      save_user_state us
      pure (us, generate_message "milestone_update")

/-- The `for milestone in coach_output.milestones: save_milestone(...)`
loop. -/
def saveMilestones : List Milestone → OrchM Unit
  | [] => pure ()
  | m :: rest => do
    save_milestone m
    saveMilestones rest

/-- `Orchestrator._create_execution_plan`.  `milestones[0]` on an empty
list is an `IndexError` (unreachable for a successful plan, which always
has ≥ 3 milestones). -/
def orch_create_execution_plan (ag : Agents) (us : UserState) :
    OrchM (UserState × String) := do
  let problem ← load_problem_definition us.user_id us.problem_id
  let solution ← load_solution_design us.user_id us.solution_id
  let request_id ← freshUuid "req_"
  let project_id ← requireStr "ExecutionCoachInput.project_id" us.project_id
  let coach_output ← runCoach ag
    { user_id := us.user_id, request_id := request_id, project_id := project_id,
      action := "create_plan", problem_definition := problem,
      solution_design := solution }
  if coach_output.success = false then
    pure (us, "I had trouble creating your execution plan. Let me try again...")
  else do
    saveMilestones coach_output.milestones
    let first ← match coach_output.milestones.head? with
      | some m => pure m
      | none => OrchM.throw (.indexError "milestones[0]")
    let us' := { us with
      context := { us.context with execution_plan_created := true },
      total_milestones := coach_output.milestones.length,
      current_milestone_id := some first.milestone_id }
    save_user_state us'
    pure (us', generate_message "execution_plan")

/-- `Orchestrator._handle_execution`. -/
def handle_execution (ag : Agents) (us : UserState) (message : String) :
    OrchM (UserState × String) :=
  if us.context.execution_plan_created = false then
    orch_create_execution_plan ag us
  else
    process_progress_update ag us message

/-- `Orchestrator._transition_to_execution`. -/
def transition_to_execution (ag : Agents) (us : UserState) :
    OrchM (UserState × String) := do
  let us' ← transition_to us .execution "Solution approved"
  handle_execution ag us' ""

/-- `for key, value in tutor_output.scores.items(): setattr(solution,
f"{key}_score", value)`; solution-mode runs only ever produce the four
declared keys. -/
def applySolutionEval (sol : SolutionDesign) (t : ProblemSolutionTutorOutput) :
    SolutionDesign :=
  let sol := { sol with evaluation_passed := t.evaluation_passed,
                        evaluation_feedback := some t.overall_feedback }
  let sol := t.scores.foldl (fun s kv =>
    if kv.1 = "logical_coherence" then { s with logical_coherence_score := some kv.2 }
    else if kv.1 = "innovation" then { s with innovation_score := some kv.2 }
    else if kv.1 = "implementation_feasibility" then { s with implementation_feasibility_score := some kv.2 }
    else if kv.1 = "impact_potential" then { s with impact_potential_score := some kv.2 }
    else s) sol
  { sol with improvement_suggestions := t.improvement_suggestions }

/-- `Orchestrator._evaluate_solution`. -/
def orch_evaluate_solution (ag : Agents) (us : UserState) (message : String) :
    OrchM (UserState × String) := do
  let problem ← load_problem_definition us.user_id us.problem_id
  let choose_sid : OrchM String :=
    if optStrTruthy us.solution_id then pure (us.solution_id.getD "")
    else freshUuid "sol_"
  let solution_id ← choose_sid
  let problem_id ← requireStr "SolutionDesign.problem_id" us.problem_id
  let project_id ← requireStr "SolutionDesign.project_id" us.project_id
  let solution : SolutionDesign :=
    { solution_id := solution_id, problem_id := problem_id,
      project_id := project_id, user_id := us.user_id,
      solution_approach := pyTake message 500,
      key_components := ["Component 1", "Component 2"],
      methodology := if message.length > 500 then pyDrop message 500 else "To be refined",
      expected_outcomes := ["Outcome 1"] }
  let request_id ← freshUuid "req_"
  let tutor_output ← runTutor ag
    { user_id := us.user_id, request_id := request_id, project_id := project_id,
      mode := "solution", solution_design := some solution,
      problem_context := problem }
  let solution1 := applySolutionEval solution tutor_output
  let us1 :=
    if optStrTruthy us.solution_id then us
    else { us with solution_id := some solution1.solution_id }
  save_solution_design solution1
  let us2 := { us1 with context := { us1.context with solution_submitted := true } }
  if tutor_output.evaluation_passed then do
    save_solution_design solution1
    let us3 := { us2 with solution_approved := true }
    save_user_state us3
    let r ← transition_to_execution ag us3
    pure (r.1, generate_message "solution_feedback" ++ "\n\n" ++ r.2)
  else do
    save_user_state us2
    pure (us2, generate_message "solution_feedback")

/-- `Orchestrator._handle_solution_design`. -/
def handle_solution_design (ag : Agents) (us : UserState) (message : String) :
    OrchM (UserState × String) := do
  if us.context.solution_submitted = false then
    if us.context.awaiting_solution then
      orch_evaluate_solution ag us message
    else do
      let us' := { us with context := { us.context with awaiting_solution := true } }
      save_user_state us'
      pure (us', generate_message "solution_prompt")
  else if us.solution_approved = false then
    orch_evaluate_solution ag us message
  else
    pure (us, "Your solution design is already approved! Moving to execution...")

/-- `Orchestrator._transition_to_solution_design`. -/
def transition_to_solution_design (ag : Agents) (us : UserState) :
    OrchM (UserState × String) := do
  let us' ← transition_to us .solution_design "Problem approved"
  handle_solution_design ag us' ""

/-- The `setattr` loop of `_evaluate_problem`; problem-mode runs only ever
produce the three declared keys. -/
def applyProblemEval (p : ProblemDefinition) (t : ProblemSolutionTutorOutput) :
    ProblemDefinition :=
  let p := { p with evaluation_passed := t.evaluation_passed,
                    evaluation_feedback := some t.overall_feedback }
  let p := t.scores.foldl (fun q kv =>
    if kv.1 = "market_relevance" then { q with market_relevance_score := some kv.2 }
    else if kv.1 = "clarity" then { q with clarity_score := some kv.2 }
    else if kv.1 = "feasibility" then { q with feasibility_score := some kv.2 }
    else q) p
  { p with improvement_suggestions := t.improvement_suggestions }

/-- `Orchestrator._evaluate_problem`. -/
def orch_evaluate_problem (ag : Agents) (us : UserState) (message : String) :
    OrchM (UserState × String) := do
  let choose_pid : OrchM String :=
    if optStrTruthy us.problem_id then pure (us.problem_id.getD "")
    else freshUuid "prob_"
  let problem_id ← choose_pid
  let project_id ← requireStr "ProblemDefinition.project_id" us.project_id
  let problem : ProblemDefinition :=
    { problem_id := problem_id, project_id := project_id, user_id := us.user_id,
      problem_statement := pyTake message 500,
      target_audience := "To be refined",
      problem_context := if message.length > 500 then pyDrop message 500 else message,
      success_metrics := ["To be defined"] }
  let request_id ← freshUuid "req_"
  let tutor_output ← runTutor ag
    { user_id := us.user_id, request_id := request_id, project_id := project_id,
      mode := "problem", problem_definition := some problem }
  let problem1 := applyProblemEval problem tutor_output
  let us1 :=
    if optStrTruthy us.problem_id then us
    else { us with problem_id := some problem1.problem_id }
  save_problem_definition problem1
  let us2 := { us1 with context := { us1.context with problem_submitted := true } }
  if tutor_output.evaluation_passed then do
    save_problem_definition problem1
    let us3 := { us2 with problem_approved := true }
    save_user_state us3
    let r ← transition_to_solution_design ag us3
    pure (r.1, generate_message "problem_feedback" ++ "\n\n" ++ r.2)
  else do
    save_user_state us2
    pure (us2, generate_message "problem_feedback")

/-- `Orchestrator._handle_problem_definition`. -/
def handle_problem_definition (ag : Agents) (us : UserState) (message : String) :
    OrchM (UserState × String) := do
  if us.context.problem_submitted = false then
    if us.context.awaiting_problem then
      orch_evaluate_problem ag us message
    else do
      let us' := { us with context := { us.context with awaiting_problem := true } }
      save_user_state us'
      pure (us', generate_message "problem_prompt")
  else if us.problem_approved = false then
    orch_evaluate_problem ag us message
  else
    pure (us, "Your problem definition is already approved! Moving forward...")

/-- `Orchestrator._transition_to_problem_definition`. -/
def transition_to_problem_definition (ag : Agents) (us : UserState) :
    OrchM (UserState × String) := do
  let us' ← transition_to us .problem_definition "Project approved"
  handle_problem_definition ag us' ""

/-- The proposal-generation branch of `_handle_project_generation`
(entered when `project_id` is falsy; the source's recursive call
`self._handle_project_generation(user_state, "")` with `project_id=None`
always lands here, so the recursion is unfolded into this function). -/
def generateProject (ag : Agents) (us : UserState) : OrchM (UserState × String) := do
  let request_id ← freshUuid "req_"
  let target_role ← requireStr "ProjectGeneratorInput.target_role" us.target_role
  let target_domain ← requireStr "ProjectGeneratorInput.target_domain" us.target_domain
  let output ← runProjectGenerator ag
    { user_id := us.user_id, request_id := request_id,
      target_role := target_role, target_domain := target_domain,
      background := us.background, interests := us.interests }
  if output.success = false then
    pure (us, "I had trouble generating a project proposal. Let me try again...")
  else
    match output.proposal with
    | none => pure (us, "I had trouble generating a project proposal. Let me try again...")
    | some proposal => do
      let pid ← freshUuid "proj_"
      let project : Project :=
        { project_id := pid, user_id := us.user_id, proposal := proposal,
          status := "proposed" }
      save_project project
      let us' := { us with project_id := some project.project_id }
      save_user_state us'
      pure (us', generate_message "project_proposal")

/-- `Orchestrator._handle_project_generation`. -/
def handle_project_generation (ag : Agents) (us : UserState) (message : String) :
    OrchM (UserState × String) := do
  if optStrTruthy us.project_id = false then
    generateProject ag us
  else
    match parse_user_input_approval message with
    | some true => do
      let us' := { us with project_approved := true }
      save_user_state us'
      transition_to_problem_definition ag us'
    | some false => do
      let us' := { us with project_id := none }
      save_user_state us'
      let r ← generateProject ag us'
      pure (r.1, "No problem! Let me create a different project for you...\n\n" ++ r.2)
    | none => pure (us, "I didn't catch that. Do you approve this project? (Yes/No)")

/-- `Orchestrator._transition_to_project_generation`. -/
def transition_to_project_generation (ag : Agents) (us : UserState) :
    OrchM (UserState × String) := do
  let us' ← transition_to us .project_generation "Onboarding completed"
  let r ← handle_project_generation ag us' ""
  pure (r.1, "Perfect! Now let me design a project tailored specifically for you...\n\n" ++ r.2)

/-- `Orchestrator._handle_onboarding` (reply prose abbreviated). -/
def handle_onboarding (ag : Agents) (us : UserState) (message : String) :
    OrchM (UserState × String) := do
  if optStrTruthy us.target_role = false then
    let welcome := generate_message "welcome"
    if message ≠ "" ∧ message.length > 10 then do
      let us' := { us with target_role := some message
                           context := { us.context with onboarding_step := some "domain" } }
      save_user_state us'
      pure (us', welcome ++ "\n\nGreat! Now, what industry or domain are you targeting? (e.g., FinTech, Healthcare, E-commerce)")
    else
      pure (us, welcome)
  else if optStrTruthy us.target_domain = false then do
    let us' := { us with target_domain := some message
                         context := { us.context with onboarding_step := some "background" } }
    save_user_state us'
    pure (us', "Perfect! To design the best project for you, it would help to know: your background (skip to skip)")
  else if optStrTruthy us.background = false then do
    let us' := { us with
      background := (if pyLower message ≠ "skip" then some message else us.background),
      context := { us.context with onboarding_step := some "interests" } }
    save_user_state us'
    pure (us', "Great! Last question: any specific interests or focus areas? (skip to skip)")
  else do
    let us' := { us with
      interests := (if pyLower message ≠ "skip" then some message else us.interests) }
    save_user_state us'
    transition_to_project_generation ag us'

/-- `Orchestrator._route_by_state` (the trailing `else` of the source is
unreachable: the enum is exhaustive). -/
def route_by_state (ag : Agents) (us : UserState) (message : String) :
    OrchM (UserState × String) :=
  match us.current_state with
  | .onboarding => handle_onboarding ag us message
  | .project_generation => handle_project_generation ag us message
  | .problem_definition => handle_problem_definition ag us message
  | .solution_design => handle_solution_design ag us message
  | .execution => handle_execution ag us message
  | .review => handle_review ag us message
  | .completed => handle_completed us message

/-- `Orchestrator._create_new_user_state`. -/
def create_new_user_state (user_id : String) : OrchM UserState := do
  let us : UserState := { user_id := user_id, current_state := .onboarding }
  save_user_state us
  pure us

/-- The routing tail of `Orchestrator.process_user_message`: route to the
current phase's handler, persist the final state, log the reply. -/
def procTail (ag : Agents) (user_id message : String) (us0 : UserState) :
    OrchM String := do
  let r ← route_by_state ag us0 message
  save_user_state r.1
  log_agent_response user_id "MainChat" r.2
  pure r.2

/-- The `try` body of `Orchestrator.process_user_message`: log the inbound
message, load or create the Durable State, then run the routing tail. -/
def processBody (ag : Agents) (user_id message : String) : OrchM String := do
  log_user_message user_id message
  let us0? ← load_user_state user_id
  let us0 ← match us0? with
    | some us => pure us
    | none => create_new_user_state user_id
  procTail ag user_id message us0

/-- `Orchestrator.process_user_message`: any exception during routing is
caught at the top level and converted into the apologetic reply; whatever
the body persisted before the fault remains persisted. -/
def process_user_message (ag : Agents) (user_id message : String) (w : World) :
    String × World :=
  match processBody ag user_id message w with
  | (.ok reply, w') => (reply, w')
  | (.error e, w') =>
    ("I encountered an error processing your message. Please try again. Error: "
      ++ e.str, w')

/-! ## The durable-state invariant (claim C9) -/

/-- Every phase is a member of the fixed 7-value phase set. -/
theorem mem_allStates (st : StateType) : st ∈ allStates := by
  cases st <;> simp [allStates]

/-- Foreign-key invariant of one user record against the store: each
phase foreign key, when non-null, names a record that has been created
(persisted) for that user. -/
def FKInv (s : Store) (us : UserState) : Prop :=
  (∀ pid, us.project_id = some pid → (s.projects (us.user_id, pid)).isSome = true) ∧
  (∀ pid, us.problem_id = some pid → (s.problems (us.user_id, pid)).isSome = true) ∧
  (∀ sid, us.solution_id = some sid → (s.solutions (us.user_id, sid)).isSome = true) ∧
  (∀ mid, us.current_milestone_id = some mid → (s.milestones (us.user_id, mid)).isSome = true) ∧
  (∀ rid, us.review_id = some rid → (s.reviews (us.user_id, rid)).isSome = true)

/-- The store invariant: every persisted Durable State is keyed by its own
user id, its phase is in the fixed phase set, and its foreign keys point at
created records. -/
def StoreInv (s : Store) : Prop :=
  ∀ uid us, s.userStates uid = some us →
    us.user_id = uid ∧ us.current_state ∈ allStates ∧ FKInv s us

/-- How a persisted Durable State may evolve: either the phase and recorded
previous phase are untouched, or the current/previous phase pair is
justified by an appended Transition Record along a valid edge of the phase
graph (the footprint of the guarded `_transition_to`). -/
def PhaseOK (s' : Store) (uid : String) (us us' : UserState) : Prop :=
  (us'.current_state = us.current_state ∧ us'.previous_state = us.previous_state) ∨
  (∃ tr : StateTransition, (uid, tr) ∈ s'.transitions ∧
    tr.to_state = us'.current_state ∧
    us'.previous_state = some tr.from_state ∧
    is_valid_transition tr.from_state tr.to_state = true)

/-- Store evolution as observed by one user across any run fragment:
persisted state is never deleted, the transition log is append-only, and
the phase evolves only as `PhaseOK` allows. -/
def EvOK (s s' : Store) (uid : String) : Prop :=
  ((s.userStates uid).isSome = true → (s'.userStates uid).isSome = true) ∧
  (∀ e ∈ s.transitions, e ∈ s'.transitions) ∧
  (∀ us us', s.userStates uid = some us → s'.userStates uid = some us' →
    PhaseOK s' uid us us')

theorem EvOK_refl (s : Store) (uid : String) : EvOK s s uid := by
  refine ⟨fun h => h, fun e he => he, fun us us' h h' => ?_⟩
  rw [h] at h'
  injection h' with h2
  exact Or.inl ⟨by rw [h2], by rw [h2]⟩

theorem EvOK.trans {s1 s2 s3 : Store} {uid : String}
    (h12 : EvOK s1 s2 uid) (h23 : EvOK s2 s3 uid) : EvOK s1 s3 uid := by
  obtain ⟨m12, t12, p12⟩ := h12
  obtain ⟨m23, t23, p23⟩ := h23
  refine ⟨fun h => m23 (m12 h), fun e he => t23 e (t12 e he), ?_⟩
  intro us us' h1 h3
  have h2some : (s2.userStates uid).isSome = true := m12 (by rw [h1]; rfl)
  rcases h2eq : s2.userStates uid with _ | us2
  · rw [h2eq] at h2some; simp at h2some
  have pA := p12 us us2 h1 h2eq
  have pB := p23 us2 us' h2eq h3
  rcases pA with ⟨ha1, ha2⟩ | ⟨tr, htr, hto, hprev, hvalid⟩
  · rcases pB with ⟨hb1, hb2⟩ | ⟨tr, htr, hto, hprev, hvalid⟩
    · exact Or.inl ⟨by rw [hb1, ha1], by rw [hb2, ha2]⟩
    · exact Or.inr ⟨tr, htr, hto, hprev, hvalid⟩
  · rcases pB with ⟨hb1, hb2⟩ | ⟨tr2, htr2, hto2, hprev2, hvalid2⟩
    · exact Or.inr ⟨tr, t23 _ htr, by rw [hb1, hto], by rw [hb2, hprev], hvalid⟩
    · exact Or.inr ⟨tr2, htr2, hto2, hprev2, hvalid2⟩

/-- Record stores only grow. -/
def RecMono (s s' : Store) : Prop :=
  (∀ k, (s.projects k).isSome = true → (s'.projects k).isSome = true) ∧
  (∀ k, (s.problems k).isSome = true → (s'.problems k).isSome = true) ∧
  (∀ k, (s.solutions k).isSome = true → (s'.solutions k).isSome = true) ∧
  (∀ k, (s.milestones k).isSome = true → (s'.milestones k).isSome = true) ∧
  (∀ k, (s.reviews k).isSome = true → (s'.reviews k).isSome = true)

theorem RecMono_refl (s : Store) : RecMono s s :=
  ⟨fun _ h => h, fun _ h => h, fun _ h => h, fun _ h => h, fun _ h => h⟩

theorem upd_isSome_mono {κ β : Type} [DecidableEq κ] (f : κ → Option β)
    (k : κ) (v : β) (q : κ) (h : (f q).isSome = true) :
    ((upd f k v) q).isSome = true := by
  unfold upd
  split <;> simp_all

theorem upd_self_isSome {κ β : Type} [DecidableEq κ] (f : κ → Option β)
    (k : κ) (v : β) : ((upd f k v) k).isSome = true := by
  unfold upd
  simp

theorem FKInv_of_recMono {s s' : Store} {us : UserState}
    (hmono : RecMono s s') (h : FKInv s us) : FKInv s' us := by
  obtain ⟨h1, h2, h3, h4, h5⟩ := h
  obtain ⟨m1, m2, m3, m4, m5⟩ := hmono
  exact ⟨fun pid hp => m1 _ (h1 pid hp), fun pid hp => m2 _ (h2 pid hp),
         fun sid hp => m3 _ (h3 sid hp), fun mid hp => m4 _ (h4 mid hp),
         fun rid hp => m5 _ (h5 rid hp)⟩

/-- A store change that only grows the record stores and leaves user states
and the transition log intact preserves `StoreInv` and is an `EvOK` step. -/
theorem StoreInv_of_recGrow {s s' : Store}
    (hst : s'.userStates = s.userStates)
    (hmono : RecMono s s') (hInv : StoreInv s) : StoreInv s' := by
  intro uid us h
  rw [hst] at h
  obtain ⟨e1, e2, e3⟩ := hInv uid us h
  exact ⟨e1, e2, FKInv_of_recMono hmono e3⟩

theorem EvOK_of_userStates_eq {s s' : Store}
    (hst : s'.userStates = s.userStates)
    (htr : ∀ e ∈ s.transitions, e ∈ s'.transitions) (uid : String) :
    EvOK s s' uid := by
  refine ⟨by rw [hst]; exact fun h => h, htr, ?_⟩
  intro us us' h h'
  rw [hst, h] at h'
  injection h' with h2
  exact Or.inl ⟨by rw [h2], by rw [h2]⟩

/-- Saving a user record: effect on `StoreInv` (the record stores are
untouched, so other users' `FKInv` carries over; the saved record must be
well-keyed and FK-consistent). -/
theorem StoreInv_saveUser {s : Store} {us : UserState}
    (hInv : StoreInv s) (hFK : FKInv s us) : StoreInv (saveUserStore s us) := by
  intro uid u h
  unfold saveUserStore at h
  dsimp only at h
  unfold upd at h
  split at h
  · injection h with h2
    rw [← h2]
    rename_i heq
    exact ⟨heq.symm, mem_allStates _, by
      unfold saveUserStore FKInv
      dsimp only
      exact hFK⟩
  · obtain ⟨e1, e2, e3⟩ := hInv uid u h
    exact ⟨e1, e2, by unfold saveUserStore FKInv; dsimp only; exact e3⟩

/-- Saving a user record whose phase and previous phase agree with whatever
is currently stored under its key is an `EvOK` step. -/
theorem EvOK_saveUser_same {s : Store} {us : UserState} {uid : String}
    (hsame : ∀ usS, s.userStates us.user_id = some usS →
      usS.current_state = us.current_state ∧ usS.previous_state = us.previous_state) :
    EvOK s (saveUserStore s us) uid := by
  unfold saveUserStore
  refine ⟨?_, fun e he => he, ?_⟩
  · dsimp only
    intro h
    unfold upd
    split <;> simp_all
  · intro u u' h h'
    dsimp only at h'
    unfold upd at h'
    split at h'
    · rename_i heq
      injection h' with h2
      rw [heq] at h
      have := hsame u h
      exact Or.inl ⟨by rw [← h2, this.1], by rw [← h2, this.2]⟩
    · rw [h] at h'
      injection h' with h2
      exact Or.inl ⟨by rw [h2], by rw [h2]⟩

/-- Saving the post-transition user record right after appending its
Transition Record is an `EvOK` step. -/
theorem EvOK_saveUser_transition {s : Store} {us : UserState} {uid : String}
    {tr : StateTransition}
    (htr : (us.user_id, tr) ∈ s.transitions)
    (hto : tr.to_state = us.current_state)
    (hprev : us.previous_state = some tr.from_state)
    (hvalid : is_valid_transition tr.from_state tr.to_state = true) :
    EvOK s (saveUserStore s us) uid := by
  unfold saveUserStore
  refine ⟨?_, fun e he => he, ?_⟩
  · dsimp only
    intro h
    unfold upd
    split <;> simp_all
  · intro u u' h h'
    dsimp only at h'
    unfold upd at h'
    split at h'
    · rename_i heq
      injection h' with h2
      refine Or.inr ⟨tr, ?_, by rw [← h2, hto], by rw [← h2]; exact hprev, hvalid⟩
      rw [heq]
      exact htr
    · rw [h] at h'
      injection h' with h2
      exact Or.inl ⟨by rw [h2], by rw [h2]⟩

/-! ### Symbolic execution helpers -/

@[simp] theorem OrchM_bind_apply {α β : Type} (m : OrchM α) (f : α → OrchM β)
    (w : World) :
    (m >>= f) w =
      match m w with
      | (.ok a, w') => f a w'
      | (.error e, w') => (.error e, w') := rfl

@[simp] theorem OrchM_pure_apply {α : Type} (a : α) (w : World) :
    (pure a : OrchM α) w = (.ok a, w) := rfl

/-- The in-memory working state of a handler is consistent with the store:
it carries the processed user's id, its foreign keys point at created
records, the whole store satisfies the invariant, and its phase agrees with
whatever is persisted under its key. -/
def Good (uid : String) (us : UserState) (s : Store) : Prop :=
  us.user_id = uid ∧ FKInv s us ∧ StoreInv s ∧
  (∀ usS, s.userStates uid = some usS →
    usS.current_state = us.current_state ∧ usS.previous_state = us.previous_state)

/-- The handler contract used to prove C9: starting from a consistent
working state, the computation preserves the store invariant, evolves the
store as `EvOK` allows, and on normal return leaves a consistent working
state. -/
def HandlerOK (uid : String) (us : UserState) (m : OrchM (UserState × String)) : Prop :=
  ∀ w : World, Good uid us w.store →
    StoreInv (m w).2.store ∧ EvOK w.store (m w).2.store uid ∧
    (∀ p, (m w).1 = .ok p → Good uid p.1 (m w).2.store)

/-- A permitted transition is in particular a valid edge. -/
theorem is_valid_of_can_transition {a b : StateType} {d : Snapshot}
    (h : (can_transition a b d).1 = true) : is_valid_transition a b = true := by
  unfold can_transition at h
  by_cases hv : is_valid_transition a b = false
  · simp [hv] at h
  · simpa using hv

/-- A review carried by a reviewer response is keyed by the request's
user. -/
theorem reviewerProcess_review_user_id {o : OracleFn} {inp : ReviewerInput}
    {t : Int} {c : Nat} {r : ArtifactReview}
    (h : (reviewerProcess o inp t c).1.review = some r) : r.user_id = inp.user_id := by
  unfold reviewerProcess at h
  rcases hb : reviewerProcessBody o inp t c with ⟨res, c2⟩
  rw [hb] at h
  rcases res with e | out
  · simp at h
  · dsimp only at h
    unfold reviewerProcessBody at hb
    split at hb
    · unfold review_artifacts at hb
      split at hb
      · simp at hb
      · rcases hc : call_llm o review_system_prompt (review_user_prompt inp) (3 / 10)
            with e2 | resp
        · rw [hc] at hb; simp at hb
        · rw [hc] at hb
          dsimp only at hb
          injection hb with hb1 hb2
          injection hb1 with h3
          rw [← h3] at h
          simp only [ReviewerOutput.review, Option.some.injEq] at h
          rw [← h]
          rfl
    · split at hb
      · injection hb with hb1 hb2
        unfold generate_resume at hb1
        split at hb1
        · simp at hb1
        · rcases hc : call_llm o resume_system_prompt (resume_user_prompt inp) (5 / 10)
              with e2 | resp
          · rw [hc] at hb1; simp [Bind.bind, Except.bind] at hb1
          · rw [hc] at hb1
            simp only [Bind.bind, Except.bind, pure, Except.pure] at hb1
            injection hb1 with h3
            rw [← h3] at h
            simp at h
      · injection hb with hb1 hb2
        simp at hb1

/-- Per-milestone user ids produced by the milestone scan. -/
def MsAccUid (inp : ExecutionCoachInput) (a : MsAcc) : Prop :=
  (∀ m ∈ a.milestones, m.user_id = inp.user_id) ∧
  (∀ m, a.current = some m → m.user_id = inp.user_id)

theorem parse_milestones_line_uid (inp : ExecutionCoachInput) (t : Int)
    (line : String) {a : MsAcc} (h : MsAccUid inp a) :
    MsAccUid inp (parse_milestones_line inp t a line) := by
  obtain ⟨hms, hcur⟩ := h
  unfold parse_milestones_line
  dsimp only
  split
  · constructor
    · intro m hm
      rcases List.mem_append.mp hm with h1 | h1
      · exact hms m h1
      · rcases ha : a.current with _ | c
        · rw [ha] at h1; simp at h1
        · rw [ha] at h1; simp at h1
          rw [h1]; exact hcur c ha
    · intro m hm
      simp only [Option.some.injEq] at hm
      rw [← hm]
  · rcases ha : a.current with _ | c
    · exact ⟨hms, hcur⟩
    · have hcok := hcur c ha
      dsimp only
      split
      · exact ⟨hms, fun m hm => by
          simp only [Option.some.injEq] at hm
          rw [← hm]; exact hcok⟩
      · split
        · exact ⟨hms, fun m hm => by
            simp only [Option.some.injEq] at hm
            rw [← hm]; exact hcok⟩
        · split
          · split
            · exact ⟨hms, hcur⟩
            · exact ⟨hms, fun m hm => by
                simp only [Option.some.injEq] at hm
                rw [← hm]; exact hcok⟩
          · split
            · exact ⟨hms, fun m hm => by
                simp only [Option.some.injEq] at hm
                rw [← hm]; exact hcok⟩
            · exact ⟨hms, hcur⟩

theorem parse_milestones_foldl_uid (inp : ExecutionCoachInput) (t : Int) :
    ∀ (lines : List String) {a : MsAcc}, MsAccUid inp a →
      MsAccUid inp (lines.foldl (parse_milestones_line inp t) a)
  | [], _, h => h
  | line :: rest, _, h =>
    parse_milestones_foldl_uid inp t rest (parse_milestones_line_uid inp t line h)

theorem msFillers_uid (inp : ExecutionCoachInput) (t : Int) :
    ∀ (n o c : Nat), ∀ m ∈ msFillers inp t n o c, m.user_id = inp.user_id
  | 0, _, _ => by intro m hm; simp [msFillers] at hm
  | n + 1, o, c => by
    intro m hm
    rcases List.mem_cons.mp hm with h | h
    · rw [h]
    · exact msFillers_uid inp t n (o + 1) (c + 1) m h

/-- Every milestone from `_parse_milestones` is keyed by the requesting
user. -/
theorem parse_milestones_user_id (response : String) (inp : ExecutionCoachInput)
    (today : Int) (ctr : Nat) :
    ∀ m ∈ (parse_milestones response inp today ctr).1, m.user_id = inp.user_id := by
  intro m hm
  unfold parse_milestones at hm
  have hacc := parse_milestones_foldl_uid inp today (pyLines response)
    (a := ⟨[], none, 0, ctr⟩) ⟨by simp, by simp⟩
  set A := (pyLines response).foldl (parse_milestones_line inp today)
    ⟨[], none, 0, ctr⟩ with hA
  have hflushed : ∀ x ∈ A.milestones ++
      (match A.current with | some c => [c] | none => []), x.user_id = inp.user_id := by
    intro x hx
    rcases List.mem_append.mp hx with h1 | h1
    · exact hacc.1 x h1
    · rcases hc : A.current with _ | c
      · rw [hc] at h1; simp at h1
      · rw [hc] at h1; simp at h1
        rw [h1]; exact hacc.2 c hc
  dsimp only at hm
  split at hm
  · rcases List.mem_append.mp hm with h1 | h1
    · exact hflushed m h1
    · exact msFillers_uid inp _ _ _ _ m h1
  · exact hflushed m hm

/-- Every milestone carried by a coach response is keyed by the request's
user. -/
theorem coachProcess_milestones_user_id {o : OracleFn} {inp : ExecutionCoachInput}
    {t : Int} {c : Nat} {m : Milestone}
    (hm : m ∈ (coachProcess o inp t c).1.milestones) : m.user_id = inp.user_id := by
  unfold coachProcess at hm
  rcases hb : coachProcessBody o inp t c with ⟨res, c2⟩
  rw [hb] at hm
  rcases res with e | out
  · simp at hm
  · dsimp only at hm
    unfold coachProcessBody at hb
    split at hb
    · rename_i hact
      obtain ⟨h1, _h2⟩ := create_execution_plan_ok hb
      rw [h1] at hm
      exact parse_milestones_user_id _ inp t c m hm
    · split at hb
      · injection hb with hb1 hb2
        unfold update_progress at hb1
        split at hb1
        · simp at hb1
        · split at hb1
          · simp at hb1
          · rcases hc2 : call_llm o progress_evaluation_prompt
                (progress_user_prompt _ inp) (5 / 10) with e2 | resp
            · rw [hc2] at hb1; simp [bind, Except.bind] at hb1
            · rw [hc2] at hb1
              simp only [bind, Except.bind] at hb1
              injection hb1 with h3
              rw [← h3] at hm
              simp at hm
      · split at hb
        · injection hb with hb1 hb2
          injection hb1 with h3
          rw [← h3] at hm
          simp [get_next_action] at hm
        · simp at hb

/-- The milestone-store footprint of the `save_milestone` loop. -/
def multiUpdMs (f : String × String → Option Milestone) :
    List Milestone → (String × String → Option Milestone)
  | [] => f
  | m :: rest => multiUpdMs (upd f (m.user_id, m.milestone_id) m) rest

theorem saveMilestones_run : ∀ (list : List Milestone) (w : World),
    saveMilestones list w =
      (.ok (), { w with store :=
        { w.store with milestones := multiUpdMs w.store.milestones list } })
  | [], w => rfl
  | m :: rest, w => by
    show (save_milestone m >>= fun _ => saveMilestones rest) w = _
    simp only [OrchM_bind_apply]
    rw [show save_milestone m w = (.ok (), { w with store :=
      { w.store with milestones := upd w.store.milestones (m.user_id, m.milestone_id) m } })
      from rfl]
    exact saveMilestones_run rest _

theorem multiUpdMs_mono : ∀ (l : List Milestone)
    (f : String × String → Option Milestone) (k : String × String),
    (f k).isSome = true → ((multiUpdMs f l) k).isSome = true
  | [], _, _, h => h
  | m :: rest, f, k, h =>
    multiUpdMs_mono rest _ k (upd_isSome_mono f _ _ k h)

theorem multiUpdMs_mem : ∀ (l : List Milestone)
    (f : String × String → Option Milestone),
    ∀ m ∈ l, ((multiUpdMs f l) (m.user_id, m.milestone_id)).isSome = true
  | [], _ => by intro m hm; simp at hm
  | m0 :: rest, f => by
    intro m hm
    rcases List.mem_cons.mp hm with h | h
    · rw [h]
      exact multiUpdMs_mono rest _ _ (upd_self_isSome f _ _)
    · exact multiUpdMs_mem rest _ m h

/-- `_transition_to` preserves the invariant and is a legal store
evolution; the returned working state is again consistent. -/
theorem transition_to_spec (uid : String) (us : UserState) (to_state : StateType)
    (reason : String) (w : World) (hG : Good uid us w.store) :
    StoreInv (transition_to us to_state reason w).2.store ∧
    EvOK w.store (transition_to us to_state reason w).2.store uid ∧
    (∀ r, (transition_to us to_state reason w).1 = .ok r →
      Good uid r (transition_to us to_state reason w).2.store) := by
  obtain ⟨hid, hFK, hInv, hagree⟩ := hG
  unfold transition_to
  dsimp only
  by_cases hc : (can_transition us.current_state to_state us.model_dump).1 = false
  · rw [if_pos hc]
    exact ⟨hInv, EvOK_refl _ _, fun r hr => by
      injection hr with h2
      rw [← h2]
      exact ⟨hid, hFK, hInv, hagree⟩⟩
  · rw [if_neg hc]
    have hvalid : is_valid_transition us.current_state to_state = true := by
      apply is_valid_of_can_transition (d := us.model_dump)
      rcases h : (can_transition us.current_state to_state us.model_dump).1
      · exact absurd h hc
      · rfl
    have h1 : EvOK w.store
        { w.store with transitions :=
          (us.user_id, ⟨us.current_state, to_state, reason⟩) :: w.store.transitions } uid := by
      refine EvOK_of_userStates_eq ?_ (fun e he => List.mem_cons_of_mem _ he) uid
      rfl
    have h2 : EvOK
        { w.store with transitions :=
          (us.user_id, ⟨us.current_state, to_state, reason⟩) :: w.store.transitions }
        (saveUserStore
          { w.store with transitions :=
            (us.user_id, ⟨us.current_state, to_state, reason⟩) :: w.store.transitions }
          { us with previous_state := some us.current_state, current_state := to_state }) uid :=
      EvOK_saveUser_transition
        (List.mem_cons_self (us.user_id, (⟨us.current_state, to_state, reason⟩ : StateTransition)) _)
        rfl rfl hvalid
    refine ⟨?_, ?_, ?_⟩
    · show StoreInv (saveUserStore
        { w.store with transitions :=
          (us.user_id, ⟨us.current_state, to_state, reason⟩) :: w.store.transitions }
        { us with previous_state := some us.current_state, current_state := to_state })
      exact StoreInv_saveUser hInv hFK
    · show EvOK w.store (saveUserStore
        { w.store with transitions :=
          (us.user_id, ⟨us.current_state, to_state, reason⟩) :: w.store.transitions }
        { us with previous_state := some us.current_state, current_state := to_state }) uid
      exact EvOK.trans h1 h2
    · intro r hr
      have hr' : (Except.ok { us with previous_state := some us.current_state, current_state := to_state } : Except PyErr UserState) = .ok r := hr
      injection hr' with h3
      rw [← h3]
      show Good uid
        { us with previous_state := some us.current_state, current_state := to_state }
        (saveUserStore
          { w.store with transitions :=
            (us.user_id, ⟨us.current_state, to_state, reason⟩) :: w.store.transitions }
          { us with previous_state := some us.current_state, current_state := to_state })
      refine ⟨hid, hFK, StoreInv_saveUser hInv hFK, ?_⟩
      intro usS hS
      have hS' : (if uid = us.user_id
          then some { us with previous_state := some us.current_state, current_state := to_state }
          else w.store.userStates uid) = some usS := hS
      rw [if_pos hid.symm] at hS'
      injection hS' with h4
      rw [← h4]
      exact ⟨rfl, rfl⟩

/-- A store change that leaves the user states untouched, only appends to
the transition log and only grows the record stores preserves a consistent
working state and is a legal evolution. -/
theorem Good_recGrow {uid : String} {us : UserState} {s s' : Store}
    (hst : s'.userStates = s.userStates)
    (htr : ∀ e ∈ s.transitions, e ∈ s'.transitions)
    (hmono : RecMono s s') (hG : Good uid us s) :
    Good uid us s' ∧ EvOK s s' uid := by
  obtain ⟨hid, hFK, hInv, hagree⟩ := hG
  refine ⟨⟨hid, FKInv_of_recMono hmono hFK, StoreInv_of_recGrow hst hmono hInv, ?_⟩,
    EvOK_of_userStates_eq hst htr uid⟩
  intro usS h
  rw [hst] at h
  exact hagree usS h

/-- Persisting a working state whose identity and phase data agree with the
previous working state yields a consistent new working state. -/
theorem Good_saveUser {uid : String} {us : UserState} {s : Store} (us' : UserState)
    (hid : us'.user_id = us.user_id)
    (hcur : us'.current_state = us.current_state)
    (hprev : us'.previous_state = us.previous_state)
    (hFK' : FKInv s us')
    (hG : Good uid us s) :
    Good uid us' (saveUserStore s us') ∧ EvOK s (saveUserStore s us') uid := by
  obtain ⟨hid0, hFK, hInv, hagree⟩ := hG
  constructor
  · refine ⟨hid.trans hid0, hFK', StoreInv_saveUser hInv hFK', ?_⟩
    intro usS h
    have h' : (if uid = us'.user_id then some us' else s.userStates uid) = some usS := h
    rw [if_pos (hid.trans hid0).symm] at h'
    injection h' with h2
    rw [← h2]
    exact ⟨rfl, rfl⟩
  · apply EvOK_saveUser_same
    intro usS h
    rw [hid, hid0] at h
    have := hagree usS h
    exact ⟨this.1.trans hcur.symm, this.2.trans hprev.symm⟩

/-- Upgrading the working state in place: any state sharing the identity
and phase data whose foreign keys are valid in the current store is again
consistent. -/
theorem Good_switch {uid : String} {us : UserState} {s : Store} (us' : UserState)
    (hid : us'.user_id = us.user_id)
    (hcur : us'.current_state = us.current_state)
    (hprev : us'.previous_state = us.previous_state)
    (hFK' : FKInv s us') (hG : Good uid us s) : Good uid us' s :=
  ⟨hid.trans hG.1, hFK', hG.2.2.1, fun usS h =>
    ⟨(hG.2.2.2 usS h).1.trans hcur.symm, (hG.2.2.2 usS h).2.trans hprev.symm⟩⟩

theorem RecMono_projects (s : Store) (k : String × String) (v : Project) :
    RecMono s { s with projects := upd s.projects k v } :=
  ⟨fun q h => upd_isSome_mono _ _ _ q h, fun _ h => h, fun _ h => h, fun _ h => h,
   fun _ h => h⟩

theorem RecMono_problems (s : Store) (k : String × String) (v : ProblemDefinition) :
    RecMono s { s with problems := upd s.problems k v } :=
  ⟨fun _ h => h, fun q h => upd_isSome_mono _ _ _ q h, fun _ h => h, fun _ h => h,
   fun _ h => h⟩

theorem RecMono_solutions (s : Store) (k : String × String) (v : SolutionDesign) :
    RecMono s { s with solutions := upd s.solutions k v } :=
  ⟨fun _ h => h, fun _ h => h, fun q h => upd_isSome_mono _ _ _ q h, fun _ h => h,
   fun _ h => h⟩

theorem RecMono_milestones (s : Store) (k : String × String) (v : Milestone) :
    RecMono s { s with milestones := upd s.milestones k v } :=
  ⟨fun _ h => h, fun _ h => h, fun _ h => h, fun q h => upd_isSome_mono _ _ _ q h,
   fun _ h => h⟩

theorem RecMono_reviews (s : Store) (k : String × String) (v : ArtifactReview) :
    RecMono s { s with reviews := upd s.reviews k v } :=
  ⟨fun _ h => h, fun _ h => h, fun _ h => h, fun _ h => h,
   fun q h => upd_isSome_mono _ _ _ q h⟩

theorem RecMono_milestonesMulti (s : Store) (l : List Milestone) :
    RecMono s { s with milestones := multiUpdMs s.milestones l } :=
  ⟨fun _ h => h, fun _ h => h, fun _ h => h, fun q h => multiUpdMs_mono l _ q h,
   fun _ h => h⟩

/-- Returning the working state unchanged satisfies the handler contract. -/
theorem HandlerOK_pure (uid : String) (us : UserState) (msg : String) :
    HandlerOK uid us (pure (us, msg)) := by
  intro w hG
  refine ⟨hG.2.2.1, EvOK_refl _ _, ?_⟩
  intro p hp
  injection hp with h2
  rw [← h2]
  exact hG

/-- Sequencing with a store-preserving step (a load, a fresh uuid draw, an
agent run, a pydantic check). -/
theorem HandlerOK_bind_pres {α : Type} {uid : String} {us : UserState} {m : OrchM α}
    {k : α → OrchM (UserState × String)}
    (hp : ∀ w, ((m w).2).store = w.store)
    (hk : ∀ a w, (m w).1 = Except.ok a → HandlerOK uid us (k a)) :
    HandlerOK uid us (m >>= k) := by
  intro w hG
  rcases hmw : m w with ⟨res, w1⟩
  have hw1 : w1.store = w.store := by
    have := hp w
    rw [hmw] at this
    exact this
  cases res with
  | error e =>
    have hrun : (m >>= k) w = (.error e, w1) := by rw [OrchM_bind_apply, hmw]
    rw [hrun]
    exact ⟨by rw [hw1]; exact hG.2.2.1, by rw [hw1]; exact EvOK_refl _ _,
      fun p hp2 => Except.noConfusion hp2⟩
  | ok a =>
    have hrun : (m >>= k) w = k a w1 := by rw [OrchM_bind_apply, hmw]
    rw [hrun]
    have hG1 : Good uid us w1.store := by rw [hw1]; exact hG
    obtain ⟨s1, e1, g1⟩ := hk a w (by rw [hmw]) w1 hG1
    rw [hw1] at e1
    exact ⟨s1, e1, g1⟩

/-- Post-composing with a pure reply transformation. -/
theorem HandlerOK_map {uid : String} {us : UserState} {m : OrchM (UserState × String)}
    (h : HandlerOK uid us m) (g : UserState × String → String) :
    HandlerOK uid us (m >>= fun r => pure (r.1, g r)) := by
  intro w hG
  obtain ⟨s1, e1, g1⟩ := h w hG
  rcases hmw : m w with ⟨res, w1⟩
  rw [hmw] at s1 e1 g1
  cases res with
  | error e =>
    have hrun : (m >>= fun r => pure (r.1, g r)) w = (.error e, w1) := by
      rw [OrchM_bind_apply, hmw]
    rw [hrun]
    exact ⟨s1, e1, fun p hp => Except.noConfusion hp⟩
  | ok r =>
    have hrun : (m >>= fun r => pure (r.1, g r)) w = (.ok (r.1, g r), w1) := by
      rw [OrchM_bind_apply, hmw]
      rfl
    rw [hrun]
    refine ⟨s1, e1, ?_⟩
    intro p hp
    injection hp with h2
    rw [← h2]
    exact g1 r rfl

/-- Sequencing with a `Unit` step that only grows the record stores (a
record save). -/
theorem HandlerOK_bind_grow {uid : String} {us : UserState} {m : OrchM Unit}
    {k : Unit → OrchM (UserState × String)}
    (hst : ∀ w, ((m w).2).store.userStates = w.store.userStates)
    (htr : ∀ w, ∀ e ∈ w.store.transitions, e ∈ ((m w).2).store.transitions)
    (hmono : ∀ w, RecMono w.store ((m w).2).store)
    (hk : HandlerOK uid us (k ())) :
    HandlerOK uid us (m >>= k) := by
  intro w hG
  rcases hmw : m w with ⟨res, w1⟩
  have hst' : w1.store.userStates = w.store.userStates := by
    have := hst w; rw [hmw] at this; exact this
  have htr' : ∀ e ∈ w.store.transitions, e ∈ w1.store.transitions := by
    have := htr w; rw [hmw] at this; exact this
  have hmono' : RecMono w.store w1.store := by
    have := hmono w; rw [hmw] at this; exact this
  obtain ⟨hG1, hE1⟩ := Good_recGrow hst' htr' hmono' hG
  cases res with
  | error e =>
    have hrun : (m >>= k) w = (.error e, w1) := by rw [OrchM_bind_apply, hmw]
    rw [hrun]
    exact ⟨hG1.2.2.1, hE1, fun p hp => Except.noConfusion hp⟩
  | ok a =>
    cases a
    have hrun : (m >>= k) w = k () w1 := by rw [OrchM_bind_apply, hmw]
    rw [hrun]
    obtain ⟨s2, e2, g2⟩ := hk w1 hG1
    exact ⟨s2, EvOK.trans hE1 e2, g2⟩

/-- A record-creating step followed by a working-state upgrade: the step
only grows the record stores and makes the new working state's foreign
keys valid (the foreign key is set only after the record is created). -/
theorem HandlerOK_grow_switch {uid : String} {us : UserState} {m : OrchM Unit}
    (us' : UserState) {k : Unit → OrchM (UserState × String)}
    (hst : ∀ w, ((m w).2).store.userStates = w.store.userStates)
    (htr : ∀ w, ∀ e ∈ w.store.transitions, e ∈ ((m w).2).store.transitions)
    (hmono : ∀ w, RecMono w.store ((m w).2).store)
    (hid : us'.user_id = us.user_id)
    (hcur : us'.current_state = us.current_state)
    (hprev : us'.previous_state = us.previous_state)
    (hFK' : ∀ w, Good uid us w.store → FKInv ((m w).2).store us')
    (hk : HandlerOK uid us' (k ())) :
    HandlerOK uid us (m >>= k) := by
  intro w hG
  rcases hmw : m w with ⟨res, w1⟩
  have hst' : w1.store.userStates = w.store.userStates := by
    have := hst w; rw [hmw] at this; exact this
  have htr' : ∀ e ∈ w.store.transitions, e ∈ w1.store.transitions := by
    have := htr w; rw [hmw] at this; exact this
  have hmono' : RecMono w.store w1.store := by
    have := hmono w; rw [hmw] at this; exact this
  have hFK1 : FKInv w1.store us' := by
    have := hFK' w hG; rw [hmw] at this; exact this
  obtain ⟨hG1, hE1⟩ := Good_recGrow hst' htr' hmono' hG
  have hG1' : Good uid us' w1.store := Good_switch us' hid hcur hprev hFK1 hG1
  cases res with
  | error e =>
    have hrun : (m >>= k) w = (.error e, w1) := by rw [OrchM_bind_apply, hmw]
    rw [hrun]
    exact ⟨hG1.2.2.1, hE1, fun p hp => Except.noConfusion hp⟩
  | ok a =>
    cases a
    have hrun : (m >>= k) w = k () w1 := by rw [OrchM_bind_apply, hmw]
    rw [hrun]
    obtain ⟨s2, e2, g2⟩ := hk w1 hG1'
    exact ⟨s2, EvOK.trans hE1 e2, g2⟩

/-- Sequencing with persisting a working state that keeps the identity,
phase data and foreign-key validity of the current one. -/
theorem HandlerOK_bind_saveUser {uid : String} {us : UserState} (us' : UserState)
    {k : Unit → OrchM (UserState × String)}
    (hid : us'.user_id = us.user_id)
    (hcur : us'.current_state = us.current_state)
    (hprev : us'.previous_state = us.previous_state)
    (hFK' : ∀ s, FKInv s us → FKInv s us')
    (hk : HandlerOK uid us' (k ())) :
    HandlerOK uid us (save_user_state us' >>= k) := by
  intro w hG
  have hrun : (save_user_state us' >>= k) w =
      k () { w with store := saveUserStore w.store us' } := rfl
  rw [hrun]
  obtain ⟨hg', he'⟩ := Good_saveUser us' hid hcur hprev (hFK' w.store hG.2.1) hG
  obtain ⟨s1, e1, g1⟩ := hk { w with store := saveUserStore w.store us' } hg'
  exact ⟨s1, EvOK.trans he' e1, g1⟩

/-- Sequencing with the guarded phase transition. -/
theorem HandlerOK_bind_transition {uid : String} {us : UserState}
    (to_state : StateType) (reason : String)
    {k : UserState → OrchM (UserState × String)}
    (hk : ∀ us', HandlerOK uid us' (k us')) :
    HandlerOK uid us (transition_to us to_state reason >>= k) := by
  intro w hG
  obtain ⟨s1, e1, g1⟩ := transition_to_spec uid us to_state reason w hG
  rcases hmw : transition_to us to_state reason w with ⟨res, w1⟩
  rw [hmw] at s1 e1 g1
  cases res with
  | error e =>
    have hrun : (transition_to us to_state reason >>= k) w = (.error e, w1) := by
      rw [OrchM_bind_apply, hmw]
    rw [hrun]
    exact ⟨s1, e1, fun p hp => Except.noConfusion hp⟩
  | ok r =>
    have hrun : (transition_to us to_state reason >>= k) w = k r w1 := by
      rw [OrchM_bind_apply, hmw]
    rw [hrun]
    obtain ⟨s2, e2, g2⟩ := hk r w1 (g1 r rfl)
    exact ⟨s2, EvOK.trans e1 e2, g2⟩

theorem requireStr_pres (field : String) (o : Option String) (w : World) :
    (((requireStr field o) w).2).store = w.store := by
  cases o <;> rfl

/-- The `setattr` score loop of the solution evaluation touches only score
fields: the record's keys are unchanged. -/
theorem solEvalFold_keys : ∀ (l : List (String × ℚ)) (s : SolutionDesign),
    (l.foldl (fun s kv =>
      if kv.1 = "logical_coherence" then { s with logical_coherence_score := some kv.2 }
      else if kv.1 = "innovation" then { s with innovation_score := some kv.2 }
      else if kv.1 = "implementation_feasibility" then { s with implementation_feasibility_score := some kv.2 }
      else if kv.1 = "impact_potential" then { s with impact_potential_score := some kv.2 }
      else s) s).user_id = s.user_id ∧
    (l.foldl (fun s kv =>
      if kv.1 = "logical_coherence" then { s with logical_coherence_score := some kv.2 }
      else if kv.1 = "innovation" then { s with innovation_score := some kv.2 }
      else if kv.1 = "implementation_feasibility" then { s with implementation_feasibility_score := some kv.2 }
      else if kv.1 = "impact_potential" then { s with impact_potential_score := some kv.2 }
      else s) s).solution_id = s.solution_id
  | [], _ => ⟨rfl, rfl⟩
  | kv :: rest, s => by
    rw [List.foldl_cons]
    refine ⟨(solEvalFold_keys rest _).1.trans ?_, (solEvalFold_keys rest _).2.trans ?_⟩ <;>
      (dsimp only; repeat' split) <;> rfl

theorem applySolutionEval_keys (sol : SolutionDesign) (t : ProblemSolutionTutorOutput) :
    (applySolutionEval sol t).user_id = sol.user_id ∧
    (applySolutionEval sol t).solution_id = sol.solution_id := by
  unfold applySolutionEval
  exact ⟨(solEvalFold_keys t.scores _).1, (solEvalFold_keys t.scores _).2⟩

/-- The `setattr` score loop of the problem evaluation touches only score
fields: the record's keys are unchanged. -/
theorem probEvalFold_keys : ∀ (l : List (String × ℚ)) (p : ProblemDefinition),
    (l.foldl (fun q kv =>
      if kv.1 = "market_relevance" then { q with market_relevance_score := some kv.2 }
      else if kv.1 = "clarity" then { q with clarity_score := some kv.2 }
      else if kv.1 = "feasibility" then { q with feasibility_score := some kv.2 }
      else q) p).user_id = p.user_id ∧
    (l.foldl (fun q kv =>
      if kv.1 = "market_relevance" then { q with market_relevance_score := some kv.2 }
      else if kv.1 = "clarity" then { q with clarity_score := some kv.2 }
      else if kv.1 = "feasibility" then { q with feasibility_score := some kv.2 }
      else q) p).problem_id = p.problem_id
  | [], _ => ⟨rfl, rfl⟩
  | kv :: rest, p => by
    rw [List.foldl_cons]
    refine ⟨(probEvalFold_keys rest _).1.trans ?_, (probEvalFold_keys rest _).2.trans ?_⟩ <;>
      (dsimp only; repeat' split) <;> rfl

theorem applyProblemEval_keys (p : ProblemDefinition) (t : ProblemSolutionTutorOutput) :
    (applyProblemEval p t).user_id = p.user_id ∧
    (applyProblemEval p t).problem_id = p.problem_id := by
  unfold applyProblemEval
  exact ⟨(probEvalFold_keys t.scores _).1, (probEvalFold_keys t.scores _).2⟩

/-! ### Handler contracts (claim C9), in dependency order -/

theorem handle_completed_ok (uid : String) (us : UserState) (message : String) :
    HandlerOK uid us (handle_completed us message) :=
  HandlerOK_pure uid us (generate_message "completion")

theorem transition_to_completed_ok (uid : String) (us : UserState) :
    HandlerOK uid us (transition_to_completed us) :=
  HandlerOK_bind_transition .completed "Resume generated"
    (fun us' => HandlerOK_pure uid us' "")

theorem orch_review_artifacts_ok (ag : Agents) (uid : String) (us : UserState)
    (message : String) :
    HandlerOK uid us (orch_review_artifacts ag us message) := by
  unfold orch_review_artifacts
  refine HandlerOK_bind_pres (fun w => rfl) ?_
  intro project _ _
  refine HandlerOK_bind_pres (fun w => rfl) ?_
  intro request_id _ _
  refine HandlerOK_bind_pres (requireStr_pres _ _) ?_
  intro project_id _ _
  refine HandlerOK_bind_pres (fun w => rfl) ?_
  intro reviewer_output w0 hok
  have hro : (reviewerProcess ag.oracle
      { user_id := us.user_id, request_id := request_id, project_id := project_id,
        action := "review_artifacts",
        submitted_artifacts := [ArtifactSubmission.mk "Project Deliverable" none message none],
        project_proposal := project.map Project.proposal } w0.today w0.uuidCounter).1 =
      reviewer_output := by
    injection hok with h
  by_cases hsucc : reviewer_output.success = false
  · rw [if_pos hsucc]
    exact HandlerOK_pure uid us _
  · rw [if_neg hsucc]
    rcases hrv : reviewer_output.review with _ | review
    · exact HandlerOK_pure uid us _
    · have hruid : review.user_id = us.user_id := by
        rw [← hro] at hrv
        exact reviewerProcess_review_user_id hrv
      refine HandlerOK_grow_switch
        { us with review_id := some review.review_id,
                  context := { us.context with artifacts_submitted := true } }
        (fun w => rfl) (fun w e he => he) (fun w => RecMono_reviews _ _ _)
        rfl rfl rfl ?_ ?_
      · intro w hG
        obtain ⟨f1, f2, f3, f4, f5⟩ := hG.2.1
        refine ⟨f1, f2, f3, f4, ?_⟩
        intro rid hr
        have hr' : some review.review_id = some rid := hr
        injection hr' with h2
        show ((upd w.store.reviews (review.user_id, review.review_id) review)
          (us.user_id, rid)).isSome = true
        rw [← h2, ← hruid]
        exact upd_self_isSome _ _ _
      · exact HandlerOK_bind_saveUser _ rfl rfl rfl (fun _ h => h)
          (HandlerOK_pure uid _ _)

theorem orch_generate_resume_ok (ag : Agents) (uid : String) (us : UserState) :
    HandlerOK uid us (orch_generate_resume ag us) := by
  unfold orch_generate_resume
  refine HandlerOK_bind_pres (fun w => rfl) ?_
  intro review _ _
  refine HandlerOK_bind_pres (fun w => rfl) ?_
  intro problem _ _
  refine HandlerOK_bind_pres (fun w => rfl) ?_
  intro solution _ _
  refine HandlerOK_bind_pres (fun w => rfl) ?_
  intro request_id _ _
  refine HandlerOK_bind_pres (requireStr_pres _ _) ?_
  intro project_id _ _
  refine HandlerOK_bind_pres (fun w => rfl) ?_
  intro reviewer_output _ _
  by_cases hsucc : reviewer_output.success = false
  · rw [if_pos hsucc]
    exact HandlerOK_pure uid us _
  · rw [if_neg hsucc]
    refine HandlerOK_bind_saveUser { us with resume_generated := true }
      rfl rfl rfl (fun _ h => h) ?_
    exact HandlerOK_map (transition_to_completed_ok uid _) _

theorem handle_review_ok (ag : Agents) (uid : String) (us : UserState)
    (message : String) :
    HandlerOK uid us (handle_review ag us message) := by
  unfold handle_review
  by_cases h1 : us.context.artifacts_submitted = false
  · rw [if_pos h1]
    by_cases h2 : us.context.awaiting_artifacts = true
    · rw [if_pos h2]
      exact orch_review_artifacts_ok ag uid us message
    · rw [if_neg h2]
      exact HandlerOK_bind_saveUser
        { us with context := { us.context with awaiting_artifacts := true } }
        rfl rfl rfl (fun _ h => h) (HandlerOK_pure uid _ _)
  · rw [if_neg h1]
    by_cases h3 : us.resume_generated = false
    · rw [if_pos h3]
      rcases happ : parse_user_input_approval message with _ | b
      · exact HandlerOK_pure uid us _
      · cases b
        · exact HandlerOK_pure uid us _
        · exact orch_generate_resume_ok ag uid us
    · rw [if_neg h3]
      exact HandlerOK_pure uid us _

theorem transition_to_review_ok (ag : Agents) (uid : String) (us : UserState) :
    HandlerOK uid us (transition_to_review ag us) :=
  HandlerOK_bind_transition .review "All milestones completed"
    (fun us' => handle_review_ok ag uid us' "")

theorem process_progress_update_ok (ag : Agents) (uid : String) (us : UserState)
    (message : String) :
    HandlerOK uid us (process_progress_update ag us message) := by
  unfold process_progress_update
  refine HandlerOK_bind_pres (fun w => rfl) ?_
  intro cm? _ _
  rcases cm? with _ | cm
  · exact HandlerOK_pure uid us _
  · refine HandlerOK_bind_pres (fun w => rfl) ?_
    intro request_id _ _
    refine HandlerOK_bind_pres (requireStr_pres _ _) ?_
    intro project_id _ _
    refine HandlerOK_bind_pres (fun w => rfl) ?_
    intro coach_output _ _
    rcases coach_output.milestone_status_update with _ | st
    · exact HandlerOK_bind_saveUser us rfl rfl rfl (fun _ h => h)
        (HandlerOK_pure uid us _)
    · refine HandlerOK_bind_grow (fun w => rfl) (fun w e he => he)
        (fun w => RecMono_milestones _ _ _) ?_
      split
      · show HandlerOK uid us
          (if us.total_milestones ≤ us.milestones_completed + 1 then
            save_user_state { us with milestones_completed := us.milestones_completed + 1 } >>=
              fun _ =>
                transition_to_review ag
                    { us with milestones_completed := us.milestones_completed + 1 } >>=
                  fun r => pure (r.1, coach_output.feedback ++ "\n\n" ++ r.2)
          else
            save_user_state { us with milestones_completed := us.milestones_completed + 1 } >>=
              fun _ =>
                pure ({ us with milestones_completed := us.milestones_completed + 1 },
                  generate_message "milestone_update"))
        split
        · exact HandlerOK_bind_saveUser
            { us with milestones_completed := us.milestones_completed + 1 }
            rfl rfl rfl (fun _ h => h)
            (HandlerOK_map (transition_to_review_ok ag uid _) _)
        · exact HandlerOK_bind_saveUser
            { us with milestones_completed := us.milestones_completed + 1 }
            rfl rfl rfl (fun _ h => h) (HandlerOK_pure uid _ _)
      · exact HandlerOK_bind_saveUser us rfl rfl rfl (fun _ h => h)
          (HandlerOK_pure uid us _)

theorem orch_create_execution_plan_ok (ag : Agents) (uid : String) (us : UserState) :
    HandlerOK uid us (orch_create_execution_plan ag us) := by
  unfold orch_create_execution_plan
  refine HandlerOK_bind_pres (fun w => rfl) ?_
  intro problem _ _
  refine HandlerOK_bind_pres (fun w => rfl) ?_
  intro solution _ _
  refine HandlerOK_bind_pres (fun w => rfl) ?_
  intro request_id _ _
  refine HandlerOK_bind_pres (requireStr_pres _ _) ?_
  intro project_id _ _
  refine HandlerOK_bind_pres (fun w => rfl) ?_
  intro coach_output w0 hok
  have hco : (coachProcess ag.oracle
      { user_id := us.user_id, request_id := request_id, project_id := project_id,
        action := "create_plan", problem_definition := problem,
        solution_design := solution } w0.today w0.uuidCounter).1 = coach_output := by
    injection hok with h
  have hmuid : ∀ m ∈ coach_output.milestones, m.user_id = us.user_id := by
    intro m hm
    rw [← hco] at hm
    exact coachProcess_milestones_user_id hm
  by_cases hsucc : coach_output.success = false
  · rw [if_pos hsucc]
    exact HandlerOK_pure uid us _
  · rw [if_neg hsucc]
    rcases hl : coach_output.milestones with _ | ⟨m0, rest⟩
    · intro w hG
      exact ⟨hG.2.2.1, EvOK_refl _ _, fun p hp => Except.noConfusion hp⟩
    · rw [hl] at hmuid
      refine HandlerOK_grow_switch
        { us with context := { us.context with execution_plan_created := true },
                  total_milestones := (m0 :: rest).length,
                  current_milestone_id := some m0.milestone_id }
        ?_ ?_ ?_ rfl rfl rfl ?_ ?_
      · intro w
        rw [saveMilestones_run]
      · intro w e he
        have hr : saveMilestones (m0 :: rest) w = (.ok (), { w with store :=
            { w.store with milestones := multiUpdMs w.store.milestones (m0 :: rest) } }) :=
          saveMilestones_run _ _
        rw [hr]
        exact he
      · intro w
        rw [saveMilestones_run]
        exact RecMono_milestonesMulti _ _
      · intro w hG
        rw [saveMilestones_run]
        obtain ⟨f1, f2, f3, f4, f5⟩ := hG.2.1
        refine ⟨f1, f2, f3, ?_, f5⟩
        intro mid hm
        have hm' : some m0.milestone_id = some mid := hm
        injection hm' with h2
        show ((multiUpdMs w.store.milestones (m0 :: rest)) (us.user_id, mid)).isSome = true
        rw [← h2, ← hmuid m0 (List.mem_cons_self _ _)]
        exact multiUpdMs_mem (m0 :: rest) _ m0 (List.mem_cons_self _ _)
      · refine HandlerOK_bind_pres (fun w => rfl) ?_
        intro first w1 hfok
        have h3 : m0 = first := by injection hfok with h
        rw [← h3]
        exact HandlerOK_bind_saveUser _ rfl rfl rfl (fun _ h => h)
          (HandlerOK_pure uid _ _)

theorem handle_execution_ok (ag : Agents) (uid : String) (us : UserState)
    (message : String) :
    HandlerOK uid us (handle_execution ag us message) := by
  unfold handle_execution
  split
  · exact orch_create_execution_plan_ok ag uid us
  · exact process_progress_update_ok ag uid us message

theorem transition_to_execution_ok (ag : Agents) (uid : String) (us : UserState) :
    HandlerOK uid us (transition_to_execution ag us) :=
  HandlerOK_bind_transition .execution "Solution approved"
    (fun us' => handle_execution_ok ag uid us' "")

/-- The persistence tail of `_evaluate_solution`: save the evaluated record,
set the foreign key (only when the solution was created this turn), persist,
and on a passed evaluation advance to execution. -/
theorem solutionEval_tail_ok (ag : Agents) (uid : String) (us : UserState)
    (solution1 : SolutionDesign) (b passed : Bool)
    (huid : solution1.user_id = us.user_id) :
    HandlerOK uid us (save_solution_design solution1 >>= fun _ =>
      (let us1 := if b = true then us
        else { us with solution_id := some solution1.solution_id };
      let us2 := { us1 with context := { us1.context with solution_submitted := true } };
      if passed = true then
        save_solution_design solution1 >>= fun _ =>
          (let us3 := { us2 with solution_approved := true };
          save_user_state us3 >>= fun _ =>
            transition_to_execution ag us3 >>= fun r =>
              pure (r.1, generate_message "solution_feedback" ++ "\n\n" ++ r.2))
      else
        save_user_state us2 >>= fun _ =>
          pure (us2, generate_message "solution_feedback"))) := by
  cases b
  · refine HandlerOK_grow_switch
      { us with solution_id := some solution1.solution_id,
                context := { us.context with solution_submitted := true } }
      (fun w => rfl) (fun w e he => he) (fun w => RecMono_solutions _ _ _)
      rfl rfl rfl ?_ ?_
    · intro w hG
      obtain ⟨f1, f2, f3, f4, f5⟩ := hG.2.1
      refine ⟨f1, f2, ?_, f4, f5⟩
      intro sid hsid
      have hsid' : some solution1.solution_id = some sid := hsid
      injection hsid' with h2
      show ((upd w.store.solutions (solution1.user_id, solution1.solution_id) solution1)
        (us.user_id, sid)).isSome = true
      rw [← h2, ← huid]
      exact upd_self_isSome _ _ _
    · show HandlerOK uid
        { us with solution_id := some solution1.solution_id,
                  context := { us.context with solution_submitted := true } }
        (if passed = true then
          save_solution_design solution1 >>= fun _ =>
            save_user_state
                { us with solution_id := some solution1.solution_id,
                          context := { us.context with solution_submitted := true },
                          solution_approved := true } >>= fun _ =>
              transition_to_execution ag
                  { us with solution_id := some solution1.solution_id,
                            context := { us.context with solution_submitted := true },
                            solution_approved := true } >>= fun r =>
                pure (r.1, generate_message "solution_feedback" ++ "\n\n" ++ r.2)
        else
          save_user_state
              { us with solution_id := some solution1.solution_id,
                        context := { us.context with solution_submitted := true } } >>= fun _ =>
            pure ({ us with solution_id := some solution1.solution_id,
                            context := { us.context with solution_submitted := true } },
              generate_message "solution_feedback"))
      split
      · refine HandlerOK_bind_grow (fun w => rfl) (fun w e he => he)
          (fun w => RecMono_solutions _ _ _) ?_
        exact HandlerOK_bind_saveUser _ rfl rfl rfl (fun _ h => h)
          (HandlerOK_map (transition_to_execution_ok ag uid _) _)
      · exact HandlerOK_bind_saveUser _ rfl rfl rfl (fun _ h => h)
          (HandlerOK_pure uid _ _)
  · refine HandlerOK_grow_switch
      { us with context := { us.context with solution_submitted := true } }
      (fun w => rfl) (fun w e he => he) (fun w => RecMono_solutions _ _ _)
      rfl rfl rfl ?_ ?_
    · intro w hG
      obtain ⟨f1, f2, f3, f4, f5⟩ := hG.2.1
      exact ⟨f1, f2, fun sid hp => upd_isSome_mono _ _ _ _ (f3 sid hp), f4, f5⟩
    · show HandlerOK uid
        { us with context := { us.context with solution_submitted := true } }
        (if passed = true then
          save_solution_design solution1 >>= fun _ =>
            save_user_state
                { us with context := { us.context with solution_submitted := true },
                          solution_approved := true } >>= fun _ =>
              transition_to_execution ag
                  { us with context := { us.context with solution_submitted := true },
                            solution_approved := true } >>= fun r =>
                pure (r.1, generate_message "solution_feedback" ++ "\n\n" ++ r.2)
        else
          save_user_state
              { us with context := { us.context with solution_submitted := true } } >>= fun _ =>
            pure ({ us with context := { us.context with solution_submitted := true } },
              generate_message "solution_feedback"))
      split
      · refine HandlerOK_bind_grow (fun w => rfl) (fun w e he => he)
          (fun w => RecMono_solutions _ _ _) ?_
        exact HandlerOK_bind_saveUser _ rfl rfl rfl (fun _ h => h)
          (HandlerOK_map (transition_to_execution_ok ag uid _) _)
      · exact HandlerOK_bind_saveUser _ rfl rfl rfl (fun _ h => h)
          (HandlerOK_pure uid _ _)

theorem orch_evaluate_solution_ok (ag : Agents) (uid : String) (us : UserState)
    (message : String) :
    HandlerOK uid us (orch_evaluate_solution ag us message) := by
  unfold orch_evaluate_solution
  refine HandlerOK_bind_pres (fun w => rfl) ?_
  intro problem _ _
  refine HandlerOK_bind_pres ?_ ?_
  · intro w
    split <;> rfl
  intro solution_id _ _
  refine HandlerOK_bind_pres (requireStr_pres _ _) ?_
  intro problem_id _ _
  refine HandlerOK_bind_pres (requireStr_pres _ _) ?_
  intro project_id _ _
  refine HandlerOK_bind_pres (fun w => rfl) ?_
  intro request_id _ _
  refine HandlerOK_bind_pres (fun w => rfl) ?_
  intro tutor_output _ _
  refine solutionEval_tail_ok ag uid us ?_ ?_ ?_ ?_
  exact (applySolutionEval_keys _ _).1

theorem handle_solution_design_ok (ag : Agents) (uid : String) (us : UserState)
    (message : String) :
    HandlerOK uid us (handle_solution_design ag us message) := by
  unfold handle_solution_design
  split
  · split
    · exact orch_evaluate_solution_ok ag uid us message
    · exact HandlerOK_bind_saveUser
        { us with context := { us.context with awaiting_solution := true } }
        rfl rfl rfl (fun _ h => h) (HandlerOK_pure uid _ _)
  · split
    · exact orch_evaluate_solution_ok ag uid us message
    · exact HandlerOK_pure uid us _

theorem transition_to_solution_design_ok (ag : Agents) (uid : String) (us : UserState) :
    HandlerOK uid us (transition_to_solution_design ag us) :=
  HandlerOK_bind_transition .solution_design "Problem approved"
    (fun us' => handle_solution_design_ok ag uid us' "")

/-- The persistence tail of `_evaluate_problem`, mirroring
`solutionEval_tail_ok`. -/
theorem problemEval_tail_ok (ag : Agents) (uid : String) (us : UserState)
    (problem1 : ProblemDefinition) (b passed : Bool)
    (huid : problem1.user_id = us.user_id) :
    HandlerOK uid us (save_problem_definition problem1 >>= fun _ =>
      (let us1 := if b = true then us
        else { us with problem_id := some problem1.problem_id };
      let us2 := { us1 with context := { us1.context with problem_submitted := true } };
      if passed = true then
        save_problem_definition problem1 >>= fun _ =>
          (let us3 := { us2 with problem_approved := true };
          save_user_state us3 >>= fun _ =>
            transition_to_solution_design ag us3 >>= fun r =>
              pure (r.1, generate_message "problem_feedback" ++ "\n\n" ++ r.2))
      else
        save_user_state us2 >>= fun _ =>
          pure (us2, generate_message "problem_feedback"))) := by
  cases b
  · refine HandlerOK_grow_switch
      { us with problem_id := some problem1.problem_id,
                context := { us.context with problem_submitted := true } }
      (fun w => rfl) (fun w e he => he) (fun w => RecMono_problems _ _ _)
      rfl rfl rfl ?_ ?_
    · intro w hG
      obtain ⟨f1, f2, f3, f4, f5⟩ := hG.2.1
      refine ⟨f1, ?_, f3, f4, f5⟩
      intro pid hpid
      have hpid' : some problem1.problem_id = some pid := hpid
      injection hpid' with h2
      show ((upd w.store.problems (problem1.user_id, problem1.problem_id) problem1)
        (us.user_id, pid)).isSome = true
      rw [← h2, ← huid]
      exact upd_self_isSome _ _ _
    · show HandlerOK uid
        { us with problem_id := some problem1.problem_id,
                  context := { us.context with problem_submitted := true } }
        (if passed = true then
          save_problem_definition problem1 >>= fun _ =>
            save_user_state
                { us with problem_id := some problem1.problem_id,
                          context := { us.context with problem_submitted := true },
                          problem_approved := true } >>= fun _ =>
              transition_to_solution_design ag
                  { us with problem_id := some problem1.problem_id,
                            context := { us.context with problem_submitted := true },
                            problem_approved := true } >>= fun r =>
                pure (r.1, generate_message "problem_feedback" ++ "\n\n" ++ r.2)
        else
          save_user_state
              { us with problem_id := some problem1.problem_id,
                        context := { us.context with problem_submitted := true } } >>= fun _ =>
            pure ({ us with problem_id := some problem1.problem_id,
                            context := { us.context with problem_submitted := true } },
              generate_message "problem_feedback"))
      split
      · refine HandlerOK_bind_grow (fun w => rfl) (fun w e he => he)
          (fun w => RecMono_problems _ _ _) ?_
        exact HandlerOK_bind_saveUser _ rfl rfl rfl (fun _ h => h)
          (HandlerOK_map (transition_to_solution_design_ok ag uid _) _)
      · exact HandlerOK_bind_saveUser _ rfl rfl rfl (fun _ h => h)
          (HandlerOK_pure uid _ _)
  · refine HandlerOK_grow_switch
      { us with context := { us.context with problem_submitted := true } }
      (fun w => rfl) (fun w e he => he) (fun w => RecMono_problems _ _ _)
      rfl rfl rfl ?_ ?_
    · intro w hG
      obtain ⟨f1, f2, f3, f4, f5⟩ := hG.2.1
      exact ⟨f1, fun pid hp => upd_isSome_mono _ _ _ _ (f2 pid hp), f3, f4, f5⟩
    · show HandlerOK uid
        { us with context := { us.context with problem_submitted := true } }
        (if passed = true then
          save_problem_definition problem1 >>= fun _ =>
            save_user_state
                { us with context := { us.context with problem_submitted := true },
                          problem_approved := true } >>= fun _ =>
              transition_to_solution_design ag
                  { us with context := { us.context with problem_submitted := true },
                            problem_approved := true } >>= fun r =>
                pure (r.1, generate_message "problem_feedback" ++ "\n\n" ++ r.2)
        else
          save_user_state
              { us with context := { us.context with problem_submitted := true } } >>= fun _ =>
            pure ({ us with context := { us.context with problem_submitted := true } },
              generate_message "problem_feedback"))
      split
      · refine HandlerOK_bind_grow (fun w => rfl) (fun w e he => he)
          (fun w => RecMono_problems _ _ _) ?_
        exact HandlerOK_bind_saveUser _ rfl rfl rfl (fun _ h => h)
          (HandlerOK_map (transition_to_solution_design_ok ag uid _) _)
      · exact HandlerOK_bind_saveUser _ rfl rfl rfl (fun _ h => h)
          (HandlerOK_pure uid _ _)

theorem orch_evaluate_problem_ok (ag : Agents) (uid : String) (us : UserState)
    (message : String) :
    HandlerOK uid us (orch_evaluate_problem ag us message) := by
  unfold orch_evaluate_problem
  refine HandlerOK_bind_pres ?_ ?_
  · intro w
    split <;> rfl
  intro problem_id _ _
  refine HandlerOK_bind_pres (requireStr_pres _ _) ?_
  intro project_id _ _
  refine HandlerOK_bind_pres (fun w => rfl) ?_
  intro request_id _ _
  refine HandlerOK_bind_pres (fun w => rfl) ?_
  intro tutor_output _ _
  refine problemEval_tail_ok ag uid us ?_ ?_ ?_ ?_
  exact (applyProblemEval_keys _ _).1

theorem handle_problem_definition_ok (ag : Agents) (uid : String) (us : UserState)
    (message : String) :
    HandlerOK uid us (handle_problem_definition ag us message) := by
  unfold handle_problem_definition
  split
  · split
    · exact orch_evaluate_problem_ok ag uid us message
    · exact HandlerOK_bind_saveUser
        { us with context := { us.context with awaiting_problem := true } }
        rfl rfl rfl (fun _ h => h) (HandlerOK_pure uid _ _)
  · split
    · exact orch_evaluate_problem_ok ag uid us message
    · exact HandlerOK_pure uid us _

theorem transition_to_problem_definition_ok (ag : Agents) (uid : String)
    (us : UserState) :
    HandlerOK uid us (transition_to_problem_definition ag us) :=
  HandlerOK_bind_transition .problem_definition "Project approved"
    (fun us' => handle_problem_definition_ok ag uid us' "")

theorem generateProject_ok (ag : Agents) (uid : String) (us : UserState) :
    HandlerOK uid us (generateProject ag us) := by
  unfold generateProject
  refine HandlerOK_bind_pres (fun w => rfl) ?_
  intro request_id _ _
  refine HandlerOK_bind_pres (requireStr_pres _ _) ?_
  intro target_role _ _
  refine HandlerOK_bind_pres (requireStr_pres _ _) ?_
  intro target_domain _ _
  refine HandlerOK_bind_pres (fun w => rfl) ?_
  intro output _ _
  split
  · exact HandlerOK_pure uid us _
  · rcases output.proposal with _ | proposal
    · exact HandlerOK_pure uid us _
    · refine HandlerOK_bind_pres (fun w => rfl) ?_
      intro pid _ _
      refine HandlerOK_grow_switch { us with project_id := some pid }
        (fun w => rfl) (fun w e he => he) (fun w => RecMono_projects _ _ _)
        rfl rfl rfl ?_ ?_
      · intro w hG
        obtain ⟨f1, f2, f3, f4, f5⟩ := hG.2.1
        refine ⟨?_, f2, f3, f4, f5⟩
        intro pid' hp
        have hp' : some pid = some pid' := hp
        injection hp' with h2
        show ((upd w.store.projects (us.user_id, pid)
          { project_id := pid, user_id := us.user_id, proposal := proposal,
            status := "proposed" }) (us.user_id, pid')).isSome = true
        rw [← h2]
        exact upd_self_isSome _ _ _
      · exact HandlerOK_bind_saveUser _ rfl rfl rfl (fun _ h => h)
          (HandlerOK_pure uid _ _)

theorem handle_project_generation_ok (ag : Agents) (uid : String) (us : UserState)
    (message : String) :
    HandlerOK uid us (handle_project_generation ag us message) := by
  unfold handle_project_generation
  split
  · exact generateProject_ok ag uid us
  · rcases parse_user_input_approval message with _ | b
    · exact HandlerOK_pure uid us _
    · cases b
      · refine HandlerOK_bind_saveUser { us with project_id := none }
          rfl rfl rfl ?_ ?_
        · intro s h
          obtain ⟨f1, f2, f3, f4, f5⟩ := h
          exact ⟨fun pid hp => Option.noConfusion hp, f2, f3, f4, f5⟩
        · exact HandlerOK_map (generateProject_ok ag uid _) _
      · exact HandlerOK_bind_saveUser { us with project_approved := true }
          rfl rfl rfl (fun _ h => h)
          (transition_to_problem_definition_ok ag uid _)

theorem transition_to_project_generation_ok (ag : Agents) (uid : String)
    (us : UserState) :
    HandlerOK uid us (transition_to_project_generation ag us) :=
  HandlerOK_bind_transition .project_generation "Onboarding completed"
    (fun us' => HandlerOK_map (handle_project_generation_ok ag uid us' "") _)

theorem handle_onboarding_ok (ag : Agents) (uid : String) (us : UserState)
    (message : String) :
    HandlerOK uid us (handle_onboarding ag us message) := by
  unfold handle_onboarding
  split
  · show HandlerOK uid us
      (if message ≠ "" ∧ message.length > 10 then
        save_user_state { us with target_role := some message, context := { us.context with onboarding_step := some "domain" } } >>= fun _ =>
          pure ({ us with target_role := some message, context := { us.context with onboarding_step := some "domain" } },
            generate_message "welcome" ++ "\n\nGreat! Now, what industry or domain are you targeting? (e.g., FinTech, Healthcare, E-commerce)")
      else
        pure (us, generate_message "welcome"))
    split
    · exact HandlerOK_bind_saveUser _ rfl rfl rfl (fun _ h => h)
        (HandlerOK_pure uid _ _)
    · exact HandlerOK_pure uid us _
  · split
    · exact HandlerOK_bind_saveUser _ rfl rfl rfl (fun _ h => h)
        (HandlerOK_pure uid _ _)
    · split
      · exact HandlerOK_bind_saveUser _ rfl rfl rfl (fun _ h => h)
          (HandlerOK_pure uid _ _)
      · exact HandlerOK_bind_saveUser _ rfl rfl rfl (fun _ h => h)
          (transition_to_project_generation_ok ag uid _)

theorem route_by_state_ok (ag : Agents) (uid : String) (us : UserState)
    (message : String) :
    HandlerOK uid us (route_by_state ag us message) := by
  unfold route_by_state
  rcases us.current_state
  · exact handle_onboarding_ok ag uid us message
  · exact handle_project_generation_ok ag uid us message
  · exact handle_problem_definition_ok ag uid us message
  · exact handle_solution_design_ok ag uid us message
  · exact handle_execution_ok ag uid us message
  · exact handle_review_ok ag uid us message
  · exact handle_completed_ok uid us message

/-- `_create_new_user_state` persists a fresh onboarding record; from any
invariant store holding no record under the key it yields a consistent
working state. -/
theorem create_new_user_state_ok (user_id : String) (w : World)
    (hInv : StoreInv w.store) (hnone : w.store.userStates user_id = none) :
    StoreInv ((create_new_user_state user_id w).2).store ∧
    EvOK w.store ((create_new_user_state user_id w).2).store user_id ∧
    ∀ r, (create_new_user_state user_id w).1 = .ok r →
      Good user_id r ((create_new_user_state user_id w).2).store := by
  have hFK : FKInv w.store ({ user_id := user_id, current_state := .onboarding } : UserState) :=
    ⟨fun pid hp => Option.noConfusion hp, fun pid hp => Option.noConfusion hp,
     fun sid hp => Option.noConfusion hp, fun mid hp => Option.noConfusion hp,
     fun rid hp => Option.noConfusion hp⟩
  have hrun : create_new_user_state user_id w =
      (.ok { user_id := user_id, current_state := .onboarding },
       { w with store := saveUserStore w.store { user_id := user_id, current_state := .onboarding } }) := rfl
  rw [hrun]
  refine ⟨StoreInv_saveUser hInv hFK, ?_, ?_⟩
  · refine EvOK_saveUser_same ?_
    intro usS h
    rw [hnone] at h
    exact Option.noConfusion h
  · intro r hr
    injection hr with h2
    rw [← h2]
    refine ⟨rfl, ?_, StoreInv_saveUser hInv hFK, ?_⟩
    · exact ⟨fun pid hp => Option.noConfusion hp, fun pid hp => Option.noConfusion hp,
        fun sid hp => Option.noConfusion hp, fun mid hp => Option.noConfusion hp,
        fun rid hp => Option.noConfusion hp⟩
    · intro usS h
      have h' : (if user_id = user_id
          then some ({ user_id := user_id, current_state := .onboarding } : UserState)
          else w.store.userStates user_id) = some usS := h
      rw [if_pos rfl] at h'
      injection h' with h3
      rw [← h3]
      exact ⟨rfl, rfl⟩

/-- The routing tail: from a consistent working state, the invariant is
preserved and the store evolves legally (whatever the routed handler did,
including the final persist of the returned state and the reply log). -/
theorem procTail_spec (ag : Agents) (uid message : String) (us0 : UserState)
    (w : World) (hG : Good uid us0 w.store) :
    StoreInv ((procTail ag uid message us0 w).2).store ∧
    EvOK w.store ((procTail ag uid message us0 w).2).store uid := by
  obtain ⟨sR, eR, gR⟩ := route_by_state_ok ag uid us0 message w hG
  rcases hr : route_by_state ag us0 message w with ⟨resR, w3⟩
  rw [hr] at sR eR gR
  cases resR with
  | error e =>
    have hrun : procTail ag uid message us0 w = (.error e, w3) := by
      unfold procTail
      rw [OrchM_bind_apply, hr]
    rw [hrun]
    exact ⟨sR, eR⟩
  | ok r =>
    have hG3 : Good uid r.1 w3.store := gR r rfl
    have hrun : procTail ag uid message us0 w = (.ok r.2,
        { w3 with store := { (saveUserStore w3.store r.1) with conversation :=
          (uid, "MainChat", r.2) :: (saveUserStore w3.store r.1).conversation } }) := by
      unfold procTail
      rw [OrchM_bind_apply, hr]
      rfl
    rw [hrun]
    obtain ⟨hGs, hEs⟩ := Good_saveUser r.1 rfl rfl rfl hG3.2.1 hG3
    refine ⟨?_, ?_⟩
    · exact StoreInv_of_recGrow rfl (RecMono_refl _) hGs.2.2.1
    · exact EvOK.trans eR (EvOK.trans hEs
        (EvOK_of_userStates_eq rfl (fun e he => he) uid))

/-- The whole `try` body preserves the store invariant and is a legal store
evolution, starting from any invariant store. -/
theorem processBody_spec (ag : Agents) (user_id message : String) (w : World)
    (hInv : StoreInv w.store) :
    StoreInv ((processBody ag user_id message w).2).store ∧
    EvOK w.store ((processBody ag user_id message w).2).store user_id := by
  have hInv1 : StoreInv ({ w with store := { w.store with conversation :=
      (user_id, "user", message) :: w.store.conversation } } : World).store :=
    StoreInv_of_recGrow rfl (RecMono_refl _) hInv
  have hE1 : EvOK w.store ({ w with store := { w.store with conversation :=
      (user_id, "user", message) :: w.store.conversation } } : World).store user_id :=
    EvOK_of_userStates_eq rfl (fun e he => he) user_id
  rcases hu : w.store.userStates user_id with _ | us0
  · have hrun : processBody ag user_id message w =
        (match create_new_user_state user_id { w with store := { w.store with conversation :=
            (user_id, "user", message) :: w.store.conversation } } with
         | (.ok us0, w2) => procTail ag user_id message us0 w2
         | (.error e, w2) => (.error e, w2)) := by
      simp only [processBody, log_user_message, modifyStore, load_user_state,
        OrchM_bind_apply, OrchM_pure_apply]
      rw [hu]
      rfl
    rw [hrun]
    rcases hc : create_new_user_state user_id { w with store := { w.store with conversation :=
        (user_id, "user", message) :: w.store.conversation } } with ⟨resC, w2⟩
    obtain ⟨sC, eC, gC⟩ := create_new_user_state_ok user_id _ hInv1 hu
    rw [hc] at sC eC gC
    cases resC with
    | error e =>
      exact ⟨sC, EvOK.trans hE1 eC⟩
    | ok us0 =>
      obtain ⟨sT, eT⟩ := procTail_spec ag user_id message us0 w2 (gC us0 rfl)
      exact ⟨sT, EvOK.trans hE1 (EvOK.trans eC eT)⟩
  · have hrun : processBody ag user_id message w =
        procTail ag user_id message us0 { w with store := { w.store with conversation :=
          (user_id, "user", message) :: w.store.conversation } } := by
      simp only [processBody, log_user_message, modifyStore, load_user_state,
        OrchM_bind_apply, OrchM_pure_apply]
      rw [hu]
      rfl
    have hG : Good user_id us0 ({ w with store := { w.store with conversation :=
        (user_id, "user", message) :: w.store.conversation } } : World).store := by
      obtain ⟨hid, hmem, hFK⟩ := hInv1 user_id us0 hu
      refine ⟨hid, hFK, hInv1, ?_⟩
      intro usS h
      have h' : w.store.userStates user_id = some usS := h
      rw [hu] at h'
      injection h' with h2
      rw [← h2]
      exact ⟨rfl, rfl⟩
    obtain ⟨sT, eT⟩ := procTail_spec ag user_id message us0 _ hG
    rw [hrun]
    exact ⟨sT, EvOK.trans hE1 eT⟩

/-- A trivially succeeding oracle and concrete orchestrator wirings for
concrete runs. -/
def oracleOk : OracleFn := fun _ _ _ => .ok ""

def agOk : Agents := { oracle := oracleOk, rag := none }

def agC3 : Agents := { oracle := faultingOracle, rag := none }

def emptyStore : Store :=
  { userStates := fun _ => none, projects := fun _ => none, problems := fun _ => none,
    solutions := fun _ => none, milestones := fun _ => none, reviews := fun _ => none,
    transitions := [], conversation := [] }

def wEmpty : World := { store := emptyStore, uuidCounter := 0, today := 0 }

theorem StoreInv_emptyStore : StoreInv emptyStore :=
  fun _ _ h => Option.noConfusion h

/-- A user who has answered role, domain and background and is one `skip`
away from completing onboarding. -/
def usC3 : UserState :=
  { user_id := "u", current_state := .onboarding,
    target_role := some "Product Manager", target_domain := some "FinTech",
    background := some "Engineer" }

def wC3 : World :=
  { store := saveUserStore emptyStore usC3, uuidCounter := 0, today := 0 }

/-- C9: in every Durable State reachable through the Orchestrator's message
processing, the current phase is a member of the fixed 7-value phase set and
each phase foreign key (project, problem, solution, current milestone,
review id) is non-null only after that phase's record has been created by
its owning worker (`StoreInv` is preserved by `process_user_message` from
any invariant store), and a persisted phase changes only through the
guarded `_transition_to` step, which records the previous phase and appends
a Transition Record along a valid edge of the phase graph (`EvOK`). -/
theorem c9_durable_state_invariant (ag : Agents) (user_id message : String)
    (w : World) (hInv : StoreInv w.store) :
    StoreInv (process_user_message ag user_id message w).2.store ∧
    EvOK w.store (process_user_message ag user_id message w).2.store user_id := by
  obtain ⟨s, e⟩ := processBody_spec ag user_id message w hInv
  unfold process_user_message
  rcases hb : processBody ag user_id message w with ⟨res, w'⟩
  rw [hb] at s e
  cases res with
  | ok reply => exact ⟨s, e⟩
  | error err => exact ⟨s, e⟩

theorem c9_durable_state_invariant_witness :
    StoreInv wEmpty.store ∧
    (StoreInv (process_user_message agOk "u" "hello" wEmpty).2.store ∧
     EvOK wEmpty.store (process_user_message agOk "u" "hello" wEmpty).2.store "u") :=
  ⟨StoreInv_emptyStore,
   c9_durable_state_invariant agOk "u" "hello" wEmpty StoreInv_emptyStore⟩

/-- C3 counterexample: for the stored user `usC3` sending "skip" while the
oracle faults, the fault is converted to the apologetic reply — but the
Durable State was already changed before the fault (partial persistence):
the stored phase moved from onboarding to project_generation, refuting "the
user's Durable State is left unchanged". -/
theorem c3_counterexample_partial_persistence :
    (process_user_message agC3 "u" "skip" wC3).1 =
      "I encountered an error processing your message. Please try again. Error: "
        ++ (PyErr.validationError "ProjectGeneratorOutput.reasoning").str ∧
    (wC3.store.userStates "u").map UserState.current_state = some .onboarding ∧
    ((process_user_message agC3 "u" "skip" wC3).2.store.userStates "u").map
      UserState.current_state = some .project_generation :=
  ⟨rfl, rfl, rfl⟩

/-- C3 (amended): `process_user_message` always returns a reply string to
the caller: a normal body run returns its reply and its final world, and a
faulting body run is caught at the top level and converted into the single
apologetic reply carrying the error text — with the Durable State left
exactly as the body had already persisted it at the point of the fault
(there is no rollback, so partial persistence is possible). -/
theorem c3_amended_top_level_catch (ag : Agents) (user_id message : String)
    (w : World) :
    (∀ reply w1, processBody ag user_id message w = (.ok reply, w1) →
      process_user_message ag user_id message w = (reply, w1)) ∧
    (∀ e w1, processBody ag user_id message w = (.error e, w1) →
      process_user_message ag user_id message w =
        ("I encountered an error processing your message. Please try again. Error: "
          ++ e.str, w1)) := by
  constructor
  · intro reply w1 h
    unfold process_user_message
    rw [h]
  · intro e w1 h
    unfold process_user_message
    rw [h]

theorem c3_amended_top_level_catch_witness :
    process_user_message agC3 "u" "skip" wC3 =
      ("I encountered an error processing your message. Please try again. Error: "
        ++ (PyErr.validationError "ProjectGeneratorOutput.reasoning").str,
       (processBody agC3 "u" "skip" wC3).2) :=
  (c3_amended_top_level_catch agC3 "u" "skip" wC3).2
    (PyErr.validationError "ProjectGeneratorOutput.reasoning")
    (processBody agC3 "u" "skip" wC3).2 (by rfl)

end Sapiens
